import Mathlib

/-!
# Reson 7k (MBF_RESON7K3) record layouts

A development over `mbsys_reson7k3.h`, the MB-System header that defines the
record identifiers, the record size constants and the in-memory structures of
the Teledyne Reson 7k data format.

The header is embedded as data: every `#define` of the record ID table and of
the record size table is a Lean constant and a row of a table, and every
`typedef struct` is a value of `CType` listing its fields in declaration order.
Wire widths are computed from those field lists.
-/

namespace Reson7k

set_option autoImplicit false

/-! ## C types of the header -/

/-- The C types that occur as field types in `mbsys_reson7k3.h`.
`mb_u_char` and `mb_u_long` come from `mb_define.h`; the header annotates
`mb_u_char` fields as `u8` (lines 358-359). -/
inductive CType where
  | unsigned_short
  | unsigned_int
  | unsigned_char
  | unsigned_double
  | mb_u_char
  | mb_u_long
  | char
  | int
  | short
  | float
  | double
  | void
  | arr (elem : CType) (len : Nat)
  | ptr (elem : CType)
  | struct (tag : String) (fields : List (String × CType))
deriving Repr, Inhabited

mutual
/-- Number of bytes a value of the type occupies in a 7k record on the wire,
following the width annotations of the header (`u16`, `u32`, `f32`, `u8` at
lines 353-359 and 363-375): `unsigned short` and `short` are 2, `unsigned int`, `int` and
`float` are 4, `double`, `mb_u_long` and the serial-number type are 8, the
character types are 1, an array is its length times its element, a structure
is the sum of its fields.  A pointer is an in-memory handle and occupies no
bytes itself: what it points to is sized by a count field. -/
def CType.wireWidth : CType → Nat
  | .unsigned_short => 2
  | .unsigned_int => 4
  | .unsigned_char => 1
  | .unsigned_double => 8
  | .mb_u_char => 1
  | .mb_u_long => 8
  | .char => 1
  | .int => 4
  | .short => 2
  | .float => 4
  | .double => 8
  | .void => 0
  | .arr t n => n * t.wireWidth
  | .ptr _ => 0
  | .struct _ fs => widthFields fs
/-- Sum of the wire widths of a list of fields. -/
def widthFields : List (String × CType) → Nat
  | [] => 0
  | f :: fs => f.2.wireWidth + widthFields fs
end

/-- Fields of a structure type, in declaration order. -/
def CType.fields : CType → List (String × CType)
  | .struct _ fs => fs
  | _ => []

/-- Wire width of each field of a list, in order. -/
def fieldWidths (fs : List (String × CType)) : List Nat :=
  fs.map (fun f => f.2.wireWidth)

/-- Names of the fields of a list, in order. -/
def fieldNames (fs : List (String × CType)) : List String :=
  fs.map (fun f => f.1)

/-- The payload fields of a record structure: every field after the leading
`header` field. -/
def payloadFields (t : CType) : List (String × CType) :=
  match t.fields with
  | [] => []
  | f :: rest => if f.1 = "header" then rest else f :: rest

/-- The fixed fields of a record structure: the payload fields that precede
the in-memory `nalloc` field (all payload fields when there is none). -/
def fixedFields (t : CType) : List (String × CType) :=
  (payloadFields t).takeWhile (fun f => f.1 != "nalloc")

/-- The payload fields of a record structure that precede the field with the
given name. -/
def fieldsBefore (t : CType) (name : String) : List (String × CType) :=
  (payloadFields t).takeWhile (fun f => f.1 != name)

/-- The element types of the sample arrays of a record structure: the pointee
of every pointer field, in declaration order. -/
def sampleFields (t : CType) : List (String × CType) :=
  (payloadFields t).filterMap
    (fun f => match f.2 with
      | .ptr e => some (f.1, e)
      | _ => none)

/-- Concatenation of `n` copies of a list of leaf widths. -/
def repeatLeaves : Nat → List Nat → List Nat
  | 0, _ => []
  | n + 1, ws => ws ++ repeatLeaves n ws

mutual
/-- The scalar leaves of a type in wire order, each given by its width in
bytes: a structure is flattened into the leaves of its fields, an array into
the leaves of its elements; pointers and `void` have no leaves. -/
def CType.leaves : CType → List Nat
  | .unsigned_short => [2]
  | .unsigned_int => [4]
  | .unsigned_char => [1]
  | .unsigned_double => [8]
  | .mb_u_char => [1]
  | .mb_u_long => [8]
  | .char => [1]
  | .int => [4]
  | .short => [2]
  | .float => [4]
  | .double => [8]
  | .void => []
  | .arr t n => repeatLeaves n t.leaves
  | .ptr _ => []
  | .struct _ fs => leavesFields fs
/-- The scalar leaves of a list of fields, in wire order. -/
def leavesFields : List (String × CType) → List Nat
  | [] => []
  | f :: fs => f.2.leaves ++ leavesFields fs
end

/-! ## Frame constants and structures -/

def MBSYS_RESON7K_VERSIONSYNCSIZE : Nat := 64
def MBSYS_RESON7K_RECORDHEADER_SIZE : Nat := 64
def MBSYS_RESON7K_RECORDTAIL_SIZE : Nat := 4

/-! ### Structure size definitions (header lines 345-350) -/

def MBSYS_RESON7K_BUFFER_STARTSIZE : Nat := 32768
def MBSYS_RESON7K_MAX_DEVICE : Nat := 71
def MBSYS_RESON7K_MAX_RECEIVERS : Nat := 1024
def MBSYS_RESON7K_MAX_BEAMS : Nat := 1024
def MBSYS_RESON7K_MAX_PIXELS : Nat := 4096

/-- Embedding of the typedef s7k_time (header lines 352-360), fields in declaration order. -/
def s7k_time : CType :=
  .struct "s7k_time"
    [("Year", .unsigned_short),
     ("Day", .unsigned_short),
     ("Seconds", .float),
     ("Hours", .mb_u_char),
     ("Minutes", .mb_u_char)]

/-- Embedding of the typedef s7k_header (header lines 362-412), fields in declaration order. -/
def s7k_header : CType :=
  .struct "s7k_header"
    [("Version", .unsigned_short),
     ("Offset", .unsigned_short),
     ("SyncPattern", .unsigned_int),
     ("Size", .unsigned_int),
     ("OptionalDataOffset", .unsigned_int),
     ("OptionalDataIdentifier", .unsigned_int),
     ("s7kTime", s7k_time),
     ("RecordVersion", .unsigned_short),
     ("RecordType", .unsigned_int),
     ("DeviceId", .unsigned_int),
     ("Reserved", .unsigned_short),
     ("SystemEnumerator", .unsigned_short),
     ("Reserved2", .unsigned_int),
     ("Flags", .unsigned_short),
     ("Reserved3", .unsigned_short),
     ("Reserved4", .unsigned_int),
     ("FragmentedTotal", .unsigned_int),
     ("FragmentNumber", .unsigned_int)]

/-- Embedding of the typedef s7kr_reference (header lines 416-422), fields in declaration order. -/
def s7kr_reference : CType :=
  .struct "s7kr_reference"
    [("header", s7k_header),
     ("offset_x", .float),
     ("offset_y", .float),
     ("offset_z", .float),
     ("water_z", .float)]

/-- Embedding of the typedef s7kr_sensoruncal (header lines 425-433), fields in declaration order. -/
def s7kr_sensoruncal : CType :=
  .struct "s7kr_sensoruncal"
    [("header", s7k_header),
     ("offset_x", .float),
     ("offset_y", .float),
     ("offset_z", .float),
     ("offset_roll", .float),
     ("offset_pitch", .float),
     ("offset_yaw", .float)]

/-- Embedding of the typedef s7kr_sensorcal (header lines 436-444), fields in declaration order. -/
def s7kr_sensorcal : CType :=
  .struct "s7kr_sensorcal"
    [("header", s7k_header),
     ("offset_x", .float),
     ("offset_y", .float),
     ("offset_z", .float),
     ("offset_roll", .float),
     ("offset_pitch", .float),
     ("offset_yaw", .float)]

/-- Embedding of the typedef s7kr_position (header lines 447-480), fields in declaration order. -/
def s7kr_position : CType :=
  .struct "s7kr_position"
    [("header", s7k_header),
     ("datum", .unsigned_int),
     ("latency", .float),
     ("latitude", .double),
     ("longitude", .double),
     ("height", .double),
     ("type", .mb_u_char),
     ("utm_zone", .mb_u_char),
     ("quality", .mb_u_char),
     ("method", .mb_u_char)]

/-- Embedding of the typedef s7kr_tide (header lines 509-527), fields in declaration order. -/
def s7kr_tide : CType :=
  .struct "s7kr_tide"
    [("header", s7k_header),
     ("tide", .float),
     ("source", .unsigned_short),
     ("flags", .mb_u_char),
     ("gauge", .unsigned_short),
     ("datum", .unsigned_int),
     ("latency", .float),
     ("latitude", .double),
     ("longitude", .double),
     ("height", .double),
     ("type", .mb_u_char),
     ("utm_zone", .mb_u_char)]

/-- Embedding of the typedef s7kr_altitude (header lines 530-533), fields in declaration order. -/
def s7kr_altitude : CType :=
  .struct "s7kr_altitude"
    [("header", s7k_header),
     ("altitude", .float)]

/-- Embedding of the typedef s7kr_depth (header lines 555-565), fields in declaration order. -/
def s7kr_depth : CType :=
  .struct "s7kr_depth"
    [("header", s7k_header),
     ("descriptor", .mb_u_char),
     ("correction", .mb_u_char),
     ("reserved", .unsigned_short),
     ("depth", .float)]

/-- Embedding of the typedef s7kr_svp (header lines 568-581), fields in declaration order. -/
def s7kr_svp : CType :=
  .struct "s7kr_svp"
    [("header", s7k_header),
     ("position_flag", .mb_u_char),
     ("reserved1", .mb_u_char),
     ("reserved2", .unsigned_short),
     ("latitude", .double),
     ("longitude", .double),
     ("n", .unsigned_int),
     ("nalloc", .int),
     ("depth", (.ptr .float)),
     ("sound_velocity", (.ptr .float))]

/-- Embedding of the typedef s7kr_rollpitchheave (header lines 678-683), fields in declaration order. -/
def s7kr_rollpitchheave : CType :=
  .struct "s7kr_rollpitchheave"
    [("header", s7k_header),
     ("roll", .float),
     ("pitch", .float),
     ("heave", .float)]

/-- Embedding of the typedef s7kr_heading (header lines 686-689), fields in declaration order. -/
def s7kr_heading : CType :=
  .struct "s7kr_heading"
    [("header", s7k_header),
     ("heading", .float)]

/-- Embedding of the typedef s7kr_navigation (header lines 707-722), fields in declaration order. -/
def s7kr_navigation : CType :=
  .struct "s7kr_navigation"
    [("header", s7k_header),
     ("vertical_reference", .mb_u_char),
     ("latitude", .double),
     ("longitude", .double),
     ("position_accuracy", .float),
     ("height", .float),
     ("height_accuracy", .float),
     ("speed", .float),
     ("course", .float),
     ("heading", .float)]

/-- Embedding of the typedef s7kr_attitude (header lines 725-734), fields in declaration order. -/
def s7kr_attitude : CType :=
  .struct "s7kr_attitude"
    [("header", s7k_header),
     ("n", .mb_u_char),
     ("nalloc", .int),
     ("delta_time", (.ptr .unsigned_short)),
     ("roll", (.ptr .float)),
     ("pitch", (.ptr .float)),
     ("heave", (.ptr .float)),
     ("heading", (.ptr .float))]

/-- Embedding of the typedef s7kr_pantilt (header lines 737-741), fields in declaration order. -/
def s7kr_pantilt : CType :=
  .struct "s7kr_pantilt"
    [("header", s7k_header),
     ("pan", .float),
     ("tilt", .float)]

/-- Embedding of the typedef s7kr_sonarinstallationids (header lines 744-783), fields in declaration order. -/
def s7kr_sonarinstallationids : CType :=
  .struct "s7kr_sonarinstallationids"
    [("header", s7k_header),
     ("system_id", .unsigned_int),
     ("tx_id", .unsigned_int),
     ("rx_id", .unsigned_int),
     ("std_id", .unsigned_int),
     ("conf_pars", .unsigned_int),
     ("tx_length", .float),
     ("tx_width", .float),
     ("tx_height", .float),
     ("tx_radius", .float),
     ("offset_srp2tx_x", .float),
     ("offset_srp2tx_y", .float),
     ("offset_srp2tx_z", .float),
     ("offset_tx_roll", .float),
     ("offset_tx_pitch", .float),
     ("offset_tx_yaw", .float),
     ("rx_length", .float),
     ("rx_width", .float),
     ("rx_height", .float),
     ("rx_radius", .float),
     ("offset_srp2rx_x", .float),
     ("offset_srp2rx_y", .float),
     ("offset_srp2rx_z", .float),
     ("offset_rx_roll", .float),
     ("offset_rx_pitch", .float),
     ("offset_rx_yaw", .float),
     ("frequency", .float),
     ("offset_vrp2srp_x", .float),
     ("offset_vrp2srp_y", .float),
     ("offset_vrp2srp_z", .float),
     ("cable_length", .unsigned_int),
     ("reserved", (.arr .char 44))]

/-- Embedding of the typedef s7kr_soundvelocity (header lines 1919-1922), fields in declaration order. -/
def s7kr_soundvelocity : CType :=
  .struct "s7kr_soundvelocity"
    [("header", s7k_header),
     ("soundvelocity", .float)]

/-- Embedding of the typedef s7kr_absorptionloss (header lines 1925-1928), fields in declaration order. -/
def s7kr_absorptionloss : CType :=
  .struct "s7kr_absorptionloss"
    [("header", s7k_header),
     ("absorptionloss", .float)]

/-- Embedding of the typedef s7kr_spreadingloss (header lines 1931-1934), fields in declaration order. -/
def s7kr_spreadingloss : CType :=
  .struct "s7kr_spreadingloss"
    [("header", s7k_header),
     ("spreadingloss", .float)]

/-- Embedding of the typedef s7kr_ctd (header lines 584-621), fields in declaration order. -/
def s7kr_ctd : CType :=
  .struct "s7kr_ctd"
    [("header", s7k_header),
     ("frequency", .float),
     ("velocity_source_flag", .mb_u_char),
     ("velocity_algorithm", .mb_u_char),
     ("conductivity_flag", .mb_u_char),
     ("pressure_flag", .mb_u_char),
     ("position_flag", .mb_u_char),
     ("validity", .mb_u_char),
     ("reserved", .unsigned_short),
     ("latitude", .double),
     ("longitude", .double),
     ("sample_rate", .float),
     ("n", .unsigned_int),
     ("nalloc", .int),
     ("conductivity_salinity", (.ptr .float)),
     ("temperature", (.ptr .float)),
     ("pressure_depth", (.ptr .float)),
     ("sound_velocity", (.ptr .float)),
     ("absorption", (.ptr .float))]

/-- Embedding of the typedef s7kr_geodesy (header lines 624-675), fields in declaration order. -/
def s7kr_geodesy : CType :=
  .struct "s7kr_geodesy"
    [("header", s7k_header),
     ("spheroid", (.arr .char 32)),
     ("semimajoraxis", .double),
     ("flattening", .double),
     ("reserved1", (.arr .char 16)),
     ("datum", (.arr .char 32)),
     ("calculation_method", .unsigned_int),
     ("number_parameters", .unsigned_int),
     ("dx", .double),
     ("dy", .double),
     ("dz", .double),
     ("rx", .double),
     ("ry", .double),
     ("rz", .double),
     ("scale", .double),
     ("reserved2", (.arr .char 35)),
     ("grid_name", (.arr .char 32)),
     ("distance_units", .mb_u_char),
     ("angular_units", .mb_u_char),
     ("latitude_origin", .double),
     ("central_meriidan", .double),
     ("false_easting", .double),
     ("false_northing", .double),
     ("central_scale_factor", .double),
     ("custom_identifier", .int),
     ("reserved3", (.arr .char 50))]

/-- Embedding of the typedef s7kr_surveyline (header lines 692-704), fields in declaration order. -/
def s7kr_surveyline : CType :=
  .struct "s7kr_surveyline"
    [("header", s7k_header),
     ("n", .unsigned_short),
     ("type", .unsigned_short),
     ("turnradius", .float),
     ("name", (.arr .char 64)),
     ("nalloc", .int),
     ("latitude", (.ptr .double)),
     ("longitude", (.ptr .double))]

/-- Embedding of the typedef s7kr_sonarpipeenvironment (header lines 786-805), fields in declaration order. -/
def s7kr_sonarpipeenvironment : CType :=
  .struct "s7kr_sonarpipeenvironment"
    [("header", s7k_header),
     ("pipe_number", .unsigned_int),
     ("s7kTime", s7k_time),
     ("ping_number", .unsigned_int),
     ("multiping_number", .unsigned_int),
     ("pipe_diameter", .float),
     ("sound_velocity", .float),
     ("sample_rate", .float),
     ("finished", .mb_u_char),
     ("points_number", .unsigned_int),
     ("n", .unsigned_int),
     ("reserved", (.arr .unsigned_int 10)),
     ("nalloc", .int),
     ("x", (.ptr .float)),
     ("y", (.ptr .float)),
     ("z", (.ptr .float)),
     ("angle", (.ptr .float)),
     ("sample_number", (.ptr .float))]

/-- Embedding of the typedef s7kr_amplitudephase (header lines 1424-1430), fields in declaration order. -/
def s7kr_amplitudephase : CType :=
  .struct "s7kr_amplitudephase"
    [("beam_number", .unsigned_short),
     ("number_samples", .unsigned_int),
     ("nalloc", .unsigned_int),
     ("amplitude", (.ptr .unsigned_short)),
     ("phase", (.ptr .short))]

/-- Embedding of the typedef s7kr_beamformeddata (header lines 1433-1445), fields in declaration order. -/
def s7kr_beamformeddata : CType :=
  .struct "s7kr_beamformeddata"
    [("header", s7k_header),
     ("serial_number", .unsigned_double),
     ("ping_number", .unsigned_int),
     ("multi_ping", .unsigned_short),
     ("number_beams", .unsigned_short),
     ("number_samples", .unsigned_int),
     ("reserved", (.arr .unsigned_int 8)),
     ("amplitudephase", (.arr s7kr_amplitudephase MBSYS_RESON7K_MAX_BEAMS))]

/-- Embedding of the typedef s7kr_v2snippettimeseries (header lines 1635-1642), fields in declaration order. -/
def s7kr_v2snippettimeseries : CType :=
  .struct "s7kr_v2snippettimeseries"
    [("beam_number", .unsigned_short),
     ("begin_sample", .unsigned_int),
     ("detect_sample", .unsigned_int),
     ("end_sample", .unsigned_int),
     ("nalloc", .unsigned_int),
     ("amplitude", (.ptr .unsigned_short))]

/-- Embedding of the typedef s7kr_v2snippet (header lines 1645-1669), fields in declaration order. -/
def s7kr_v2snippet : CType :=
  .struct "s7kr_v2snippet"
    [("header", s7k_header),
     ("serial_number", .mb_u_long),
     ("ping_number", .unsigned_int),
     ("multi_ping", .unsigned_short),
     ("number_beams", .unsigned_short),
     ("error_flag", .mb_u_char),
     ("control_flags", .mb_u_char),
     ("reserved", (.arr .mb_u_char 28)),
     ("snippettimeseries", (.arr s7kr_v2snippettimeseries MBSYS_RESON7K_MAX_BEAMS))]

/-- Embedding of the typedef s7kr_subsystem (header lines 1773-1776), fields in declaration order. -/
def s7kr_subsystem : CType :=
  .struct "s7kr_subsystem"
    [("device_identifier", .unsigned_int),
     ("system_enumerator", .unsigned_short)]

/-- Embedding of the typedef s7kr_fileheader (header lines 1779-1794), fields in declaration order. -/
def s7kr_fileheader : CType :=
  .struct "s7kr_fileheader"
    [("header", s7k_header),
     ("file_identifier", (.arr .char 16)),
     ("version", .unsigned_short),
     ("reserved", .unsigned_short),
     ("session_identifier", (.arr .char 16)),
     ("record_data_size", .unsigned_int),
     ("number_subsystems", .unsigned_int),
     ("recording_name", (.arr .char 64)),
     ("recording_version", (.arr .char 16)),
     ("user_defined_name", (.arr .char 64)),
     ("notes", (.arr .char 128)),
     ("subsystem", (.arr s7kr_subsystem MBSYS_RESON7K_MAX_DEVICE))]

/-- Embedding of the typedef s7kr_contactoutput (header lines 808-835), fields in declaration order. -/
def s7kr_contactoutput : CType :=
  .struct "s7kr_contactoutput"
    [("header", s7k_header),
     ("target_id", .unsigned_int),
     ("ping_number", .unsigned_int),
     ("s7kTime", s7k_time),
     ("operator", (.arr .char 128)),
     ("contact_state", .unsigned_int),
     ("range", .float),
     ("bearing", .float),
     ("info_flags", .unsigned_int),
     ("latitude", .double),
     ("longitude", .double),
     ("azimuth", .float),
     ("contact_length", .float),
     ("contact_width", .float),
     ("classification", (.arr .char 128)),
     ("description", (.arr .char 128))]

/-- Embedding of the typedef s7kr_volatilesettings (header lines 873-998), fields in declaration order. -/
def s7kr_volatilesettings : CType :=
  .struct "s7kr_volatilesettings"
    [("header", s7k_header),
     ("serial_number", .unsigned_double),
     ("ping_number", .unsigned_int),
     ("multi_ping", .unsigned_short),
     ("frequency", .float),
     ("sample_rate", .float),
     ("receiver_bandwidth", .float),
     ("tx_pulse_width", .float),
     ("tx_pulse_type", .unsigned_int),
     ("tx_pulse_envelope", .unsigned_int),
     ("tx_pulse_envelope_par", .float),
     ("tx_pulse_mode", .unsigned_int),
     ("max_ping_rate", .float),
     ("ping_period", .float),
     ("range_selection", .float),
     ("power_selection", .float),
     ("gain_selection", .float),
     ("control_flags", .unsigned_int),
     ("projector_magic_no", .unsigned_int),
     ("steering_vertical", .float),
     ("steering_horizontal", .float),
     ("beamwidth_vertical", .float),
     ("beamwidth_horizontal", .float),
     ("focal_point", .float),
     ("projector_weighting", .unsigned_int),
     ("projector_weighting_par", .float),
     ("transmit_flags", .unsigned_int),
     ("hydrophone_magic_no", .unsigned_int),
     ("receive_weighting", .unsigned_int),
     ("receive_weighting_par", .float),
     ("receive_flags", .unsigned_int),
     ("receive_width", .float),
     ("range_minimum", .float),
     ("range_maximum", .float),
     ("depth_minimum", .float),
     ("depth_maximum", .float),
     ("absorption", .float),
     ("sound_velocity", .float),
     ("spreading", .float),
     ("reserved", .unsigned_short)]

/-- Embedding of the typedef s7kr_matchfilter (header lines 1023-1041), fields in declaration order.
The declarations of `window_type` and of `reserved` lack their semicolon in the
header (lines 1032 and 1040); they are embedded as the fields they declare. -/
def s7kr_matchfilter : CType :=
  .struct "s7kr_matchfilter"
    [("header", s7k_header),
     ("serial_number", .unsigned_double),
     ("ping_number", .unsigned_int),
     ("operation", .unsigned_int),
     ("start_frequency", .float),
     ("end_frequency", .float),
     ("window_type", .unsigned_int),
     ("shading", .float),
     ("pulse_width", .float),
     ("reserved", (.arr .unsigned_int 13))]

/-- Embedding of the typedef s7kr_firmwarehardwareconfiguration (header lines 1044-1050), fields in declaration order. -/
def s7kr_firmwarehardwareconfiguration : CType :=
  .struct "s7kr_firmwarehardwareconfiguration"
    [("header", s7k_header),
     ("device_count", .unsigned_int),
     ("info_length", .unsigned_int),
     ("info_alloc", .unsigned_int),
     ("info", (.ptr .char))]

/-- Embedding of the typedef s7kr_beamgeometry (header lines 1053-1068), fields in declaration order. -/
def s7kr_beamgeometry : CType :=
  .struct "s7kr_beamgeometry"
    [("header", s7k_header),
     ("serial_number", .unsigned_double),
     ("number_beams", .unsigned_int),
     ("angle_alongtrack", (.arr .float MBSYS_RESON7K_MAX_BEAMS)),
     ("angle_acrosstrack", (.arr .float MBSYS_RESON7K_MAX_BEAMS)),
     ("beamwidth_alongtrack", (.arr .float MBSYS_RESON7K_MAX_BEAMS)),
     ("beamwidth_acrosstrack", (.arr .float MBSYS_RESON7K_MAX_BEAMS)),
     ("tx_delay", .float)]

/-- Embedding of the typedef s7kr_bathymetrydata (header lines 1071-1155), fields in declaration order. -/
def s7kr_bathymetrydata : CType :=
  .struct "s7kr_bathymetrydata"
    [("header", s7k_header),
     ("serial_number", .unsigned_double),
     ("ping_number", .unsigned_int),
     ("multi_ping", .unsigned_short),
     ("number_beams", .unsigned_int),
     ("layer_comp_flag", .mb_u_char),
     ("sound_vel_flag", .mb_u_char),
     ("sound_velocity", .float),
     ("range", (.arr .float MBSYS_RESON7K_MAX_BEAMS)),
     ("quality", (.arr .mb_u_char MBSYS_RESON7K_MAX_BEAMS)),
     ("intensity", (.arr .float MBSYS_RESON7K_MAX_BEAMS)),
     ("min_depth_gate", (.arr .float MBSYS_RESON7K_MAX_BEAMS)),
     ("max_depth_gate", (.arr .float MBSYS_RESON7K_MAX_BEAMS)),
     ("optionaldata", .unsigned_int),
     ("frequency", .float),
     ("latitude", .double),
     ("longitude", .double),
     ("heading", .float),
     ("height_source", .unsigned_char),
     ("tide", .float),
     ("roll", .float),
     ("pitch", .float),
     ("heave", .float),
     ("vehicle_height", .float),
     ("depth", (.arr .float MBSYS_RESON7K_MAX_BEAMS)),
     ("alongtrack", (.arr .float MBSYS_RESON7K_MAX_BEAMS)),
     ("acrosstrack", (.arr .float MBSYS_RESON7K_MAX_BEAMS)),
     ("pointing_angle", (.arr .float MBSYS_RESON7K_MAX_BEAMS)),
     ("azimuth_angle", (.arr .float MBSYS_RESON7K_MAX_BEAMS)),
     ("acrossalongerror", .int),
     ("nacrossalongerroryes", .int),
     ("nacrossalongerrorno", .int)]

/-- Embedding of the typedef s7kr_sidescandata (header lines 1158-1208), fields in declaration order.
A stray `n` follows the comment of `nadir_depth` in the header (line 1170); it
declares nothing and is left out. -/
def s7kr_sidescandata : CType :=
  .struct "s7kr_sidescandata"
    [("header", s7k_header),
     ("serial_number", .unsigned_double),
     ("ping_number", .unsigned_int),
     ("multi_ping", .unsigned_short),
     ("beam_position", .float),
     ("control_flags", .unsigned_int),
     ("number_samples", .unsigned_int),
     ("nadir_depth", .unsigned_int),
     ("port_beamwidth_x", .float),
     ("port_beamwidth_y", .float),
     ("stbd_beamwidth_x", .float),
     ("stbd_beamwidth_y", .float),
     ("port_steering_x", .float),
     ("port_steering_y", .float),
     ("stbd_steering_x", .float),
     ("stbd_steering_y", .float),
     ("number_beams", .unsigned_short),
     ("current_beam", .unsigned_short),
     ("sample_size", .mb_u_char),
     ("data_type", .mb_u_char),
     ("nalloc", .unsigned_int),
     ("port_data", (.ptr .char)),
     ("stbd_data", (.ptr .char)),
     ("optionaldata", .unsigned_int),
     ("frequency", .float),
     ("latitude", .double),
     ("longitude", .double),
     ("heading", .float),
     ("altitude", .float),
     ("depth", .float)]

/-- Embedding of the typedef s7kr_tvg (header lines 1261-1272), fields in declaration order. -/
def s7kr_tvg : CType :=
  .struct "s7kr_tvg"
    [("header", s7k_header),
     ("serial_number", .unsigned_double),
     ("ping_number", .unsigned_int),
     ("multi_ping", .unsigned_short),
     ("n", .unsigned_int),
     ("reserved", (.arr .unsigned_int 8)),
     ("nalloc", .unsigned_int),
     ("tvg", (.ptr .void))]

/-- Embedding of the typedef s7kr_imagedata (header lines 1275-1294), fields in declaration order. -/
def s7kr_imagedata : CType :=
  .struct "s7kr_imagedata"
    [("header", s7k_header),
     ("ping_number", .unsigned_int),
     ("multi_ping", .unsigned_short),
     ("width", .unsigned_int),
     ("height", .unsigned_int),
     ("color_depth", .unsigned_short),
     ("reserved", .unsigned_short),
     ("compression", .unsigned_short),
     ("n", .unsigned_int),
     ("flag", .unsigned_int),
     ("rx_delay", .float),
     ("reserved", (.arr .unsigned_int 6)),
     ("nalloc", .unsigned_int),
     ("image", (.ptr .void))]

/-- Embedding of the typedef s7kr_pingmotiondata (header lines 1297-1326), fields in declaration order. -/
def s7kr_pingmotiondata : CType :=
  .struct "s7kr_pingmotiondata"
    [("header", s7k_header),
     ("serial_number", .mb_u_long),
     ("ping_number", .unsigned_int),
     ("multi_ping", .unsigned_short),
     ("n", .unsigned_int),
     ("flags", .unsigned_short),
     ("error_flags", .unsigned_int),
     ("frequency", .float),
     ("pitch", .float),
     ("nalloc", .int),
     ("roll", (.ptr .float)),
     ("heading", (.ptr .float)),
     ("heave", (.ptr .float))]

/-- Embedding of the typedef s7kr_detectiondatasetup (header lines 1346-1421), fields in declaration order. -/
def s7kr_detectiondatasetup : CType :=
  .struct "s7kr_detectiondatasetup"
    [("header", s7k_header),
     ("serial_number", .unsigned_double),
     ("ping_number", .unsigned_int),
     ("multi_ping", .unsigned_short),
     ("number_beams", .unsigned_int),
     ("data_block_size", .unsigned_int),
     ("detection_algorithm", .mb_u_char),
     ("detection_flags", .unsigned_int),
     ("minimum_depth", .float),
     ("maximum_depth", .float),
     ("minimum_range", .float),
     ("maximum_range", .float),
     ("minimum_nadir_search", .float),
     ("maximum_nadir_search", .float),
     ("automatic_filter_window", .mb_u_char),
     ("applied_roll", .float),
     ("depth_gate_tilt", .float),
     ("nadir_depth", .float),
     ("reserved", (.arr .float 13)),
     ("beam_descriptor", (.arr .unsigned_short MBSYS_RESON7K_MAX_BEAMS)),
     ("detection_point", (.arr .float MBSYS_RESON7K_MAX_BEAMS)),
     ("flags", (.arr .unsigned_int MBSYS_RESON7K_MAX_BEAMS)),
     ("auto_limits_min_sample", (.arr .unsigned_int MBSYS_RESON7K_MAX_BEAMS)),
     ("auto_limits_max_sample", (.arr .unsigned_int MBSYS_RESON7K_MAX_BEAMS)),
     ("user_limits_min_sample", (.arr .unsigned_int MBSYS_RESON7K_MAX_BEAMS)),
     ("user_limits_max_sample", (.arr .unsigned_int MBSYS_RESON7K_MAX_BEAMS)),
     ("quality", (.arr .unsigned_int MBSYS_RESON7K_MAX_BEAMS)),
     ("uncertainty", (.arr .float MBSYS_RESON7K_MAX_BEAMS))]

/-- Embedding of the typedef s7kr_v2rawdetection (header lines 1581-1632), fields in declaration order. -/
def s7kr_v2rawdetection : CType :=
  .struct "s7kr_v2rawdetection"
    [("header", s7k_header),
     ("serial_number", .mb_u_long),
     ("ping_number", .unsigned_int),
     ("multi_ping", .unsigned_short),
     ("number_beams", .unsigned_int),
     ("data_field_size", .unsigned_int),
     ("detection_algorithm", .mb_u_char),
     ("detection_flags", .unsigned_int),
     ("sampling_rate", .float),
     ("tx_angle", .float),
     ("reserved", (.arr .mb_u_char 64)),
     ("beam_descriptor", (.arr .unsigned_short MBSYS_RESON7K_MAX_BEAMS)),
     ("detection_point", (.arr .float MBSYS_RESON7K_MAX_BEAMS)),
     ("rx_angle", (.arr .float MBSYS_RESON7K_MAX_BEAMS)),
     ("flags", (.arr .unsigned_int MBSYS_RESON7K_MAX_BEAMS)),
     ("quality", (.arr .unsigned_int MBSYS_RESON7K_MAX_BEAMS)),
     ("uncertainty", (.arr .float MBSYS_RESON7K_MAX_BEAMS))]

/-- Embedding of the typedef s7kr_installation (header lines 1672-1708), fields in declaration order. -/
def s7kr_installation : CType :=
  .struct "s7kr_installation"
    [("header", s7k_header),
     ("frequency", .float),
     ("firmware_version_len", .unsigned_short),
     ("firmware_version", (.arr .char 128)),
     ("software_version_len", .unsigned_short),
     ("software_version", (.arr .char 128)),
     ("s7k_version_len", .unsigned_short),
     ("s7k_version", (.arr .char 128)),
     ("protocal_version_len", .unsigned_short),
     ("protocal_version", (.arr .char 128)),
     ("transmit_x", .float),
     ("transmit_y", .float),
     ("transmit_z", .float),
     ("transmit_roll", .float),
     ("transmit_pitch", .float),
     ("transmit_heading", .float),
     ("receive_x", .float),
     ("receive_y", .float),
     ("receive_z", .float),
     ("receive_roll", .float),
     ("receive_pitch", .float),
     ("receive_heading", .float),
     ("motion_x", .float),
     ("motion_y", .float),
     ("motion_z", .float),
     ("motion_roll", .float),
     ("motion_pitch", .float),
     ("motion_heading", .float),
     ("motion_time_delay", .unsigned_short),
     ("position_x", .float),
     ("position_y", .float),
     ("position_z", .float),
     ("position_time_delay", .unsigned_short),
     ("waterline_z", .float)]

/-- Embedding of the typedef s7kr_systemeventmessage (header lines 1711-1723), fields in declaration order. -/
def s7kr_systemeventmessage : CType :=
  .struct "s7kr_systemeventmessage"
    [("header", s7k_header),
     ("serial_number", .mb_u_long),
     ("event_id", .unsigned_short),
     ("message_length", .unsigned_short),
     ("event_identifier", .unsigned_short),
     ("message_alloc", .unsigned_int),
     ("message", (.ptr .char))]

/-- Embedding of the typedef s7kr_calibratedsnippettimeseries (header lines 1726-1733), fields in declaration order. -/
def s7kr_calibratedsnippettimeseries : CType :=
  .struct "s7kr_calibratedsnippettimeseries"
    [("beam_number", .unsigned_short),
     ("begin_sample", .unsigned_int),
     ("detect_sample", .unsigned_int),
     ("end_sample", .unsigned_int),
     ("nalloc", .unsigned_int),
     ("amplitude", (.ptr .float))]

/-- Embedding of the typedef s7kr_calibratedsnippet (header lines 1736-1770), fields in declaration order. -/
def s7kr_calibratedsnippet : CType :=
  .struct "s7kr_calibratedsnippet"
    [("header", s7k_header),
     ("serial_number", .mb_u_long),
     ("ping_number", .unsigned_int),
     ("multi_ping", .unsigned_short),
     ("number_beams", .unsigned_short),
     ("error_flag", .mb_u_char),
     ("control_flags", .unsigned_int),
     ("reserved", (.arr .mb_u_char 28)),
     ("calibratedsnippettimeseries", (.arr s7kr_calibratedsnippettimeseries MBSYS_RESON7K_MAX_BEAMS))]

/-- Embedding of the typedef s7kr_remotecontrolsettings (header lines 1797-1898), fields in declaration order. -/
def s7kr_remotecontrolsettings : CType :=
  .struct "s7kr_remotecontrolsettings"
    [("header", s7k_header),
     ("serial_number", .mb_u_long),
     ("ping_number", .unsigned_int),
     ("frequency", .float),
     ("sample_rate", .float),
     ("receiver_bandwidth", .float),
     ("pulse_width", .float),
     ("pulse_type", .unsigned_int),
     ("pulse_envelope", .unsigned_int),
     ("pulse_envelope_par", .float),
     ("pulse_reserved", .unsigned_int),
     ("max_ping_rate", .float),
     ("ping_period", .float),
     ("range_selection", .float),
     ("power_selection", .float),
     ("gain_selection", .float),
     ("control_flags", .unsigned_int),
     ("projector_magic_no", .unsigned_int),
     ("steering_vertical", .float),
     ("steering_horizontal", .float),
     ("beamwidth_vertical", .float),
     ("beamwidth_horizontal", .float),
     ("focal_point", .float),
     ("projector_weighting", .unsigned_int),
     ("projector_weighting_par", .float),
     ("transmit_flags", .unsigned_int),
     ("hydrophone_magic_no", .unsigned_int),
     ("receive_weighting", .unsigned_int),
     ("receive_weighting_par", .float),
     ("receive_flags", .unsigned_int),
     ("range_minimum", .float),
     ("range_maximum", .float),
     ("depth_minimum", .float),
     ("depth_maximum", .float),
     ("absorption", .float),
     ("sound_velocity", .float),
     ("spreading", .float),
     ("reserved", .unsigned_short),
     ("tx_offset_x", .float),
     ("tx_offset_y", .float),
     ("tx_offset_z", .float),
     ("head_tilt_x", .float),
     ("head_tilt_y", .float),
     ("head_tilt_z", .float),
     ("ping_on_off", .unsigned_short),
     ("data_sample_types", .mb_u_char),
     ("projector_orientation", .mb_u_char),
     ("beam_angle_mode", .unsigned_short),
     ("r7kcenter_mode", .unsigned_short),
     ("gate_depth_min", .float),
     ("gate_depth_max", .float),
     ("reserved2", (.arr .unsigned_short 35))]

/-! ### Fixed prefixes and per-beam arrays -/

/-- The field is declared as an array of `MBSYS_RESON7K_MAX_BEAMS` elements:
a per-beam array. -/
def isPerBeamArray : CType → Bool
  | .arr _ n => n == MBSYS_RESON7K_MAX_BEAMS
  | _ => false

/-- The field is a pointer: a variable-length array allocated at run time. -/
def isVariableLength : CType → Bool
  | .ptr _ => true
  | _ => false

/-- The in-memory bookkeeping fields of the record structures: the number of
elements or bytes allocated for a variable-length array. -/
def bookkeepingFields : List String :=
  ["nalloc", "info_alloc", "message_alloc"]

/-- The fixed prefix of a record structure: the payload fields that precede
the first variable-length or per-beam array, without the in-memory bookkeeping
fields. -/
def fixedPrefix (t : CType) : List (String × CType) :=
  ((payloadFields t).takeWhile
    (fun f => !(isVariableLength f.2 || isPerBeamArray f.2))).filter
      (fun f => !(bookkeepingFields.contains f.1))

/-- The per-beam arrays of a record structure, in declaration order. -/
def perBeamArrays (t : CType) : List (String × CType) :=
  (payloadFields t).filter (fun f => isPerBeamArray f.2)

/-- The element type of an array or of a pointer. -/
def CType.elem : CType → CType
  | .arr e _ => e
  | .ptr e => e
  | t => t

/-- The number of elements of an array type (0 for any other type). -/
def CType.len : CType → Nat
  | .arr _ n => n
  | _ => 0

/-- One entry of every per-beam array of a record structure: the name of each
array with its element type. -/
def perBeamEntry (t : CType) : List (String × CType) :=
  (perBeamArrays t).map (fun f => (f.1, f.2.elem))

/-- The index is within the bounds of the array type: C arrays of `N` elements
are indexed 0 to `N - 1`. -/
def validIndex (t : CType) (i : Nat) : Bool :=
  decide (i < t.len)

/-- Wire width of the payload field with the given name (0 when the structure
has no such field). -/
def fieldWidth (t : CType) (name : String) : Nat :=
  match (payloadFields t).find? (fun f => f.1 == name) with
  | some f => f.2.wireWidth
  | none => 0

/-- The largest value an unsigned integer field of the given name can hold:
`2 ^ (8 * width) - 1`. -/
def fieldMax (t : CType) (name : String) : Nat :=
  2 ^ (8 * fieldWidth t name) - 1

/-- The record structures whose per-beam arrays have the fixed capacity
`MBSYS_RESON7K_MAX_BEAMS`. -/
def perBeamRecords : List CType :=
  [s7kr_beamgeometry, s7kr_bathymetrydata, s7kr_detectiondatasetup, s7kr_beamformeddata,
    s7kr_v2rawdetection, s7kr_v2snippet, s7kr_calibratedsnippet]

/-- Width in bytes that the comment on the `s7kTime` field of the frame header
gives for that field (`7KTIME u8*10`, line 378). -/
def s7kTime_commentWidth : Nat := 10

/-- The field that `s7kr_position` carries only as a comment
(`mb_u_char nsat; Optional`, line 479): it is not a member of the structure. -/
def s7kr_position_commentedOut : List (String × CType) :=
  [("nsat", .mb_u_char)]

/-! ## Record identifier and record size tables -/

/-- One `#define` of the header: the part of the name before the first
underscore, the part after it, and the replacement as a number (`none` when
the replacement list is empty). -/
structure Define where
  pre : String
  name : String
  body : Option Nat
deriving Repr, DecidableEq

/-- The value of a definition lies in the closed range `lo..hi`. -/
def Define.valueIn (d : Define) (lo hi : Nat) : Prop :=
  match d.body with
  | some v => lo ≤ v ∧ v ≤ hi
  | none => False

instance (d : Define) (lo hi : Nat) : Decidable (d.valueIn lo hi) := by
  unfold Define.valueIn
  split <;> infer_instance

/-! ### Record ID definitions (header lines 81-162) -/

def R7KRECID_None : Nat := 0
def R7KRECID_ReferencePoint : Nat := 1000
def R7KRECID_UncalibratedSensorOffset : Nat := 1001
def R7KRECID_CalibratedSensorOffset : Nat := 1002
def R7KRECID_Position : Nat := 1003
def R7KRECID_CustomAttitude : Nat := 1004
def R7KRECID_Tide : Nat := 1005
def R7KRECID_Altitude : Nat := 1006
def R7KRECID_MotionOverGround : Nat := 1007
def R7KRECID_Depth : Nat := 1008
def R7KRECID_SoundVelocityProfile : Nat := 1009
def R7KRECID_CTD : Nat := 1010
def R7KRECID_Geodesy : Nat := 1011
def R7KRECID_RollPitchHeave : Nat := 1012
def R7KRECID_Heading : Nat := 1013
def R7KRECID_SurveyLine : Nat := 1014
def R7KRECID_Navigation : Nat := 1015
def R7KRECID_Attitude : Nat := 1016
def R7KDEVID_PanTilt : Nat := 1017
def R7KDEVID_SonarInstallationIDs : Nat := 1020
def R7KRECID_SonarPipeEnvironment : Nat := 2004
def R7KRECID_ContactOutput : Nat := 3001
def R7KRECID_7kSonarSettings : Nat := 7000
def R7KRECID_7kConfiguration : Nat := 7001
def R7KRECID_7kMatchFilter : Nat := 7002
def R7KRECID_7kFirmwareHardwareConfiguration : Nat := 7003
def R7KRECID_7kBeamGeometry : Nat := 7004
def R7KRECID_7kBathymetricData : Nat := 7006
def R7KRECID_7kSideScanData : Nat := 7007
def R7KRECID_7kWaterColumnData : Nat := 7008
def R7KRECID_7kTVG : Nat := 7010
def R7KRECID_7kImageData : Nat := 7011
def R7KRECID_7kPingMotionData : Nat := 7012
def R7KDEVID_7kAdaptiveGate : Nat := 7014
def R7KRECID_7kDetectionDataSetup : Nat := 7017
def R7KRECID_7kBeamformedData : Nat := 7018
def R7KRECID_7kVernierProcessingDataRaw : Nat := 7019
def R7KRECID_7kBITEData : Nat := 7021
def R7KRECID_7kSonarSourceVersion : Nat := 7022
def R7KRECID_7k8kWetEndVersion : Nat := 7023
def R7KRECID_7kRawDetectionData : Nat := 7027
def R7KRECID_7kSnippetData : Nat := 7028
def R7KRECID_7kVernierProcessingDataFiltered : Nat := 7029
def R7KRECID_7kInstallationParameters : Nat := 7030
def R7KRECID_7kBITESummary : Nat := 7031
def R7KRECID_7kCompressedBeamformedMagnitude : Nat := 7041
def R7KRECID_7kCompressedWaterColumn : Nat := 7042
def R7KRECID_7kSegmentedRawDetection : Nat := 7047
def R7KRECID_7kCalibratedBeamData : Nat := 7048
def R7KRECID_7kSystemEvents : Nat := 7050
def R7KRECID_7kSystemEventMessage : Nat := 7051
def R7KRECID_7kRDRRecordingStatus : Nat := 7052
def R7KRECID_7kSubscriptions : Nat := 7053
def R7KRECID_7kRDRStorageRecording : Nat := 7054
def R7KRECID_7kCalibrationStatus : Nat := 7055
def R7KRECID_7kCalibratedSideScan : Nat := 7057
def R7KRECID_7kSnippetBackscatteringStrength : Nat := 7058
def R7KRECID_7kMB2Status : Nat := 7059
def R7KRECID_7kFileHeader : Nat := 7200
def R7KRECID_7kFileCatalogRecord : Nat := 7300
def R7KRECID_7kTimeMessage : Nat := 7400
def R7KRECID_7kRemoteControl : Nat := 7500
def R7KRECID_7kRemoteControlAcknowledge : Nat := 7501
def R7KRECID_7kRemoteControlNotAcknowledge : Nat := 7502
def R7KRECID_7kRemoteControlSonarSettings : Nat := 7503
def R7KRECID_7kCommonSystemSettings : Nat := 7504
def R7KRECID_7kSVFiltering : Nat := 7510
def R7KRECID_7kSystemLockStatus : Nat := 7511
def R7KRECID_7kSoundVelocity : Nat := 7610
def R7KRECID_7kAbsorptionLoss : Nat := 7611
def R7KRECID_7kSpreadingLoss : Nat := 7612

/-! ### Record size definitions (header lines 165-265) -/

def R7KHDRSIZE_None : Nat := 0
def R7KHDRSIZE_ReferencePoint : Nat := 16
def R7KHDRSIZE_UncalibratedSensorOffset : Nat := 24
def R7KHDRSIZE_CalibratedSensorOffset : Nat := 24
def R7KHDRSIZE_Position : Nat := 37
def R7KHDRSIZE_CustomAttitude : Nat := 8
def R7KRDTSIZE_CustomAttitude : Nat := 4
def R7KHDRSIZE_Tide : Nat := 43
def R7KHDRSIZE_Altitude : Nat := 4
def R7KHDRSIZE_MotionOverGround : Nat := 8
def R7KHDRSIZE_Depth : Nat := 8
def R7KHDRSIZE_SoundVelocityProfile : Nat := 24
def R7KRDTSIZE_SoundVelocityProfile : Nat := 8
def R7KHDRSIZE_CTD : Nat := 36
def R7KRDTSIZE_CTD : Nat := 20
def R7KHDRSIZE_Geodesy : Nat := 320
def R7KHDRSIZE_RollPitchHeave : Nat := 12
def R7KHDRSIZE_Heading : Nat := 4
def R7KHDRSIZE_SurveyLine : Nat := 72
def R7KRDTSIZE_SurveyLine : Nat := 16
def R7KHDRSIZE_Navigation : Nat := 41
def R7KHDRSIZE_Attitude : Nat := 1
def R7KRDTSIZE_Attitude : Nat := 18
def R7KHDRSIZE_PanTilt : Nat := 8
def R7KHDRSIZE_SonarInstallationIDs : Nat := 164
def R7KHDRSIZE_SonarPipeEnvironment : Nat := 83
def R7KRDTSIZE_SonarPipeEnvironment : Nat := 20
def R7KHDRSIZE_ContactOutput : Nat := 450
def R7KHDRSIZE_7kSonarSettings : Nat := 156
def R7KHDRSIZE_7kConfiguration : Nat := 12
def R7KHDRSIZE_7kMatchFilter : Nat := 88
def R7KHDRSIZE_7kFirmwareHardwareConfiguration : Nat := 8
def R7KHDRSIZE_7kBeamGeometry : Nat := 12
def R7KHDRSIZE_7kBathymetricData : Nat := 24
def R7KHDRSIZE_7kSideScanData : Nat := 64
def R7KHDRSIZE_7kWaterColumnData : Nat := 30
def R7KHDRSIZE_7kTVGData : Nat := 50
def R7KHDRSIZE_7kImageData : Nat := 56
def R7KHDRSIZE_7kPingMotionData : Nat := 44
-- R7KHDRSIZE_7kAdaptiveGate is defined with an empty replacement list (line 218): it has no numeric value.
def R7KHDRSIZE_7kDetectionDataSetup : Nat := 116
def R7KRDTSIZE_7kDetectionDataSetup : Nat := 30
def R7KHDRSIZE_7kBeamformedData : Nat := 52
def R7KHDRSIZE_7kVernierProcessingDataRaw : Nat := 92
def R7KHDRSIZE_7kBITEData : Nat := 2
def R7KRDTSIZE_7kBITERecordData : Nat := 130
def R7KRDTSIZE_7kBITEFieldData : Nat := 79
def R7KHDRSIZE_7kSonarSourceVersion : Nat := 32
def R7KHDRSIZE_7k8kWetEndVersion : Nat := 32
def R7KHDRSIZE_7kRawDetectionData : Nat := 99
def R7KRDTSIZE_7kRawDetectionData : Nat := 34
def R7KHDRSIZE_7kSnippetData : Nat := 46
def R7KRDTSIZE_7kSnippetDataseries : Nat := 14
def R7KHDRSIZE_7kVernierProcessingDataFiltered : Nat := 26
def R7KRDTSIZE_7kVernierProcessingDataFiltered : Nat := 16
def R7KHDRSIZE_7kInstallationParameters : Nat := 616
def R7KHDRSIZE_7kBITESummary : Nat := 36
def R7KHDRSIZE_7kCompressedBeamformedMagnitude : Nat := 38
def R7KHDRSIZE_7kCompressedWaterColumn : Nat := 44
def R7KHDRSIZE_7kSegmentedRawDetection : Nat := 36
def R7KRDTSIZE_7kSegmentedRawDetection : Nat := 100
def R7KHDRSIZE_7kCalibratedBeamData : Nat := 56
def R7KHDRSIZE_7kSystemEvents : Nat := 12
def R7KHDRSIZE_7kSystemEventMessage : Nat := 14
def R7KHDRSIZE_7kRDRRecordingStatus : Nat := 566
def R7KHDRSIZE_7kSubscriptions : Nat := 4
def R7KRDTSIZE_7kSubscriptions : Nat := 780
def R7KHDRSIZE_7kRDRStorageRecording : Nat := 303
def R7KHDRSIZE_7kCalibrationStatus : Nat := 826
def R7KHDRSIZE_7kCalibratedSideScan : Nat := 65
def R7KHDRSIZE_7kSnippetBackscatteringStrength : Nat := 49
def R7KHDRSIZE_7kMB2Status : Nat := 2088
def R7KHDRSIZE_7kFileHeader : Nat := 44
def R7KRDTSIZE_7kFileHeader : Nat := 272
def R7KHDRSIZE_7kFileCatalogRecord : Nat := 14
def R7KRDTSIZE_7kFileCatalogRecord : Nat := 48
def R7KHDRSIZE_7kTimeMessage : Nat := 16
def R7KHDRSIZE_7kRemoteControl : Nat := 24
def R7KHDRSIZE_7kRemoteControlAcknowledge : Nat := 20
def R7KHDRSIZE_7kRemoteControlNotAcknowledge : Nat := 24
def R7KHDRSIZE_7kRemoteControlSonarSettings : Nat := 260
def R7KHDRSIZE_7kCommonSystemSettings : Nat := 543
def R7KHDRSIZE_7kSVFiltering : Nat := 9
def R7KHDRSIZE_7kSystemLockStatus : Nat := 38
def R7KHDRSIZE_7kSoundVelocity : Nat := 4
def R7KHDRSIZE_7kAbsorptionLoss : Nat := 4
def R7KHDRSIZE_7kSpreadingLoss : Nat := 4

/-- Record ID table, section `0 means no record at all` (line 84). -/
def recordIdNone : List Define :=
  [Define.mk "R7KRECID" "None" (some R7KRECID_None)]

/-- Record ID table, section `1000-1999 reserved for generic sensor records` (lines 86-105). -/
def recordIdGenericSensor : List Define :=
  [Define.mk "R7KRECID" "ReferencePoint" (some R7KRECID_ReferencePoint),
   Define.mk "R7KRECID" "UncalibratedSensorOffset" (some R7KRECID_UncalibratedSensorOffset),
   Define.mk "R7KRECID" "CalibratedSensorOffset" (some R7KRECID_CalibratedSensorOffset),
   Define.mk "R7KRECID" "Position" (some R7KRECID_Position),
   Define.mk "R7KRECID" "CustomAttitude" (some R7KRECID_CustomAttitude),
   Define.mk "R7KRECID" "Tide" (some R7KRECID_Tide),
   Define.mk "R7KRECID" "Altitude" (some R7KRECID_Altitude),
   Define.mk "R7KRECID" "MotionOverGround" (some R7KRECID_MotionOverGround),
   Define.mk "R7KRECID" "Depth" (some R7KRECID_Depth),
   Define.mk "R7KRECID" "SoundVelocityProfile" (some R7KRECID_SoundVelocityProfile),
   Define.mk "R7KRECID" "CTD" (some R7KRECID_CTD),
   Define.mk "R7KRECID" "Geodesy" (some R7KRECID_Geodesy),
   Define.mk "R7KRECID" "RollPitchHeave" (some R7KRECID_RollPitchHeave),
   Define.mk "R7KRECID" "Heading" (some R7KRECID_Heading),
   Define.mk "R7KRECID" "SurveyLine" (some R7KRECID_SurveyLine),
   Define.mk "R7KRECID" "Navigation" (some R7KRECID_Navigation),
   Define.mk "R7KRECID" "Attitude" (some R7KRECID_Attitude),
   Define.mk "R7KDEVID" "PanTilt" (some R7KDEVID_PanTilt),
   Define.mk "R7KDEVID" "SonarInstallationIDs" (some R7KDEVID_SonarInstallationIDs)]

/-- Record ID table, section `2000-2999 reserved for user defined records` (lines 107-108). -/
def recordIdUserDefined : List Define :=
  [Define.mk "R7KRECID" "SonarPipeEnvironment" (some R7KRECID_SonarPipeEnvironment)]

/-- Record ID table, section `3000-6999 reserved for extra records` (lines 110-111). -/
def recordIdExtra : List Define :=
  [Define.mk "R7KRECID" "ContactOutput" (some R7KRECID_ContactOutput)]

/-- Record ID table, section `7000-7999 reserved for SeaBat 7k records`, identifiers 7000-7059 (lines 113-149). -/
def recordIdSeaBat7k : List Define :=
  [Define.mk "R7KRECID" "7kSonarSettings" (some R7KRECID_7kSonarSettings),
   Define.mk "R7KRECID" "7kConfiguration" (some R7KRECID_7kConfiguration),
   Define.mk "R7KRECID" "7kMatchFilter" (some R7KRECID_7kMatchFilter),
   Define.mk "R7KRECID" "7kFirmwareHardwareConfiguration" (some R7KRECID_7kFirmwareHardwareConfiguration),
   Define.mk "R7KRECID" "7kBeamGeometry" (some R7KRECID_7kBeamGeometry),
   Define.mk "R7KRECID" "7kBathymetricData" (some R7KRECID_7kBathymetricData),
   Define.mk "R7KRECID" "7kSideScanData" (some R7KRECID_7kSideScanData),
   Define.mk "R7KRECID" "7kWaterColumnData" (some R7KRECID_7kWaterColumnData),
   Define.mk "R7KRECID" "7kTVG" (some R7KRECID_7kTVG),
   Define.mk "R7KRECID" "7kImageData" (some R7KRECID_7kImageData),
   Define.mk "R7KRECID" "7kPingMotionData" (some R7KRECID_7kPingMotionData),
   Define.mk "R7KDEVID" "7kAdaptiveGate" (some R7KDEVID_7kAdaptiveGate),
   Define.mk "R7KRECID" "7kDetectionDataSetup" (some R7KRECID_7kDetectionDataSetup),
   Define.mk "R7KRECID" "7kBeamformedData" (some R7KRECID_7kBeamformedData),
   Define.mk "R7KRECID" "7kVernierProcessingDataRaw" (some R7KRECID_7kVernierProcessingDataRaw),
   Define.mk "R7KRECID" "7kBITEData" (some R7KRECID_7kBITEData),
   Define.mk "R7KRECID" "7kSonarSourceVersion" (some R7KRECID_7kSonarSourceVersion),
   Define.mk "R7KRECID" "7k8kWetEndVersion" (some R7KRECID_7k8kWetEndVersion),
   Define.mk "R7KRECID" "7kRawDetectionData" (some R7KRECID_7kRawDetectionData),
   Define.mk "R7KRECID" "7kSnippetData" (some R7KRECID_7kSnippetData),
   Define.mk "R7KRECID" "7kVernierProcessingDataFiltered" (some R7KRECID_7kVernierProcessingDataFiltered),
   Define.mk "R7KRECID" "7kInstallationParameters" (some R7KRECID_7kInstallationParameters),
   Define.mk "R7KRECID" "7kBITESummary" (some R7KRECID_7kBITESummary),
   Define.mk "R7KRECID" "7kCompressedBeamformedMagnitude" (some R7KRECID_7kCompressedBeamformedMagnitude),
   Define.mk "R7KRECID" "7kCompressedWaterColumn" (some R7KRECID_7kCompressedWaterColumn),
   Define.mk "R7KRECID" "7kSegmentedRawDetection" (some R7KRECID_7kSegmentedRawDetection),
   Define.mk "R7KRECID" "7kCalibratedBeamData" (some R7KRECID_7kCalibratedBeamData),
   Define.mk "R7KRECID" "7kSystemEvents" (some R7KRECID_7kSystemEvents),
   Define.mk "R7KRECID" "7kSystemEventMessage" (some R7KRECID_7kSystemEventMessage),
   Define.mk "R7KRECID" "7kRDRRecordingStatus" (some R7KRECID_7kRDRRecordingStatus),
   Define.mk "R7KRECID" "7kSubscriptions" (some R7KRECID_7kSubscriptions),
   Define.mk "R7KRECID" "7kRDRStorageRecording" (some R7KRECID_7kRDRStorageRecording),
   Define.mk "R7KRECID" "7kCalibrationStatus" (some R7KRECID_7kCalibrationStatus),
   Define.mk "R7KRECID" "7kCalibratedSideScan" (some R7KRECID_7kCalibratedSideScan),
   Define.mk "R7KRECID" "7kSnippetBackscatteringStrength" (some R7KRECID_7kSnippetBackscatteringStrength),
   Define.mk "R7KRECID" "7kMB2Status" (some R7KRECID_7kMB2Status)]

/-- Record ID table, section `7000-7999 reserved for SeaBat 7k records`, identifiers 7200-7612 (lines 150-162). -/
def recordIdSeaBat7kHigh : List Define :=
  [Define.mk "R7KRECID" "7kFileHeader" (some R7KRECID_7kFileHeader),
   Define.mk "R7KRECID" "7kFileCatalogRecord" (some R7KRECID_7kFileCatalogRecord),
   Define.mk "R7KRECID" "7kTimeMessage" (some R7KRECID_7kTimeMessage),
   Define.mk "R7KRECID" "7kRemoteControl" (some R7KRECID_7kRemoteControl),
   Define.mk "R7KRECID" "7kRemoteControlAcknowledge" (some R7KRECID_7kRemoteControlAcknowledge),
   Define.mk "R7KRECID" "7kRemoteControlNotAcknowledge" (some R7KRECID_7kRemoteControlNotAcknowledge),
   Define.mk "R7KRECID" "7kRemoteControlSonarSettings" (some R7KRECID_7kRemoteControlSonarSettings),
   Define.mk "R7KRECID" "7kCommonSystemSettings" (some R7KRECID_7kCommonSystemSettings),
   Define.mk "R7KRECID" "7kSVFiltering" (some R7KRECID_7kSVFiltering),
   Define.mk "R7KRECID" "7kSystemLockStatus" (some R7KRECID_7kSystemLockStatus),
   Define.mk "R7KRECID" "7kSoundVelocity" (some R7KRECID_7kSoundVelocity),
   Define.mk "R7KRECID" "7kAbsorptionLoss" (some R7KRECID_7kAbsorptionLoss),
   Define.mk "R7KRECID" "7kSpreadingLoss" (some R7KRECID_7kSpreadingLoss)]

/-- Record size table, section `0 means no record at all` (line 171). -/
def recordSizeNone : List Define :=
  [Define.mk "R7KHDRSIZE" "None" (some R7KHDRSIZE_None)]

/-- Record size table, section `1000-1999 reserved for generic sensor records` (lines 173-197). -/
def recordSizeGenericSensor : List Define :=
  [Define.mk "R7KHDRSIZE" "ReferencePoint" (some R7KHDRSIZE_ReferencePoint),
   Define.mk "R7KHDRSIZE" "UncalibratedSensorOffset" (some R7KHDRSIZE_UncalibratedSensorOffset),
   Define.mk "R7KHDRSIZE" "CalibratedSensorOffset" (some R7KHDRSIZE_CalibratedSensorOffset),
   Define.mk "R7KHDRSIZE" "Position" (some R7KHDRSIZE_Position),
   Define.mk "R7KHDRSIZE" "CustomAttitude" (some R7KHDRSIZE_CustomAttitude),
   Define.mk "R7KRDTSIZE" "CustomAttitude" (some R7KRDTSIZE_CustomAttitude),
   Define.mk "R7KHDRSIZE" "Tide" (some R7KHDRSIZE_Tide),
   Define.mk "R7KHDRSIZE" "Altitude" (some R7KHDRSIZE_Altitude),
   Define.mk "R7KHDRSIZE" "MotionOverGround" (some R7KHDRSIZE_MotionOverGround),
   Define.mk "R7KHDRSIZE" "Depth" (some R7KHDRSIZE_Depth),
   Define.mk "R7KHDRSIZE" "SoundVelocityProfile" (some R7KHDRSIZE_SoundVelocityProfile),
   Define.mk "R7KRDTSIZE" "SoundVelocityProfile" (some R7KRDTSIZE_SoundVelocityProfile),
   Define.mk "R7KHDRSIZE" "CTD" (some R7KHDRSIZE_CTD),
   Define.mk "R7KRDTSIZE" "CTD" (some R7KRDTSIZE_CTD),
   Define.mk "R7KHDRSIZE" "Geodesy" (some R7KHDRSIZE_Geodesy),
   Define.mk "R7KHDRSIZE" "RollPitchHeave" (some R7KHDRSIZE_RollPitchHeave),
   Define.mk "R7KHDRSIZE" "Heading" (some R7KHDRSIZE_Heading),
   Define.mk "R7KHDRSIZE" "SurveyLine" (some R7KHDRSIZE_SurveyLine),
   Define.mk "R7KRDTSIZE" "SurveyLine" (some R7KRDTSIZE_SurveyLine),
   Define.mk "R7KHDRSIZE" "Navigation" (some R7KHDRSIZE_Navigation),
   Define.mk "R7KHDRSIZE" "Attitude" (some R7KHDRSIZE_Attitude),
   Define.mk "R7KRDTSIZE" "Attitude" (some R7KRDTSIZE_Attitude),
   Define.mk "R7KHDRSIZE" "PanTilt" (some R7KHDRSIZE_PanTilt),
   Define.mk "R7KHDRSIZE" "SonarInstallationIDs" (some R7KHDRSIZE_SonarInstallationIDs)]

/-- Record size table, section `2000-2999 reserved for user defined records` (lines 199-201). -/
def recordSizeUserDefined : List Define :=
  [Define.mk "R7KHDRSIZE" "SonarPipeEnvironment" (some R7KHDRSIZE_SonarPipeEnvironment),
   Define.mk "R7KRDTSIZE" "SonarPipeEnvironment" (some R7KRDTSIZE_SonarPipeEnvironment)]

/-- Record size table, section `3000-6999 reserved for other vendor records` (lines 203-204). -/
def recordSizeVendor : List Define :=
  [Define.mk "R7KHDRSIZE" "ContactOutput" (some R7KHDRSIZE_ContactOutput)]

/-- Record size table, section `7000-7999 reserved for SeaBat 7k records`, first part (lines 206-233). -/
def recordSizeSeaBat7k : List Define :=
  [Define.mk "R7KHDRSIZE" "7kSonarSettings" (some R7KHDRSIZE_7kSonarSettings),
   Define.mk "R7KHDRSIZE" "7kConfiguration" (some R7KHDRSIZE_7kConfiguration),
   Define.mk "R7KHDRSIZE" "7kMatchFilter" (some R7KHDRSIZE_7kMatchFilter),
   Define.mk "R7KHDRSIZE" "7kFirmwareHardwareConfiguration" (some R7KHDRSIZE_7kFirmwareHardwareConfiguration),
   Define.mk "R7KHDRSIZE" "7kBeamGeometry" (some R7KHDRSIZE_7kBeamGeometry),
   Define.mk "R7KHDRSIZE" "7kBathymetricData" (some R7KHDRSIZE_7kBathymetricData),
   Define.mk "R7KHDRSIZE" "7kSideScanData" (some R7KHDRSIZE_7kSideScanData),
   Define.mk "R7KHDRSIZE" "7kWaterColumnData" (some R7KHDRSIZE_7kWaterColumnData),
   Define.mk "R7KHDRSIZE" "7kTVGData" (some R7KHDRSIZE_7kTVGData),
   Define.mk "R7KHDRSIZE" "7kImageData" (some R7KHDRSIZE_7kImageData),
   Define.mk "R7KHDRSIZE" "7kPingMotionData" (some R7KHDRSIZE_7kPingMotionData),
   Define.mk "R7KHDRSIZE" "7kAdaptiveGate" none,
   Define.mk "R7KHDRSIZE" "7kDetectionDataSetup" (some R7KHDRSIZE_7kDetectionDataSetup),
   Define.mk "R7KRDTSIZE" "7kDetectionDataSetup" (some R7KRDTSIZE_7kDetectionDataSetup),
   Define.mk "R7KHDRSIZE" "7kBeamformedData" (some R7KHDRSIZE_7kBeamformedData),
   Define.mk "R7KHDRSIZE" "7kVernierProcessingDataRaw" (some R7KHDRSIZE_7kVernierProcessingDataRaw),
   Define.mk "R7KHDRSIZE" "7kBITEData" (some R7KHDRSIZE_7kBITEData),
   Define.mk "R7KRDTSIZE" "7kBITERecordData" (some R7KRDTSIZE_7kBITERecordData),
   Define.mk "R7KRDTSIZE" "7kBITEFieldData" (some R7KRDTSIZE_7kBITEFieldData),
   Define.mk "R7KHDRSIZE" "7kSonarSourceVersion" (some R7KHDRSIZE_7kSonarSourceVersion),
   Define.mk "R7KHDRSIZE" "7k8kWetEndVersion" (some R7KHDRSIZE_7k8kWetEndVersion),
   Define.mk "R7KHDRSIZE" "7kRawDetectionData" (some R7KHDRSIZE_7kRawDetectionData),
   Define.mk "R7KRDTSIZE" "7kRawDetectionData" (some R7KRDTSIZE_7kRawDetectionData),
   Define.mk "R7KHDRSIZE" "7kSnippetData" (some R7KHDRSIZE_7kSnippetData),
   Define.mk "R7KRDTSIZE" "7kSnippetDataseries" (some R7KRDTSIZE_7kSnippetDataseries),
   Define.mk "R7KHDRSIZE" "7kVernierProcessingDataFiltered" (some R7KHDRSIZE_7kVernierProcessingDataFiltered),
   Define.mk "R7KRDTSIZE" "7kVernierProcessingDataFiltered" (some R7KRDTSIZE_7kVernierProcessingDataFiltered)]

/-- Record size table, section `7000-7999 reserved for SeaBat 7k records`, second part (lines 234-265). -/
def recordSizeSeaBat7kHigh : List Define :=
  [Define.mk "R7KHDRSIZE" "7kInstallationParameters" (some R7KHDRSIZE_7kInstallationParameters),
   Define.mk "R7KHDRSIZE" "7kBITESummary" (some R7KHDRSIZE_7kBITESummary),
   Define.mk "R7KHDRSIZE" "7kCompressedBeamformedMagnitude" (some R7KHDRSIZE_7kCompressedBeamformedMagnitude),
   Define.mk "R7KHDRSIZE" "7kCompressedWaterColumn" (some R7KHDRSIZE_7kCompressedWaterColumn),
   Define.mk "R7KHDRSIZE" "7kSegmentedRawDetection" (some R7KHDRSIZE_7kSegmentedRawDetection),
   Define.mk "R7KRDTSIZE" "7kSegmentedRawDetection" (some R7KRDTSIZE_7kSegmentedRawDetection),
   Define.mk "R7KHDRSIZE" "7kCalibratedBeamData" (some R7KHDRSIZE_7kCalibratedBeamData),
   Define.mk "R7KHDRSIZE" "7kSystemEvents" (some R7KHDRSIZE_7kSystemEvents),
   Define.mk "R7KHDRSIZE" "7kSystemEventMessage" (some R7KHDRSIZE_7kSystemEventMessage),
   Define.mk "R7KHDRSIZE" "7kRDRRecordingStatus" (some R7KHDRSIZE_7kRDRRecordingStatus),
   Define.mk "R7KHDRSIZE" "7kSubscriptions" (some R7KHDRSIZE_7kSubscriptions),
   Define.mk "R7KRDTSIZE" "7kSubscriptions" (some R7KRDTSIZE_7kSubscriptions),
   Define.mk "R7KHDRSIZE" "7kRDRStorageRecording" (some R7KHDRSIZE_7kRDRStorageRecording),
   Define.mk "R7KHDRSIZE" "7kCalibrationStatus" (some R7KHDRSIZE_7kCalibrationStatus),
   Define.mk "R7KHDRSIZE" "7kCalibratedSideScan" (some R7KHDRSIZE_7kCalibratedSideScan),
   Define.mk "R7KHDRSIZE" "7kSnippetBackscatteringStrength" (some R7KHDRSIZE_7kSnippetBackscatteringStrength),
   Define.mk "R7KHDRSIZE" "7kMB2Status" (some R7KHDRSIZE_7kMB2Status),
   Define.mk "R7KHDRSIZE" "7kFileHeader" (some R7KHDRSIZE_7kFileHeader),
   Define.mk "R7KRDTSIZE" "7kFileHeader" (some R7KRDTSIZE_7kFileHeader),
   Define.mk "R7KHDRSIZE" "7kFileCatalogRecord" (some R7KHDRSIZE_7kFileCatalogRecord),
   Define.mk "R7KRDTSIZE" "7kFileCatalogRecord" (some R7KRDTSIZE_7kFileCatalogRecord),
   Define.mk "R7KHDRSIZE" "7kTimeMessage" (some R7KHDRSIZE_7kTimeMessage),
   Define.mk "R7KHDRSIZE" "7kRemoteControl" (some R7KHDRSIZE_7kRemoteControl),
   Define.mk "R7KHDRSIZE" "7kRemoteControlAcknowledge" (some R7KHDRSIZE_7kRemoteControlAcknowledge),
   Define.mk "R7KHDRSIZE" "7kRemoteControlNotAcknowledge" (some R7KHDRSIZE_7kRemoteControlNotAcknowledge),
   Define.mk "R7KHDRSIZE" "7kRemoteControlSonarSettings" (some R7KHDRSIZE_7kRemoteControlSonarSettings),
   Define.mk "R7KHDRSIZE" "7kCommonSystemSettings" (some R7KHDRSIZE_7kCommonSystemSettings),
   Define.mk "R7KHDRSIZE" "7kSVFiltering" (some R7KHDRSIZE_7kSVFiltering),
   Define.mk "R7KHDRSIZE" "7kSystemLockStatus" (some R7KHDRSIZE_7kSystemLockStatus),
   Define.mk "R7KHDRSIZE" "7kSoundVelocity" (some R7KHDRSIZE_7kSoundVelocity),
   Define.mk "R7KHDRSIZE" "7kAbsorptionLoss" (some R7KHDRSIZE_7kAbsorptionLoss),
   Define.mk "R7KHDRSIZE" "7kSpreadingLoss" (some R7KHDRSIZE_7kSpreadingLoss)]

/-- The whole record ID table (lines 84-162), in source order. -/
def recordIdTable : List Define :=
  recordIdNone ++ recordIdGenericSensor ++ recordIdUserDefined ++ recordIdExtra ++
    recordIdSeaBat7k ++ recordIdSeaBat7kHigh

/-- The whole record size table (lines 171-265), in source order. -/
def recordSizeTable : List Define :=
  recordSizeNone ++ recordSizeGenericSensor ++ recordSizeUserDefined ++ recordSizeVendor ++
    recordSizeSeaBat7k ++ recordSizeSeaBat7kHigh

/-- The size-table definition of the fixed header size of a record type: the
definition named R7KHDRSIZE followed by the record type name, if there is one. -/
def hdrSizeDefine (ty : String) : Option Define :=
  recordSizeTable.find? (fun d => d.pre == "R7KHDRSIZE" && d.name == ty)

/-- The fixed header size the size table gives a record type, as a number:
`none` when the table has no such definition or the definition has no value. -/
def fixedHeaderSize (ty : String) : Option Nat :=
  (hdrSizeDefine ty).bind (fun d => d.body)

/-- Names of the file-header, time-message and remote-control record types. -/
def fileTimeRemoteNames : List String :=
  ["7kFileHeader", "7kTimeMessage", "7kRemoteControl", "7kRemoteControlAcknowledge",
   "7kRemoteControlNotAcknowledge", "7kRemoteControlSonarSettings"]

/-- Names (the part after the first underscore) of a list of definitions. -/
def defineNames (ds : List Define) : List String :=
  ds.map (fun d => d.name)

/-! ## The record store (header lines 1936-2197) -/

/-- One record slot of `struct mbsys_reson7k_struct`: the declared type, the
member name, and the record number given by the comment above the slot. -/
structure StoreSlot where
  type : String
  name : String
  record : Nat
deriving Repr, DecidableEq

/-- One `typedef struct` of the header: its name and, when the comment above
it reads `(record N)`, that record number (`none` for the time and header
structures and for the structures marked `part of record N`). -/
structure Typedef where
  name : String
  record : Option Nat
deriving Repr, DecidableEq

/-- Record slots of the store for records 1000 to 3199 (lines 1970-2038), in declaration order. -/
def storeSlotsGeneric : List StoreSlot :=
  [StoreSlot.mk "s7kr_reference" "reference" 1000,
   StoreSlot.mk "s7kr_sensoruncal" "sensoruncal" 1001,
   StoreSlot.mk "s7kr_sensorcal" "sensorcal" 1002,
   StoreSlot.mk "s7kr_position" "position" 1003,
   StoreSlot.mk "s7kr_customattitude" "customattitude" 1004,
   StoreSlot.mk "s7kr_tide" "tide" 1005,
   StoreSlot.mk "s7kr_altitude" "altitude" 1006,
   StoreSlot.mk "s7kr_motion" "motion" 1007,
   StoreSlot.mk "s7kr_depth" "depth" 1008,
   StoreSlot.mk "s7kr_svp" "svp" 1009,
   StoreSlot.mk "s7kr_ctd" "ctd" 1010,
   StoreSlot.mk "s7kr_geodesy" "geodesy" 1011,
   StoreSlot.mk "s7kr_rollpitchheave" "rollpitchheave" 1012,
   StoreSlot.mk "s7kr_heading" "heading" 1013,
   StoreSlot.mk "s7kr_surveyline" "surveyline" 1014,
   StoreSlot.mk "s7kr_navigation" "navigation" 1015,
   StoreSlot.mk "s7kr_attitude" "attitude" 1016,
   StoreSlot.mk "s7kr_rec1022" "rec1022" 1022,
   StoreSlot.mk "s7kr_fsdwss" "fsdwsslo" 3000,
   StoreSlot.mk "s7kr_fsdwss" "fsdwsshi" 3000,
   StoreSlot.mk "s7kr_fsdwsb" "fsdwsb" 3001,
   StoreSlot.mk "s7kr_bluefin" "bluefin" 3100,
   StoreSlot.mk "s7kr_processedsidescan" "processedsidescan" 3199]

/-- Record slots of the store for records 7000 to 7612 (lines 2040-2134), in declaration order. -/
def storeSlotsSeaBat : List StoreSlot :=
  [StoreSlot.mk "s7kr_volatilesettings" "volatilesettings" 7000,
   StoreSlot.mk "s7kr_configuration" "configuration" 7001,
   StoreSlot.mk "s7kr_matchfilter" "matchfilter" 7002,
   StoreSlot.mk "s7kr_v2firmwarehardwareconfiguration" "v2firmwarehardwareconfiguration" 7003,
   StoreSlot.mk "s7kr_beamgeometry" "beamgeometry" 7004,
   StoreSlot.mk "s7kr_calibration" "calibration" 7005,
   StoreSlot.mk "s7kr_bathymetry" "bathymetry" 7006,
   StoreSlot.mk "s7kr_backscatter" "backscatter" 7007,
   StoreSlot.mk "s7kr_beam" "beam" 7008,
   StoreSlot.mk "s7kr_verticaldepth" "verticaldepth" 7009,
   StoreSlot.mk "s7kr_tvg" "tvg" 7011,
   StoreSlot.mk "s7kr_image" "image" 7011,
   StoreSlot.mk "s7kr_v2pingmotion" "v2pingmotion" 7012,
   StoreSlot.mk "s7kr_v2detectionsetup" "v2detectionsetup" 7017,
   StoreSlot.mk "s7kr_v2beamformed" "v2beamformed" 7018,
   StoreSlot.mk "s7kr_v2bite" "v2bite" 7021,
   StoreSlot.mk "s7kr_v27kcenterversion" "v27kcenterversion" 7022,
   StoreSlot.mk "s7kr_v28kwetendversion" "v28kwetendversion" 7023,
   StoreSlot.mk "s7kr_v2detection" "v2detection" 7026,
   StoreSlot.mk "s7kr_v2rawdetection" "v2rawdetection" 7027,
   StoreSlot.mk "s7kr_v2snippet" "v2snippet" 7028,
   StoreSlot.mk "s7kr_installation" "installation" 7030,
   StoreSlot.mk "s7kr_systemeventmessage" "systemeventmessage" 7051,
   StoreSlot.mk "s7kr_calibratedsnippet" "calibratedsnippet" 7058,
   StoreSlot.mk "s7kr_fileheader" "fileheader" 7200,
   StoreSlot.mk "s7kr_remotecontrolsettings" "remotecontrolsettings" 7503,
   StoreSlot.mk "s7kr_reserved" "reserved" 7504,
   StoreSlot.mk "s7kr_roll" "roll" 7600,
   StoreSlot.mk "s7kr_pitch" "pitch" 7601,
   StoreSlot.mk "s7kr_soundvelocity" "soundvelocity" 7610,
   StoreSlot.mk "s7kr_absorptionloss" "absorptionloss" 7611,
   StoreSlot.mk "s7kr_spreadingloss" "spreadingloss" 7612]

/-- All record slots of `struct mbsys_reson7k_struct`, in declaration order. -/
def storeSlots : List StoreSlot :=
  storeSlotsGeneric ++ storeSlotsSeaBat

/-- Structure typedefs of the header up to record 7000 (lines 352-998), in source order. -/
def headerTypedefsGeneric : List Typedef :=
  [Typedef.mk "s7k_time" none,
   Typedef.mk "s7k_header" none,
   Typedef.mk "s7kr_reference" (some 1000),
   Typedef.mk "s7kr_sensoruncal" (some 1001),
   Typedef.mk "s7kr_sensorcal" (some 1002),
   Typedef.mk "s7kr_position" (some 1003),
   Typedef.mk "s7kr_customattitude" (some 1004),
   Typedef.mk "s7kr_tide" (some 1005),
   Typedef.mk "s7kr_altitude" (some 1006),
   Typedef.mk "s7kr_motion" (some 1007),
   Typedef.mk "s7kr_depth" (some 1008),
   Typedef.mk "s7kr_svp" (some 1009),
   Typedef.mk "s7kr_ctd" (some 1010),
   Typedef.mk "s7kr_geodesy" (some 1011),
   Typedef.mk "s7kr_rollpitchheave" (some 1012),
   Typedef.mk "s7kr_heading" (some 1013),
   Typedef.mk "s7kr_surveyline" (some 1014),
   Typedef.mk "s7kr_navigation" (some 1015),
   Typedef.mk "s7kr_attitude" (some 1016),
   Typedef.mk "s7kr_pantilt" (some 1017),
   Typedef.mk "s7kr_sonarinstallationids" (some 1020),
   Typedef.mk "s7kr_sonarpipeenvironment" (some 2004),
   Typedef.mk "s7kr_contactoutput" (some 3001),
   Typedef.mk "s7kr_processedsidescan" (some 3199),
   Typedef.mk "s7kr_volatilesettings" (some 7000)]

/-- Structure typedefs of the header from line 1001 on (lines 1001-1934), in source order. -/
def headerTypedefsSeaBat : List Typedef :=
  [Typedef.mk "s7k_device" none,
   Typedef.mk "s7kr_configuration" (some 7001),
   Typedef.mk "s7kr_matchfilter" (some 7002),
   Typedef.mk "s7kr_firmwarehardwareconfiguration" (some 7003),
   Typedef.mk "s7kr_beamgeometry" (some 7004),
   Typedef.mk "s7kr_bathymetrydata" (some 7006),
   Typedef.mk "s7kr_sidescandata" (some 7007),
   Typedef.mk "s7kr_watercolumndata" (some 7008),
   Typedef.mk "s7kr_tvg" (some 7010),
   Typedef.mk "s7kr_imagedata" (some 7011),
   Typedef.mk "s7kr_pingmotiondata" (some 7012),
   Typedef.mk "s7kr_adaptivegate" (some 7014),
   Typedef.mk "s7kr_detectiondatasetup" (some 7017),
   Typedef.mk "s7kr_amplitudephase" none,
   Typedef.mk "s7kr_beamformeddata" (some 7018),
   Typedef.mk "s7kr_vernierprocessingdataraw" (some 7019),
   Typedef.mk "s7kr_v2bitefield" none,
   Typedef.mk "s7kr_v2bitereport" none,
   Typedef.mk "s7kr_v2bite" (some 7021),
   Typedef.mk "s7kr_v27kcenterversion" (some 7022),
   Typedef.mk "s7kr_v28kwetendversion" (some 7023),
   Typedef.mk "s7kr_v2detection" (some 7026),
   Typedef.mk "s7kr_v2rawdetection" (some 7027),
   Typedef.mk "s7kr_v2snippettimeseries" none,
   Typedef.mk "s7kr_v2snippet" (some 7028),
   Typedef.mk "s7kr_installation" (some 7030),
   Typedef.mk "s7kr_systemeventmessage" (some 7051),
   Typedef.mk "s7kr_calibratedsnippettimeseries" none,
   Typedef.mk "s7kr_calibratedsnippet" (some 7058),
   Typedef.mk "s7kr_subsystem" none,
   Typedef.mk "s7kr_fileheader" (some 7200),
   Typedef.mk "s7kr_remotecontrolsettings" (some 7503),
   Typedef.mk "s7kr_reserved" (some 7504),
   Typedef.mk "s7kr_roll" (some 7600),
   Typedef.mk "s7kr_pitch" (some 7601),
   Typedef.mk "s7kr_soundvelocity" (some 7610),
   Typedef.mk "s7kr_absorptionloss" (some 7611),
   Typedef.mk "s7kr_spreadingloss" (some 7612)]

/-- All structure typedefs of the header, in source order. -/
def headerTypedefs : List Typedef :=
  headerTypedefsGeneric ++ headerTypedefsSeaBat

/-! ### The print prototypes (header lines 2263-2324) -/

/-- One prototype `int mbsys_reson7k_print_<name>(int verbose, ..., <type> *x,
int *error)` of the header: the part of the function name after
`mbsys_reson7k_print_` and the structure type its argument points to. -/
structure Prototype where
  name : String
  type : String
deriving Repr, DecidableEq

/-- The print prototypes of lines 2263-2292, in source order. -/
def printPrototypesFirst : List Prototype :=
  [Prototype.mk "header" "s7k_header",
   Prototype.mk "reference" "s7kr_reference",
   Prototype.mk "sensoruncal" "s7kr_sensoruncal",
   Prototype.mk "sensorcal" "s7kr_sensorcal",
   Prototype.mk "position" "s7kr_position",
   Prototype.mk "customattitude" "s7kr_customattitude",
   Prototype.mk "tide" "s7kr_tide",
   Prototype.mk "altitude" "s7kr_altitude",
   Prototype.mk "motion" "s7kr_motion",
   Prototype.mk "depth" "s7kr_depth",
   Prototype.mk "svp" "s7kr_svp",
   Prototype.mk "ctd" "s7kr_ctd",
   Prototype.mk "geodesy" "s7kr_geodesy",
   Prototype.mk "rollpitchheave" "s7kr_rollpitchheave",
   Prototype.mk "heading" "s7kr_heading",
   Prototype.mk "surveyline" "s7kr_surveyline",
   Prototype.mk "navigation" "s7kr_navigation",
   Prototype.mk "attitude" "s7kr_attitude",
   Prototype.mk "rec1022" "s7kr_rec1022",
   Prototype.mk "fsdwchannel" "s7k_fsdwchannel",
   Prototype.mk "fsdwssheader" "s7k_fsdwssheader",
   Prototype.mk "fsdwsegyheader" "s7k_fsdwsegyheader",
   Prototype.mk "fsdwss" "s7kr_fsdwss",
   Prototype.mk "fsdwsb" "s7kr_fsdwsb",
   Prototype.mk "bluefin" "s7kr_bluefin",
   Prototype.mk "processedsidescan" "s7kr_processedsidescan",
   Prototype.mk "volatilesettings" "s7kr_volatilesettings",
   Prototype.mk "device" "s7k_device",
   Prototype.mk "configuration" "s7kr_configuration",
   Prototype.mk "matchfilter" "s7kr_matchfilter"]

/-- The print prototypes of lines 2293-2324, in source order. -/
def printPrototypesSecond : List Prototype :=
  [Prototype.mk "v2firmwarehardwareconfiguration" "s7kr_v2firmwarehardwareconfiguration",
   Prototype.mk "beamgeometry" "s7kr_beamgeometry",
   Prototype.mk "calibration" "s7kr_calibration",
   Prototype.mk "bathymetry" "s7kr_bathymetry",
   Prototype.mk "backscatter" "s7kr_backscatter",
   Prototype.mk "beam" "s7kr_beam",
   Prototype.mk "verticaldepth" "s7kr_verticaldepth",
   Prototype.mk "tvg" "s7kr_tvg",
   Prototype.mk "image" "s7kr_image",
   Prototype.mk "v2pingmotion" "s7kr_v2pingmotion",
   Prototype.mk "v2detectionsetup" "s7kr_v2detectionsetup",
   Prototype.mk "v2beamformed" "s7kr_v2beamformed",
   Prototype.mk "v2bite" "s7kr_v2bite",
   Prototype.mk "v27kcenterversion" "s7kr_v27kcenterversion",
   Prototype.mk "v28kwetendversion" "s7kr_v28kwetendversion",
   Prototype.mk "v2detection" "s7kr_v2detection",
   Prototype.mk "v2rawdetection" "s7kr_v2rawdetection",
   Prototype.mk "v2snippet" "s7kr_v2snippet",
   Prototype.mk "calibratedsnippet" "s7kr_calibratedsnippet",
   Prototype.mk "installation" "s7kr_installation",
   Prototype.mk "systemeventmessage" "s7kr_systemeventmessage",
   Prototype.mk "subsystem" "s7kr_subsystem",
   Prototype.mk "fileheader" "s7kr_fileheader",
   Prototype.mk "remotecontrolsettings" "s7kr_remotecontrolsettings",
   Prototype.mk "reserved" "s7kr_reserved",
   Prototype.mk "roll" "s7kr_roll",
   Prototype.mk "pitch" "s7kr_pitch",
   Prototype.mk "soundvelocity" "s7kr_soundvelocity",
   Prototype.mk "absorptionloss" "s7kr_absorptionloss",
   Prototype.mk "spreadingloss" "s7kr_spreadingloss"]

/-- All print prototypes of the header, in source order. -/
def printPrototypes : List Prototype :=
  printPrototypesFirst ++ printPrototypesSecond

/-- The names of the structure types the header defines. -/
def typedefNames : List String :=
  headerTypedefs.map (fun t => t.name)

/-- The types of record slots of the store that the header does not define,
in the order of the slots. -/
def undefinedSlotTypes : List String :=
  (storeSlots.filter (fun s => !(typedefNames.contains s.type))).map (fun s => s.type)

/-- The argument types of print prototypes that the header does not define,
in the order of the prototypes. -/
def undefinedPrototypeTypes : List String :=
  (printPrototypes.filter (fun p => !(typedefNames.contains p.type))).map (fun p => p.type)

/-- The record slots whose comment names the given record number. -/
def slotsByNumber (record : Nat) : List StoreSlot :=
  storeSlots.filter (fun s => s.record == record)

/-- The names of the structures the header defines for the given record
number. -/
def typedefsOf (record : Nat) : List String :=
  (headerTypedefs.filter (fun t => t.record == some record)).map (fun t => t.name)

/-- The record slots whose declared type is a structure the header defines
for the given record number. -/
def slotsByType (record : Nat) : List StoreSlot :=
  match typedefsOf record with
  | [] => []
  | names => storeSlots.filter (fun s => names.contains s.type)

/-- The store holds exactly one slot for the record type of an identifier:
one slot is commented with its record number, and that slot has the type of
the structure the header defines for the record. -/
def hasOneSlot (d : Define) : Bool :=
  match d.body with
  | some v => (slotsByNumber v).length == 1 && slotsByType v == slotsByNumber v
  | none => false

/-- The store holds no slot for the record type of an identifier: no slot is
commented with its record number and no slot has the type of its structure. -/
def hasNoSlot (d : Define) : Bool :=
  match d.body with
  | some v => (slotsByNumber v).isEmpty && (slotsByType v).isEmpty
  | none => false

/-- The identifiers of the Record ID table other than `R7KRECID_None`. -/
def recordIdsButNone : List Define :=
  recordIdTable.filter (fun d => d.name != "None")

/-- A byte of a record. -/
abbrev Byte := Fin 256

/-- Sum of the byte values of a data section, as a natural number. -/
def byteSum (data : List Byte) : Nat :=
  (data.map (fun b => b.val)).sum

/-- Modelled from the spec: the checksum routine, which the header only
describes (lines 403-411: the checksum is the sum of the bytes of the data
section, `computed as a 64 bit unsigned integer`).  The running sum is held
in a 64-bit unsigned accumulator, so every addition wraps at 2^64. -/
def checksumAccumulate (data : List Byte) : Nat :=
  data.foldl (fun acc b => (acc + b.val) % 2 ^ 64) 0

/-- Modelled from the spec: the value stored in the checksum field, `the least
significant 32 bits` of the 64-bit accumulator (lines 408-409). -/
def checksum (data : List Byte) : Nat :=
  checksumAccumulate data % 2 ^ 32

/-- A running sum of the bytes held in a 32-bit unsigned accumulator, wrapping
at 2^32 on every addition. -/
def wrappingSum32 (data : List Byte) : Nat :=
  data.foldl (fun acc b => (acc + b.val) % 2 ^ 32) 0

/-! ## Payload sizes -/

/-- Modelled from the spec: the payload size the encoder computes for a record
with one counted array (`sum of fixed fields + counted arrays at their current
n`): the width of the fixed fields plus, for every sample array, `n` elements
of its element type.  The encoder itself is not part of the header. -/
def countedPayloadSize (t : CType) (n : Nat) : Nat :=
  widthFields (fixedFields t) + ((sampleFields t).map (fun f => n * f.2.wireWidth)).sum

/-! ## Record codec

The header declares the record structures and the store, but the routines that
read and write them live outside it.  The definitions of this section model
those routines from the specification of the format library: the primitive
codec, the record schema table and the record decoder and encoder.  Scalar
values are the unsigned integers their bytes denote (a float is its bit
pattern, a signed integer its two-complement pattern), so equality of values
is equality of what is stored.  The byte order is a parameter.
-/

/-- Modelled from the spec: the byte order of the format, which the primitive
codec fixes but the header does not name. -/
inductive ByteOrder where
  | little
  | big
deriving Repr, DecidableEq

/-- Modelled from the spec: the error taxonomy of the decoding library, which
is not part of the header. -/
inductive DecodeError where
  | EndOfStream
  | TruncatedHeader
  | BufferTooShort
  | PayloadTooShort
  | ArraySizeMismatch
  | ChecksumInvalid
  | TrailingBytesError
  | FragmentSequenceError
deriving Repr, DecidableEq

/-- The `w` low-order bytes of `v`, least significant first. -/
def leBytes : Nat → Nat → List Byte
  | 0, _ => []
  | w + 1, v => ⟨v % 256, Nat.mod_lt _ (by decide)⟩ :: leBytes w (v / 256)

/-- The number a list of bytes denotes, least significant byte first. -/
def leValue : List Byte → Nat
  | [] => 0
  | b :: bs => b.val + 256 * leValue bs

/-- Modelled from the spec: the write half of the primitive codec (writeU16,
writeU32, writeF32, writeF64 and the components of writeTime), absent from the
header: a scalar of `w` bytes is written in the byte order of the format. -/
def writeScalar (bo : ByteOrder) (w v : Nat) : List Byte :=
  match bo with
  | .little => leBytes w v
  | .big => (leBytes w v).reverse

/-- Modelled from the spec: the read half of the primitive codec (readU16,
readU32, readF32, readF64 and the components of readTime), absent from the
header: it fails with `BufferTooShort` when fewer than `w` bytes remain, and
otherwise returns the scalar and the cursor advanced by `w` bytes. -/
def readScalar (bo : ByteOrder) (w : Nat) (cur : List Byte) :
    Except DecodeError (Nat × List Byte) :=
  if cur.length < w then .error .BufferTooShort
  else
    match bo with
    | .little => .ok (leValue (cur.take w), cur.drop w)
    | .big => .ok (leValue (cur.take w).reverse, cur.drop w)

/-- Modelled from the spec: writing a flat list of scalar fields, given their
widths and values, one primitive write per field in order. -/
def writeFields (bo : ByteOrder) : List Nat → List Nat → List Byte
  | w :: ws, v :: vs => writeScalar bo w v ++ writeFields bo ws vs
  | _, _ => []

/-- Modelled from the spec: byte-for-byte extraction of a flat list of scalar
fields through the primitive codec. -/
def readFields (bo : ByteOrder) : List Nat → List Byte → Except DecodeError (List Nat × List Byte)
  | [], cur => .ok ([], cur)
  | w :: ws, cur =>
    match readScalar bo w cur with
    | .error e => .error e
    | .ok (v, cur1) =>
      match readFields bo ws cur1 with
      | .error e => .error e
      | .ok (vs, cur2) => .ok (v :: vs, cur2)

/-- There is one value per field and each value fits the width of its field. -/
def fieldsFit : List Nat → List Nat → Bool
  | [], [] => true
  | w :: ws, v :: vs => decide (v < 256 ^ w) && fieldsFit ws vs
  | _, _ => false

/-- Modelled from the spec: writing an array of structures, one element after
the other, each element a flat list of fields. -/
def writeRows (bo : ByteOrder) (ws : List Nat) : List (List Nat) → List Byte
  | [] => []
  | r :: rs => writeFields bo ws r ++ writeRows bo ws rs

/-- Modelled from the spec: reading `n` elements of an array of structures. -/
def readRows (bo : ByteOrder) (ws : List Nat) :
    Nat → List Byte → Except DecodeError (List (List Nat) × List Byte)
  | 0, cur => .ok ([], cur)
  | n + 1, cur =>
    match readFields bo ws cur with
    | .error e => .error e
    | .ok (r, cur1) =>
      match readRows bo ws n cur1 with
      | .error e => .error e
      | .ok (rs, cur2) => .ok (r :: rs, cur2)

/-- Every element of an array of structures fits the field widths. -/
def rowsFit (ws : List Nat) (rows : List (List Nat)) : Bool :=
  rows.all (fieldsFit ws)

/-- Modelled from the spec: writing one array of scalars of width `w`. -/
def writeColumn (bo : ByteOrder) (w : Nat) : List Nat → List Byte
  | [] => []
  | v :: vs => writeScalar bo w v ++ writeColumn bo w vs

/-- Modelled from the spec: reading one array of `n` scalars of width `w`. -/
def readColumn (bo : ByteOrder) (w : Nat) :
    Nat → List Byte → Except DecodeError (List Nat × List Byte)
  | 0, cur => .ok ([], cur)
  | n + 1, cur =>
    match readScalar bo w cur with
    | .error e => .error e
    | .ok (v, cur1) =>
      match readColumn bo w n cur1 with
      | .error e => .error e
      | .ok (vs, cur2) => .ok (v :: vs, cur2)

/-- Modelled from the spec: writing an array of parallel arrays, the first `n`
entries of one array after the other. -/
def writeColumns (bo : ByteOrder) (n : Nat) : List Nat → List (List Nat) → List Byte
  | w :: ws, c :: cs => writeColumn bo w (c.take n) ++ writeColumns bo n ws cs
  | _, _ => []

/-- Modelled from the spec: reading an array of parallel arrays of `n` entries
each. -/
def readColumns (bo : ByteOrder) (n : Nat) :
    List Nat → List Byte → Except DecodeError (List (List Nat) × List Byte)
  | [], cur => .ok ([], cur)
  | w :: ws, cur =>
    match readColumn bo w n cur with
    | .error e => .error e
    | .ok (c, cur1) =>
      match readColumns bo n ws cur1 with
      | .error e => .error e
      | .ok (cs, cur2) => .ok (c :: cs, cur2)

/-- There is one parallel array per element field, each holds at least `n`
entries, and its first `n` entries fit the width of the field. -/
def columnsFit (n : Nat) : List Nat → List (List Nat) → Bool
  | [], [] => true
  | w :: ws, c :: cs =>
    decide (n ≤ c.length) && (c.take n).all (fun v => decide (v < 256 ^ w)) && columnsFit n ws cs
  | _, _ => false

/-- The first `n` elements of a family of parallel arrays, as structures:
element `i` holds entry `i` of every array. -/
def rowsOf (n : Nat) (cols : List (List Nat)) : List (List Nat) :=
  (List.range n).map (fun i => cols.map (fun c => c.getD i 0))

/-- The `k` parallel arrays of a list of structures: array `j` holds field `j`
of every element. -/
def columnsOf (k : Nat) (rows : List (List Nat)) : List (List Nat) :=
  (List.range k).map (fun j => rows.map (fun r => r.getD j 0))

/-- Modelled from the spec: writing the variable time series of the
sub-records of a nested record, one series after the other. -/
def writeSeries (bo : ByteOrder) (sample : List Nat) : List (List (List Nat)) → List Byte
  | [] => []
  | s :: ss => writeRows bo sample s ++ writeSeries bo sample ss

/-- Modelled from the spec: for each sub-record header in turn, reading its own
variable time series, whose number of samples the header determines. -/
def readSeries (bo : ByteOrder) (sample : List Nat) (seriesLength : List Nat → Nat) :
    List (List Nat) → List Byte → Except DecodeError (List (List (List Nat)) × List Byte)
  | [], cur => .ok ([], cur)
  | h :: hs, cur =>
    match readRows bo sample (seriesLength h) cur with
    | .error e => .error e
    | .ok (s, cur1) =>
      match readSeries bo sample seriesLength hs cur1 with
      | .error e => .error e
      | .ok (ss, cur2) => .ok (s :: ss, cur2)

/-- There is one time series per sub-record header, every header fits the
sub-record field widths, and every series has the number of samples its header
declares, each sample fitting the sample widths. -/
def beamsFit (sub sample : List Nat) (seriesLength : List Nat → Nat) :
    List (List Nat) → List (List (List Nat)) → Bool
  | [], [] => true
  | h :: hs, s :: ss =>
    fieldsFit sub h && decide (s.length = seriesLength h) && rowsFit sample s &&
      beamsFit sub sample seriesLength hs ss
  | _, _ => false

/-- Modelled from the spec: the four shape kinds of the record schema table. -/
inductive ShapeKind where
  | FixedOnly
  | CountedArray
  | NestedArray
  | RawBlob
deriving Repr, DecidableEq

/-- Modelled from the spec: the two wire layouts of a counted array, an array
of structures or an array of parallel arrays. -/
inductive ArrayLayout where
  | arrayOfStruct
  | parallelArrays
deriving Repr, DecidableEq

/-- Modelled from the spec: a shape kind with its parameters.  A counted array
names the fixed leaf that holds the count, the layout and the field widths of
one element; a nested array names the leaf that holds the number of
sub-records, the field widths of a sub-record header, the number of samples a
header declares and the field widths of one sample. -/
inductive Shape where
  | FixedOnly
  | CountedArray (count : Nat) (layout : ArrayLayout) (elem : List Nat)
  | NestedArray (count : Nat) (sub : List Nat) (seriesLength : List Nat → Nat)
      (sample : List Nat)
  | RawBlob

/-- Modelled from the spec: an entry of the record schema table, the widths of
the scalar leaves of the fixed prefix and the shape. -/
structure Schema where
  fixed : List Nat
  shape : Shape

/-- Modelled from the spec: the fixed header size of a schema, the number of
bytes of its fixed prefix. -/
def Schema.fixed_header_size (S : Schema) : Nat :=
  S.fixed.sum

/-- Modelled from the spec: the shape kind of a schema. -/
def Schema.shape_kind (S : Schema) : ShapeKind :=
  match S.shape with
  | .FixedOnly => .FixedOnly
  | .CountedArray _ _ _ => .CountedArray
  | .NestedArray _ _ _ _ => .NestedArray
  | .RawBlob => .RawBlob

/-- Modelled from the spec: the variable part of a decoded record, by shape:
nothing, one parallel array per element field, the sub-record headers with one
time series each, or an opaque buffer. -/
inductive Body where
  | empty
  | arrays (cols : List (List Nat))
  | beams (subs : List (List Nat)) (series : List (List (List Nat)))
  | blob (bytes : List Byte)
deriving Repr, DecidableEq

/-- Modelled from the spec: a typed record, the values of the scalar leaves of
its fixed prefix (counts included) and its variable part. -/
structure Record where
  fixed : List Nat
  body : Body
deriving Repr, DecidableEq

/-- Modelled from the spec: what decoding returns on success, the record and
an advisory error when there is one (the record is still usable). -/
structure Decoded where
  record : Record
  advisory : Option DecodeError
deriving Repr, DecidableEq

/-- The count a record declares in fixed leaf `c`. -/
def Record.count (R : Record) (c : Nat) : Nat :=
  R.fixed.getD c 0

/-- A syntactically valid instance of a schema: the fixed values fit their
fields, the variable part has the shape of the schema, every array holds at
least as many entries as the count declares and the entries up to the count
fit their fields. -/
def Record.valid (S : Schema) (R : Record) : Bool :=
  fieldsFit S.fixed R.fixed &&
    match S.shape, R.body with
    | .FixedOnly, .empty => true
    | .CountedArray c _ elem, .arrays cols => columnsFit (R.count c) elem cols
    | .NestedArray c sub len sample, .beams subs series =>
      decide (R.count c ≤ subs.length) && decide (R.count c ≤ series.length) &&
        beamsFit sub sample len (subs.take (R.count c)) (series.take (R.count c))
    | .RawBlob, .blob _ => true
    | _, _ => false

/-- The record with every array cut to the entries up to its count. -/
def Record.upToCount (S : Schema) (R : Record) : Record :=
  match S.shape, R.body with
  | .CountedArray c _ _, .arrays cols =>
    { fixed := R.fixed, body := .arrays (cols.map (fun col => col.take (R.count c))) }
  | .NestedArray c _ _ _, .beams subs series =>
    { fixed := R.fixed, body := .beams (subs.take (R.count c)) (series.take (R.count c)) }
  | _, _ => R

/-- Every array of the record holds exactly as many entries as its count. -/
def Record.exact (S : Schema) (R : Record) : Bool :=
  match S.shape, R.body with
  | .CountedArray c _ _, .arrays cols => cols.all (fun col => decide (col.length = R.count c))
  | .NestedArray c _ _ _, .beams subs series =>
    decide (subs.length = R.count c) && decide (series.length = R.count c)
  | _, _ => true

/-- Modelled from the spec: the variable part of the payload the encoder
writes, the counted arrays at their current count. -/
def encodeBody (bo : ByteOrder) (fixed : List Nat) : Shape → Body → List Byte
  | .CountedArray c .arrayOfStruct elem, .arrays cols =>
    writeRows bo elem (rowsOf (fixed.getD c 0) cols)
  | .CountedArray c .parallelArrays elem, .arrays cols =>
    writeColumns bo (fixed.getD c 0) elem cols
  | .NestedArray c sub _ sample, .beams subs series =>
    writeRows bo sub (subs.take (fixed.getD c 0)) ++
      writeSeries bo sample (series.take (fixed.getD c 0))
  | .RawBlob, .blob bytes => bytes
  | _, _ => []

/-- Modelled from the spec: the record encoder, absent from the header: the
payload bytes of a typed record, fixed fields first, then the variable part. -/
def encodePayload (bo : ByteOrder) (S : Schema) (R : Record) : List Byte :=
  writeFields bo S.fixed R.fixed ++ encodeBody bo R.fixed S.shape R.body

/-- Modelled from the spec: decoding of the bytes after the fixed prefix, by
shape.  FixedOnly accepts no other payload length than that of the fixed
fields.  CountedArray fails with `ArraySizeMismatch` when the count times the
element size exceeds the remaining bytes and otherwise decodes that many
elements into one parallel array per field.  NestedArray reads the sub-record
headers, then the time series of each, and reports left-over bytes as the
advisory `TrailingBytesError`.  RawBlob copies the remaining bytes verbatim. -/
def decodeBody (bo : ByteOrder) (fixed : List Nat) (rest : List Byte) :
    Shape → Except DecodeError Decoded
  | .FixedOnly =>
    if rest.length ≠ 0 then .error .PayloadTooShort
    else .ok ⟨⟨fixed, .empty⟩, none⟩
  | .CountedArray c layout elem =>
    if fixed.getD c 0 * elem.sum > rest.length then .error .ArraySizeMismatch
    else
      match layout with
      | .arrayOfStruct =>
        match readRows bo elem (fixed.getD c 0) rest with
        | .error _ => .error .ArraySizeMismatch
        | .ok (rows, _) => .ok ⟨⟨fixed, .arrays (columnsOf elem.length rows)⟩, none⟩
      | .parallelArrays =>
        match readColumns bo (fixed.getD c 0) elem rest with
        | .error _ => .error .ArraySizeMismatch
        | .ok (cols, _) => .ok ⟨⟨fixed, .arrays cols⟩, none⟩
  | .NestedArray c sub len sample =>
    if fixed.getD c 0 * sub.sum > rest.length then .error .ArraySizeMismatch
    else
      match readRows bo sub (fixed.getD c 0) rest with
      | .error _ => .error .ArraySizeMismatch
      | .ok (subs, rest1) =>
        match readSeries bo sample len subs rest1 with
        | .error _ => .error .ArraySizeMismatch
        | .ok (series, rest2) =>
          .ok ⟨⟨fixed, .beams subs series⟩,
            if rest2.length = 0 then none else some .TrailingBytesError⟩
  | .RawBlob => .ok ⟨⟨fixed, .blob rest⟩, none⟩

/-- Modelled from the spec: the record decoder, absent from the header: the
fixed prefix is extracted field by field (`PayloadTooShort` when the bytes do
not suffice), then the variable part is decoded according to the shape. -/
def decodePayload (bo : ByteOrder) (S : Schema) (payload : List Byte) :
    Except DecodeError Decoded :=
  match readFields bo S.fixed payload with
  | .error _ => .error .PayloadTooShort
  | .ok (fixed, rest) => decodeBody bo fixed rest S.shape

/-- Modelled from the spec: the schema an unknown record-type identifier
resolves to, a raw blob with fixed header size 0. -/
def unknownSchema : Schema :=
  ⟨[], .RawBlob⟩

/-- Modelled from the spec: the lookup of the record schema table, total on
identifiers: an identifier absent from the table resolves to `unknownSchema`. -/
def lookup (table : List (Nat × Schema)) (record_type_id : Nat) : Schema :=
  match table.find? (fun e => e.1 == record_type_id) with
  | some e => e.2
  | none => unknownSchema

/-- Modelled from the spec: `decode(record_type_id, payload_bytes)`, dispatching
on the schema of the identifier. -/
def decode (bo : ByteOrder) (table : List (Nat × Schema)) (record_type_id : Nat)
    (payload_bytes : List Byte) : Except DecodeError Decoded :=
  decodePayload bo (lookup table record_type_id) payload_bytes

/-- Modelled from the spec: the encoder for a record-type identifier, the
payload bytes the record encoder hands to the frame writer. -/
def encode (bo : ByteOrder) (table : List (Nat × Schema)) (record_type_id : Nat)
    (R : Record) : List Byte :=
  encodePayload bo (lookup table record_type_id) R

/-! ### Schemas of the header structures -/

/-- Index, among the scalar leaves of a field list, of the first leaf of the
field with the given name. -/
def leafIndex (fs : List (String × CType)) (name : String) : Nat :=
  (leavesFields (fs.takeWhile (fun f => f.1 != name))).length

/-- The schema of a fixed-only record structure: its payload fields. -/
def fixedOnlySchema (t : CType) : Schema :=
  ⟨leavesFields (payloadFields t), .FixedOnly⟩

/-- The schema of a record structure with one counted array: the fixed fields
up to `nalloc`, the count field, and one element field per pointer field. -/
def countedArraySchema (t : CType) (countField : String) (layout : ArrayLayout) : Schema :=
  ⟨leavesFields (fixedFields t),
    .CountedArray (leafIndex (fixedFields t) countField) layout (leavesFields (sampleFields t))⟩

/-- Modelled from the spec: the rows of the record schema table for the
fixed-only and counted-array record structures embedded above, keyed by the
record identifier of the header.  The table itself is not part of the header.
The Position row counts the byte of the optional `nsat` field, which
`s7kr_position` carries only as a comment (line 479), after the declared
fields, so that its fixed header size is `R7KHDRSIZE_Position`. -/
def headerSchemaTable : List (Nat × Schema) :=
  [(R7KRECID_ReferencePoint, fixedOnlySchema s7kr_reference),
   (R7KRECID_UncalibratedSensorOffset, fixedOnlySchema s7kr_sensoruncal),
   (R7KRECID_CalibratedSensorOffset, fixedOnlySchema s7kr_sensorcal),
   (R7KRECID_Position,
     ⟨leavesFields (payloadFields s7kr_position ++ s7kr_position_commentedOut), .FixedOnly⟩),
   (R7KRECID_Tide, fixedOnlySchema s7kr_tide),
   (R7KRECID_Altitude, fixedOnlySchema s7kr_altitude),
   (R7KRECID_Depth, fixedOnlySchema s7kr_depth),
   (R7KRECID_SoundVelocityProfile, countedArraySchema s7kr_svp "n" .arrayOfStruct),
   (R7KRECID_RollPitchHeave, fixedOnlySchema s7kr_rollpitchheave),
   (R7KRECID_Heading, fixedOnlySchema s7kr_heading),
   (R7KRECID_Navigation, fixedOnlySchema s7kr_navigation),
   (R7KRECID_Attitude, countedArraySchema s7kr_attitude "n" .arrayOfStruct),
   (R7KDEVID_PanTilt, fixedOnlySchema s7kr_pantilt),
   (R7KDEVID_SonarInstallationIDs, fixedOnlySchema s7kr_sonarinstallationids),
   (R7KRECID_7kSoundVelocity, fixedOnlySchema s7kr_soundvelocity),
   (R7KRECID_7kAbsorptionLoss, fixedOnlySchema s7kr_absorptionloss),
   (R7KRECID_7kSpreadingLoss, fixedOnlySchema s7kr_spreadingloss)]

/-- A sound velocity profile record with two samples: position_flag 1, reserved
fields 0, latitude and longitude as bit patterns, n = 2, and the two parallel
arrays depth and sound_velocity with two entries each. -/
def sampleSvpRecord : Record :=
  ⟨[1, 0, 0, 4607182418800017408, 4611686018427387904, 2],
    .arrays [[10, 20], [1500, 1490]]⟩

/-- The same record held in arrays of capacity three: the third entry of each
array lies beyond the count. -/
def sampleSvpSlot : Record :=
  ⟨[1, 0, 0, 4607182418800017408, 4611686018427387904, 2],
    .arrays [[10, 20, 99], [1500, 1490, 77]]⟩

/-- A nested-array schema in the manner of the snippet records: a fixed prefix
of one 4-byte count, sub-record headers of a 2-byte beam number and a 4-byte
sample count, and 2-byte samples. -/
def sampleNestedSchema : Schema :=
  ⟨[4], .NestedArray 0 [2, 4] (fun h => h.getD 1 0) [2]⟩

/-- A nested record with two beams, of one and two samples. -/
def sampleNestedRecord : Record :=
  ⟨[2], .beams [[7, 1], [8, 2]] [[[5]], [[6], [7]]]⟩

/-- The numbers the Record ID table defines, in source order. -/
def recordIdValues : List Nat :=
  recordIdTable.filterMap (fun d => d.body)

/-! ## Record store slots

The store keeps one slot per record kind and decodes into it in place.  The
routines that do so are outside the header; this section models them from the
specification: every variable array of a slot is a buffer with its `nalloc`
and `n` pair, and a decode overwrites the buffers of the slot. -/

/-- Modelled from the spec: a variable array of a record slot with its
`nalloc`/`n` pair, the allocated capacity and the populated count (the header
declares the pair, as in `s7kr_svp.n` and `s7kr_svp.nalloc`, but not the code
that maintains it). -/
structure Buffer (α : Type) where
  nalloc : Nat
  n : Nat
  data : List α
deriving Repr, DecidableEq

/-- Modelled from the spec: a zero-initialized buffer, as at store
construction. -/
def Buffer.zero {α : Type} : Buffer α :=
  ⟨0, 0, []⟩

/-- Modelled from the spec: decoding the elements `xs` into a buffer.  The
buffer is grown by reallocation only when the count exceeds `nalloc`, to that
count; otherwise it is reused, the new elements overwriting its head, and it
is never shrunk. -/
def Buffer.store {α : Type} (b : Buffer α) (xs : List α) : Buffer α :=
  if xs.length > b.nalloc then ⟨xs.length, xs.length, xs⟩
  else ⟨b.nalloc, xs.length, xs ++ b.data.drop xs.length⟩

/-- Modelled from the spec: a slot of the record store, the scalar fields of
the record and its buffers: one per parallel array of a counted-array record,
the sub-record headers and one time series per sub-record of a nested record,
and the opaque buffer of a raw blob. -/
structure RecordSlot where
  fixed : List Nat
  arrays : List (Buffer Nat)
  subs : Buffer (List Nat)
  series : List (Buffer (List Nat))
  blob : Buffer Byte
deriving Repr, DecidableEq

/-- Modelled from the spec: the slot as created at store construction,
zero-initialized. -/
def RecordSlot.zero : RecordSlot :=
  ⟨[], [], Buffer.zero, [], Buffer.zero⟩

/-- The record a slot holds: every buffer read up to its populated count. -/
def RecordSlot.arraysUpToCount (s : RecordSlot) : List (List Nat) :=
  s.arrays.map (fun b => b.data.take b.n)

/-! ## Frames and fragment reassembly

The frame header is declared by the header file; the frame reader that parses
it and reassembles fragmented records is not.  This section models the reader
from the specification, over the fields of `s7k_header`. -/

/-- The widths of the scalar leaves of the frame header, in wire order. -/
def headerLeaves : List Nat :=
  s7k_header.leaves

/-- The sync pattern of a frame (`Sync pattern u32 0x0000FFFF`, line 369). -/
def syncPattern : Nat := 0x0000FFFF

/-- Modelled from the spec: a physical frame as the frame reader yields it,
the values of the scalar leaves of its header and its payload bytes. -/
structure Frame where
  header : List Nat
  payload : List Byte
deriving Repr, DecidableEq

/-- The value of the header field with the given name. -/
def headerField (header : List Nat) (name : String) : Nat :=
  header.getD (leafIndex s7k_header.fields name) 0

/-- The record type of a frame (`RecordType`, line 380). -/
def Frame.recordType (f : Frame) : Nat :=
  headerField f.header "RecordType"

/-- Bit 2 of `Flags` (lines 394-396): the frame is one of a fragmented
sequence. -/
def Frame.fragmented (f : Frame) : Bool :=
  (headerField f.header "Flags" / 4) % 2 == 1

/-- Total number of frames of the fragmented set (`FragmentedTotal`, line 399). -/
def Frame.fragmentedTotal (f : Frame) : Nat :=
  headerField f.header "FragmentedTotal"

/-- Index of this frame in the fragmented set (`FragmentNumber`, line 401). -/
def Frame.fragmentNumber (f : Frame) : Nat :=
  headerField f.header "FragmentNumber"

/-- Modelled from the spec: the fragments buffered so far of a record under
reassembly: the header of the first fragment, the record type, the number of
fragments announced, the number received (which is the index expected next)
and the payloads concatenated in index order. -/
structure Partial where
  header : List Nat
  recordType : Nat
  total : Nat
  received : Nat
  payload : List Byte
deriving Repr, DecidableEq

/-- Modelled from the spec: what the reader reports for one physical frame: a
complete logical record (header, payload, record type), the wait for a further
fragment, or an error. -/
inductive Reassembled where
  | Complete (header : List Nat) (payload : List Byte) (recordType : Nat)
  | AwaitFragment
  | Failed (e : DecodeError)
deriving Repr, DecidableEq

/-- Modelled from the spec: appending the payload of the expected fragment;
the record is complete when this was the last index, otherwise the reader
awaits the next fragment. -/
def acceptFragment (p : Partial) (f : Frame) : Option Partial × Reassembled :=
  if p.received + 1 = p.total then
    (none, .Complete p.header (p.payload ++ f.payload) p.recordType)
  else
    (some { p with received := p.received + 1, payload := p.payload ++ f.payload },
      .AwaitFragment)

/-- Modelled from the spec: the fragmentation step of the frame reader.  An
unfragmented frame is a complete record by itself.  Fragmented frames of the
same record type whose `FragmentNumber` runs 0, 1, .., `FragmentedTotal` - 1
are payload-concatenated in that order; an out-of-order or missing fragment
index is a `FragmentSequenceError` and the partial record is discarded. -/
def reassemble (st : Option Partial) (f : Frame) : Option Partial × Reassembled :=
  if f.fragmented then
    match st with
    | none =>
      if f.fragmentNumber = 0 ∧ 0 < f.fragmentedTotal then
        acceptFragment ⟨f.header, f.recordType, f.fragmentedTotal, 0, []⟩ f
      else (none, .Failed .FragmentSequenceError)
    | some p =>
      if f.recordType = p.recordType ∧ f.fragmentNumber = p.received ∧
          f.fragmentedTotal = p.total then
        acceptFragment p f
      else (none, .Failed .FragmentSequenceError)
  else
    match st with
    | none => (none, .Complete f.header f.payload f.recordType)
    | some _ => (none, .Failed .FragmentSequenceError)

/-- Modelled from the spec: the reader run over a sequence of physical frames,
with the reassembly state it ends in and what it reported for each frame. -/
def reassembleAll : Option Partial → List Frame → Option Partial × List Reassembled
  | st, [] => (st, [])
  | st, f :: fs =>
    ((reassembleAll (reassemble st f).1 fs).1,
      (reassemble st f).2 :: (reassembleAll (reassemble st f).1 fs).2)

/-- The frames are fragments of one record of the given type and total,
numbered `k`, `k + 1`, .. in the order of the list. -/
def fragmentsInOrder (recordType total : Nat) : Nat → List Frame → Bool
  | _, [] => true
  | k, f :: fs =>
    f.fragmented && f.recordType == recordType && f.fragmentedTotal == total &&
      f.fragmentNumber == k && fragmentsInOrder recordType total (k + 1) fs

/-- The payloads of a list of frames, concatenated in the order of the list. -/
def concatPayloads : List Frame → List Byte
  | [] => []
  | f :: fs => f.payload ++ concatPayloads fs

/-- The trailer is present when bit 0 of `Flags` is set (lines 389-392); it
holds the checksum in `MBSYS_RESON7K_RECORDTAIL_SIZE` bytes. -/
def trailerSize (header : List Nat) : Nat :=
  if headerField header "Flags" % 2 == 1 then MBSYS_RESON7K_RECORDTAIL_SIZE else 0

/-- Modelled from the spec: the state `ValidateChecksum` of the frame reader.
When bit 0 of `Flags` is set the checksum of the payload is compared with the
trailer; a mismatch is the advisory `ChecksumInvalid`. -/
def checksumAdvisory (bo : ByteOrder) (header : List Nat) (payload trailer : List Byte) :
    Option DecodeError :=
  if headerField header "Flags" % 2 == 1 then
    match readScalar bo MBSYS_RESON7K_RECORDTAIL_SIZE trailer with
    | .ok (v, _) => if v = checksum payload then none else some .ChecksumInvalid
    | .error _ => some .ChecksumInvalid
  else none

/-- Modelled from the spec: what the frame reader returns for one call: a
physical frame with the advisory of its checksum and the stream after the
frame, or the reason it stopped (`EndOfStream`, `TruncatedHeader`). -/
inductive FrameRead where
  | frame (f : Frame) (advisory : Option DecodeError) (rest : List Byte)
  | stop (e : DecodeError)
deriving Repr, DecidableEq

/-- Modelled from the spec: the test of the state `SeekSync` at one stream
position: the bytes at the offset of `SyncPattern` in a header that would
start here hold the sync pattern. -/
def syncAt (bo : ByteOrder) (stream : List Byte) : Bool :=
  match readScalar bo (headerLeaves.getD (leafIndex s7k_header.fields "SyncPattern") 0)
      (stream.drop (headerLeaves.take (leafIndex s7k_header.fields "SyncPattern")).sum) with
  | .ok (v, _) => v == syncPattern
  | .error _ => false

/-- Modelled from the spec: the states `ReadHeader`, `ValidateHeader`,
`ReadPayload` and `ValidateChecksum` at a stream position.  Without the sync
pattern here, or with a `Size` that is not plausible (too small to hold the
header and the trailer, or above the bound `maxSize`), the answer is `none` and
the reader resynchronises.  Fewer than 64 bytes is `TruncatedHeader`.  The
payload is the `Size - header_size - trailer_size` bytes after the header, the
trailer the bytes after it, and the stream continues `Size` bytes after the
start of the frame. -/
def readFrameAt (bo : ByteOrder) (maxSize : Nat) (stream : List Byte) : Option FrameRead :=
  if syncAt bo stream then
    match readFields bo headerLeaves stream with
    | .error _ => some (.stop .TruncatedHeader)
    | .ok (header, rest) =>
      if MBSYS_RESON7K_RECORDHEADER_SIZE + trailerSize header ≤ headerField header "Size" ∧
          headerField header "Size" ≤ maxSize then
        if rest.length < headerField header "Size" - MBSYS_RESON7K_RECORDHEADER_SIZE then
          some (.stop .EndOfStream)
        else
          some (.frame
            ⟨header, rest.take
              (headerField header "Size" - MBSYS_RESON7K_RECORDHEADER_SIZE - trailerSize header)⟩
            (checksumAdvisory bo header
              (rest.take
                (headerField header "Size" - MBSYS_RESON7K_RECORDHEADER_SIZE - trailerSize header))
              ((rest.drop
                (headerField header "Size" - MBSYS_RESON7K_RECORDHEADER_SIZE -
                  trailerSize header)).take (trailerSize header)))
            (rest.drop (headerField header "Size" - MBSYS_RESON7K_RECORDHEADER_SIZE)))
      else none
  else none

/-- Modelled from the spec: the frame reader.  It scans forward byte by byte
for a position where a frame is recognised; on a failed validation it resumes
one byte further; at the end of the stream it terminates with `EndOfStream`. -/
def nextFrame (bo : ByteOrder) (maxSize : Nat) : List Byte → FrameRead
  | [] => .stop .EndOfStream
  | b :: bs =>
    match readFrameAt bo maxSize (b :: bs) with
    | some r => r
    | none => nextFrame bo maxSize bs

/-- Modelled from the spec: what one call of the reader and decoder returns: a
logical record (its header, the result of the record decoder, the advisory of
the checksum) with the stream after it, the wait for a further fragment, a
fragment sequence error, or the reason the reader stopped. -/
inductive ReadResult where
  | record (header : List Nat) (result : Except DecodeError Decoded)
      (advisory : Option DecodeError) (rest : List Byte)
  | await (rest : List Byte)
  | failed (e : DecodeError) (rest : List Byte)
  | stop (e : DecodeError)

/-- Modelled from the spec: one call of the reader and decoder: the next
physical frame is read, passed through fragment reassembly, and a complete
logical record enters the record decoder under its record type. -/
def readRecord (bo : ByteOrder) (maxSize : Nat) (table : List (Nat × Schema))
    (st : Option Partial) (stream : List Byte) : Option Partial × ReadResult :=
  match nextFrame bo maxSize stream with
  | .stop e => (st, .stop e)
  | .frame f advisory rest =>
    match reassemble st f with
    | (st1, .Complete header payload recordType) =>
      (st1, .record header (decode bo table recordType payload) advisory rest)
    | (st1, .AwaitFragment) => (st1, .await rest)
    | (st1, .Failed e) => (st1, .failed e rest)

/-- A frame header with the given size, record type, flags, fragment total and
fragment number, protocol version 5, data offset 64 and every other field
zero. -/
def sampleHeader (size recordType flags total number : Nat) : List Nat :=
  [5, 64, syncPattern, size, 0, 0, 0, 0, 0, 0, 0, 1, recordType, 0, 0, 0, 0, flags, 0, 0,
    total, number]

/-- The payload of a sound velocity profile record that declares three samples
and holds two. -/
def shortSvpPayload : List Byte :=
  writeFields .little (lookup headerSchemaTable R7KRECID_SoundVelocityProfile).fixed
      [1, 0, 0, 4607182418800017408, 4611686018427387904, 3] ++
    writeRows .little [4, 4] [[10, 1500], [20, 1490]]

theorem repeatLeaves_sum (n : Nat) (ws : List Nat) : (repeatLeaves n ws).sum = n * ws.sum := by
  induction n with
  | zero => simp [repeatLeaves]
  | succ n ih => simp [repeatLeaves, ih]; ring

mutual
theorem leaves_sum : ∀ t : CType, t.leaves.sum = t.wireWidth
  | .unsigned_short => rfl
  | .unsigned_int => rfl
  | .unsigned_char => rfl
  | .unsigned_double => rfl
  | .mb_u_char => rfl
  | .mb_u_long => rfl
  | .char => rfl
  | .int => rfl
  | .short => rfl
  | .float => rfl
  | .double => rfl
  | .void => rfl
  | .arr t n => by
    simp only [CType.leaves, CType.wireWidth, repeatLeaves_sum, leaves_sum t]
  | .ptr _ => rfl
  | .struct _ fs => by
    simp only [CType.leaves, CType.wireWidth, leavesFields_sum fs]
theorem leavesFields_sum : ∀ fs : List (String × CType), (leavesFields fs).sum = widthFields fs
  | [] => rfl
  | f :: fs => by
    simp only [leavesFields, widthFields, List.sum_append, leaves_sum f.2, leavesFields_sum fs]
end

theorem leBytes_length (w v : Nat) : (leBytes w v).length = w := by
  induction w generalizing v with
  | zero => rfl
  | succ w ih => simp [leBytes, ih]

theorem leValue_leBytes (w v : Nat) (h : v < 256 ^ w) : leValue (leBytes w v) = v := by
  induction w generalizing v with
  | zero =>
    simp at h
    simp [leBytes, leValue, h]
  | succ w ih =>
    have h2 : v / 256 < 256 ^ w := by
      rw [Nat.div_lt_iff_lt_mul (by decide)]
      rw [pow_succ] at h
      exact h
    simp only [leBytes, leValue, ih _ h2]
    omega

theorem writeScalar_length (bo : ByteOrder) (w v : Nat) : (writeScalar bo w v).length = w := by
  cases bo <;> simp [writeScalar, leBytes_length]

theorem readScalar_writeScalar (bo : ByteOrder) (w v : Nat) (h : v < 256 ^ w) (rest : List Byte) :
    readScalar bo w (writeScalar bo w v ++ rest) = .ok (v, rest) := by
  have hlen := writeScalar_length bo w v
  have hnot : ¬ ((writeScalar bo w v ++ rest).length < w) := by
    simp [hlen]
  unfold readScalar
  rw [if_neg hnot]
  have htake : (writeScalar bo w v ++ rest).take w = writeScalar bo w v := by
    rw [List.take_append_of_le_length (by omega)]
    rw [List.take_of_length_le (by omega)]
  have hdrop : (writeScalar bo w v ++ rest).drop w = rest := by
    rw [List.drop_append_of_le_length (by omega), List.drop_of_length_le (by omega)]
    simp
  rw [htake, hdrop]
  cases bo
  · simp [writeScalar, leValue_leBytes w v h]
  · simp [writeScalar, leValue_leBytes w v h]

theorem readFields_writeFields (bo : ByteOrder) (ws vs : List Nat) (h : fieldsFit ws vs = true)
    (rest : List Byte) :
    readFields bo ws (writeFields bo ws vs ++ rest) = .ok (vs, rest) := by
  induction ws generalizing vs with
  | nil =>
    cases vs with
    | nil => simp [readFields, writeFields]
    | cons v vs => simp [fieldsFit] at h
  | cons w ws ih =>
    cases vs with
    | nil => simp [fieldsFit] at h
    | cons v vs =>
      simp only [fieldsFit, Bool.and_eq_true, decide_eq_true_eq] at h
      simp only [writeFields, readFields, List.append_assoc]
      rw [readScalar_writeScalar bo w v h.1]
      simp only
      rw [ih vs h.2]

theorem writeFields_length (bo : ByteOrder) (ws vs : List Nat) (h : fieldsFit ws vs = true) :
    (writeFields bo ws vs).length = ws.sum := by
  induction ws generalizing vs with
  | nil =>
    cases vs with
    | nil => simp [writeFields]
    | cons v vs => simp [fieldsFit] at h
  | cons w ws ih =>
    cases vs with
    | nil => simp [fieldsFit] at h
    | cons v vs =>
      simp only [fieldsFit, Bool.and_eq_true, decide_eq_true_eq] at h
      simp [writeFields, writeScalar_length, ih vs h.2]

theorem readRows_writeRows (bo : ByteOrder) (ws : List Nat) (rows : List (List Nat))
    (h : rowsFit ws rows = true) (rest : List Byte) :
    readRows bo ws rows.length (writeRows bo ws rows ++ rest) = .ok (rows, rest) := by
  induction rows with
  | nil => simp [readRows, writeRows]
  | cons r rs ih =>
    simp only [rowsFit, List.all_cons, Bool.and_eq_true] at h
    simp only [List.length_cons, readRows, writeRows, List.append_assoc]
    rw [readFields_writeFields bo ws r h.1]
    simp only
    rw [ih (by simpa [rowsFit] using h.2)]

theorem readColumn_writeColumn (bo : ByteOrder) (w : Nat) (vs : List Nat)
    (h : vs.all (fun v => decide (v < 256 ^ w)) = true) (rest : List Byte) :
    readColumn bo w vs.length (writeColumn bo w vs ++ rest) = .ok (vs, rest) := by
  induction vs with
  | nil => simp [readColumn, writeColumn]
  | cons v vs ih =>
    simp only [List.all_cons, Bool.and_eq_true, decide_eq_true_eq] at h
    simp only [List.length_cons, readColumn, writeColumn, List.append_assoc]
    rw [readScalar_writeScalar bo w v h.1]
    simp only
    rw [ih h.2]

theorem readColumns_writeColumns (bo : ByteOrder) (n : Nat) (ws : List Nat)
    (cols : List (List Nat)) (h : columnsFit n ws cols = true) (rest : List Byte) :
    readColumns bo n ws (writeColumns bo n ws cols ++ rest) =
      .ok (cols.map (fun c => c.take n), rest) := by
  induction ws generalizing cols with
  | nil =>
    cases cols with
    | nil => simp [readColumns, writeColumns]
    | cons c cs => simp [columnsFit] at h
  | cons w ws ih =>
    cases cols with
    | nil => simp [columnsFit] at h
    | cons c cs =>
      simp only [columnsFit, Bool.and_eq_true, decide_eq_true_eq] at h
      obtain ⟨⟨hlen, hfit⟩, hrest⟩ := h
      simp only [readColumns, writeColumns, List.append_assoc, List.map_cons]
      have hn : (c.take n).length = n := by simp [hlen]
      have := readColumn_writeColumn bo w (c.take n) hfit (writeColumns bo n ws cs ++ rest)
      rw [hn] at this
      rw [this]
      simp only
      rw [ih cs hrest]

theorem readSeries_writeSeries (bo : ByteOrder) (sub sample : List Nat)
    (seriesLength : List Nat → Nat) (hs : List (List Nat)) (ss : List (List (List Nat)))
    (h : beamsFit sub sample seriesLength hs ss = true) (rest : List Byte) :
    readSeries bo sample seriesLength hs (writeSeries bo sample ss ++ rest) = .ok (ss, rest) := by
  induction hs generalizing ss with
  | nil =>
    cases ss with
    | nil => simp [readSeries, writeSeries]
    | cons s ss => simp [beamsFit] at h
  | cons hd hs ih =>
    cases ss with
    | nil => simp [beamsFit] at h
    | cons s ss =>
      simp only [beamsFit, Bool.and_eq_true, decide_eq_true_eq] at h
      obtain ⟨⟨⟨_, hlen⟩, hrows⟩, hrest⟩ := h
      simp only [readSeries, writeSeries, List.append_assoc]
      rw [← hlen, readRows_writeRows bo sample s hrows]
      simp only
      rw [ih ss hrest]

theorem beamsFit_rowsFit (sub sample : List Nat) (seriesLength : List Nat → Nat)
    (hs : List (List Nat)) (ss : List (List (List Nat)))
    (h : beamsFit sub sample seriesLength hs ss = true) : rowsFit sub hs = true := by
  induction hs generalizing ss with
  | nil => simp [rowsFit]
  | cons hd hs ih =>
    cases ss with
    | nil => simp [beamsFit] at h
    | cons s ss =>
      simp only [beamsFit, Bool.and_eq_true, decide_eq_true_eq] at h
      obtain ⟨⟨⟨hfit, _⟩, _⟩, hrest⟩ := h
      have := ih ss hrest
      simp only [rowsFit, List.all_cons, Bool.and_eq_true] at this ⊢
      exact ⟨hfit, this⟩

theorem columnsFit_length (n : Nat) (ws : List Nat) (cols : List (List Nat))
    (h : columnsFit n ws cols = true) : cols.length = ws.length := by
  induction ws generalizing cols with
  | nil =>
    cases cols with
    | nil => rfl
    | cons c cs => simp [columnsFit] at h
  | cons w ws ih =>
    cases cols with
    | nil => simp [columnsFit] at h
    | cons c cs =>
      simp only [columnsFit, Bool.and_eq_true] at h
      simp [ih cs h.2]

theorem columnsFit_row (n : Nat) (ws : List Nat) (cols : List (List Nat))
    (h : columnsFit n ws cols = true) (i : Nat) (hi : i < n) :
    fieldsFit ws (cols.map (fun c => c.getD i 0)) = true := by
  induction ws generalizing cols with
  | nil =>
    cases cols with
    | nil => rfl
    | cons c cs => simp [columnsFit] at h
  | cons w ws ih =>
    cases cols with
    | nil => simp [columnsFit] at h
    | cons c cs =>
      simp only [columnsFit, Bool.and_eq_true, decide_eq_true_eq, List.all_eq_true] at h
      obtain ⟨⟨hlen, hfit⟩, hrest⟩ := h
      simp only [List.map_cons, fieldsFit, Bool.and_eq_true, decide_eq_true_eq]
      refine ⟨?_, ih cs hrest⟩
      have hic : i < c.length := by omega
      have hmem : c.get ⟨i, hic⟩ ∈ c.take n := by
        rw [List.mem_iff_getElem]
        exact ⟨i, by simp; omega, by simp⟩
      have := hfit _ hmem
      rw [List.getD_eq_getElem _ _ hic]
      simpa using this

theorem rowsOf_fit (n : Nat) (ws : List Nat) (cols : List (List Nat))
    (h : columnsFit n ws cols = true) : rowsFit ws (rowsOf n cols) = true := by
  simp only [rowsFit, rowsOf, List.all_eq_true, List.mem_map, List.mem_range]
  rintro r ⟨i, hi, rfl⟩
  exact columnsFit_row n ws cols h i hi

theorem rowsOf_length (n : Nat) (cols : List (List Nat)) : (rowsOf n cols).length = n := by
  simp [rowsOf]

theorem columnsFit_le (n : Nat) (ws : List Nat) (cols : List (List Nat))
    (h : columnsFit n ws cols = true) : ∀ c ∈ cols, n ≤ c.length := by
  induction ws generalizing cols with
  | nil =>
    cases cols with
    | nil => simp
    | cons c cs => simp [columnsFit] at h
  | cons w ws ih =>
    cases cols with
    | nil => simp
    | cons c cs =>
      simp only [columnsFit, Bool.and_eq_true, decide_eq_true_eq] at h
      intro c' hc'
      rcases List.mem_cons.mp hc' with rfl | hmem
      · exact h.1.1
      · exact ih cs h.2 c' hmem

theorem columnsOf_rowsOf (n : Nat) (cols : List (List Nat))
    (h : ∀ c ∈ cols, n ≤ c.length) :
    columnsOf cols.length (rowsOf n cols) = cols.map (fun c => c.take n) := by
  apply List.ext_getElem
  · simp [columnsOf]
  · intro j h1 h2
    have hj : j < cols.length := by simpa [columnsOf] using h1
    have hle : n ≤ cols[j].length := h _ (List.getElem_mem _)
    simp only [columnsOf, rowsOf, List.getElem_map, List.getElem_range, List.map_map]
    apply List.ext_getElem
    · simp [hle]
    · intro i hi1 hi2
      have hin : i < n := by simpa using hi1
      have hic : i < cols[j].length := by omega
      simp [List.getD_eq_getElem, hj, hic]

theorem writeRows_length (bo : ByteOrder) (ws : List Nat) (rows : List (List Nat))
    (h : rowsFit ws rows = true) : (writeRows bo ws rows).length = rows.length * ws.sum := by
  induction rows with
  | nil => simp [writeRows]
  | cons r rs ih =>
    simp only [rowsFit, List.all_cons, Bool.and_eq_true] at h
    have := ih (by simpa [rowsFit] using h.2)
    simp only [writeRows, List.length_append, List.length_cons, this,
      writeFields_length bo ws r h.1]
    ring

theorem writeColumn_length (bo : ByteOrder) (w : Nat) (vs : List Nat) :
    (writeColumn bo w vs).length = vs.length * w := by
  induction vs with
  | nil => simp [writeColumn]
  | cons v vs ih =>
    simp only [writeColumn, List.length_append, List.length_cons, ih, writeScalar_length]
    ring

theorem writeColumns_length (bo : ByteOrder) (n : Nat) (ws : List Nat) (cols : List (List Nat))
    (h : columnsFit n ws cols = true) : (writeColumns bo n ws cols).length = n * ws.sum := by
  induction ws generalizing cols with
  | nil =>
    cases cols with
    | nil => simp [writeColumns]
    | cons c cs => simp [columnsFit] at h
  | cons w ws ih =>
    cases cols with
    | nil => simp [columnsFit] at h
    | cons c cs =>
      simp only [columnsFit, Bool.and_eq_true, decide_eq_true_eq] at h
      obtain ⟨⟨hlen, _⟩, hrest⟩ := h
      simp only [writeColumns, List.length_append, writeColumn_length, ih cs hrest,
        List.length_take, List.sum_cons]
      rw [Nat.min_eq_left hlen]
      ring

theorem decodePayload_encodePayload (bo : ByteOrder) (S : Schema) (R : Record)
    (h : R.valid S = true) :
    decodePayload bo S (encodePayload bo S R) = .ok ⟨R.upToCount S, none⟩ := by
  obtain ⟨fixed, body⟩ := R
  obtain ⟨ws, shape⟩ := S
  simp only [Record.valid, Bool.and_eq_true] at h
  obtain ⟨hfix, hbody⟩ := h
  simp only [decodePayload, encodePayload]
  rw [readFields_writeFields bo ws fixed hfix]
  simp only
  cases shape with
  | FixedOnly =>
    cases body <;> simp at hbody
    simp [decodeBody, encodeBody, Record.upToCount]
  | RawBlob =>
    cases body <;> simp at hbody
    simp [decodeBody, encodeBody, Record.upToCount]
  | CountedArray c layout elem =>
    cases body <;> simp at hbody
    rename_i cols
    simp only [Record.count] at hbody
    have hlenc := columnsFit_length _ _ _ hbody
    cases layout with
    | arrayOfStruct =>
      have hrows := rowsOf_fit _ _ _ hbody
      have hlen := writeRows_length bo elem _ hrows
      rw [rowsOf_length] at hlen
      have hrt := readRows_writeRows bo elem _ hrows []
      rw [rowsOf_length, List.append_nil] at hrt
      simp only [decodeBody, encodeBody, Record.upToCount, Record.count]
      rw [if_neg (by omega), hrt]
      simp only
      rw [← hlenc, columnsOf_rowsOf _ _ (columnsFit_le _ _ _ hbody)]
    | parallelArrays =>
      have hlen := writeColumns_length bo _ elem cols hbody
      have hrt := readColumns_writeColumns bo _ elem cols hbody []
      rw [List.append_nil] at hrt
      simp only [decodeBody, encodeBody, Record.upToCount, Record.count]
      rw [if_neg (by omega), hrt]
  | NestedArray c sub len sample =>
    cases body <;> simp at hbody
    rename_i subs series
    simp only [Record.count] at hbody
    obtain ⟨⟨hn1, hn2⟩, hbeams⟩ := hbody
    have hsubs := beamsFit_rowsFit _ _ _ _ _ hbeams
    have hlen := writeRows_length bo sub _ hsubs
    have hcount : (subs.take (fixed.getD c 0)).length = fixed.getD c 0 := by
      rw [List.length_take, Nat.min_eq_left hn1]
    rw [hcount] at hlen
    have hrt := readRows_writeRows bo sub _ hsubs
      (writeSeries bo sample (series.take (fixed.getD c 0)))
    rw [hcount] at hrt
    have hrt2 := readSeries_writeSeries bo sub sample len _ _ hbeams []
    rw [List.append_nil] at hrt2
    simp only [decodeBody, encodeBody, Record.upToCount, Record.count]
    rw [if_neg (by simp only [List.length_append]; omega), hrt]
    simp only
    rw [hrt2]
    simp

theorem upToCount_fixed (S : Schema) (R : Record) : (R.upToCount S).fixed = R.fixed := by
  obtain ⟨ws, shape⟩ := S
  obtain ⟨fixed, body⟩ := R
  cases shape <;> cases body <;> rfl

theorem upToCount_of_exact (S : Schema) (R : Record) (h : R.exact S = true) :
    R.upToCount S = R := by
  obtain ⟨ws, shape⟩ := S
  obtain ⟨fixed, body⟩ := R
  cases shape <;> cases body <;> try rfl
  · rename_i c layout elem cols
    simp only [Record.exact, Record.count, List.all_eq_true, decide_eq_true_eq] at h
    simp only [Record.upToCount, Record.count, Record.mk.injEq, Body.arrays.injEq, true_and]
    have hmap : cols.map (fun col => col.take (fixed.getD c 0)) = cols.map id := by
      apply List.map_congr_left
      intro col hcol
      exact List.take_of_length_le (le_of_eq (h col hcol))
    rw [hmap, List.map_id]
  · rename_i c sub len sample subs series
    simp only [Record.exact, Record.count, Bool.and_eq_true, decide_eq_true_eq] at h
    simp only [Record.upToCount, Record.count, Record.mk.injEq, Body.beams.injEq, true_and]
    exact ⟨List.take_of_length_le (le_of_eq h.1), List.take_of_length_le (le_of_eq h.2)⟩

/-! ### Schemas of the header structures -/

theorem fixedOnlySchema_fixed_header_size (t : CType) :
    (fixedOnlySchema t).fixed_header_size = widthFields (payloadFields t) :=
  leavesFields_sum _

/-- The Position row of the schema table has the fixed header size the header
gives for the record, 37 bytes. -/
theorem headerSchemaTable_position_size :
    (lookup headerSchemaTable R7KRECID_Position).shape_kind = .FixedOnly ∧
      (lookup headerSchemaTable R7KRECID_Position).fixed_header_size = R7KHDRSIZE_Position := by
  decide

theorem countedArraySchema_fixed_header_size (t : CType) (countField : String)
    (layout : ArrayLayout) :
    (countedArraySchema t countField layout).fixed_header_size = widthFields (fixedFields t) :=
  leavesFields_sum _

/-! ### Size of the encoded payload -/

/-- The payload the modelled encoder writes for a counted-array record is the
fixed prefix plus count times the element size. -/
theorem encodePayload_counted_length (bo : ByteOrder) (ws : List Nat) (c : Nat)
    (layout : ArrayLayout) (elem : List Nat) (R : Record)
    (h : R.valid ⟨ws, .CountedArray c layout elem⟩ = true) :
    (encodePayload bo ⟨ws, .CountedArray c layout elem⟩ R).length =
      ws.sum + R.count c * elem.sum := by
  obtain ⟨fixed, body⟩ := R
  simp only [Record.valid, Bool.and_eq_true] at h
  obtain ⟨hfix, hbody⟩ := h
  cases body <;> simp at hbody
  rename_i cols
  simp only [Record.count] at hbody
  simp only [encodePayload, List.length_append, writeFields_length bo ws fixed hfix, Record.count]
  cases layout with
  | arrayOfStruct =>
    simp only [encodeBody]
    rw [writeRows_length bo elem _ (rowsOf_fit _ _ _ hbody), rowsOf_length]
  | parallelArrays =>
    simp only [encodeBody]
    rw [writeColumns_length bo _ elem cols hbody]

/-- The payload the modelled encoder writes for a sound velocity profile or an
attitude record has the size computed from the structure and the count. -/
theorem encode_counted_length_svp_attitude (bo : ByteOrder) (R : Record) :
    (R.valid (lookup headerSchemaTable R7KRECID_SoundVelocityProfile) = true →
      (encode bo headerSchemaTable R7KRECID_SoundVelocityProfile R).length =
        countedPayloadSize s7kr_svp (R.count 5)) ∧
    (R.valid (lookup headerSchemaTable R7KRECID_Attitude) = true →
      (encode bo headerSchemaTable R7KRECID_Attitude R).length =
        countedPayloadSize s7kr_attitude (R.count 0)) := by
  constructor
  · intro h
    have hs : lookup headerSchemaTable R7KRECID_SoundVelocityProfile =
        ⟨[1, 1, 2, 8, 8, 4], .CountedArray 5 .arrayOfStruct [4, 4]⟩ := rfl
    rw [hs] at h
    rw [encode, hs, encodePayload_counted_length bo _ _ _ _ R h]
    have hsz : countedPayloadSize s7kr_svp (R.count 5) =
        24 + (R.count 5 * 4 + (R.count 5 * 4 + 0)) := rfl
    rw [hsz]
    simp only [List.sum_cons, List.sum_nil]
    omega
  · intro h
    have hs : lookup headerSchemaTable R7KRECID_Attitude =
        ⟨[1], .CountedArray 0 .arrayOfStruct [2, 4, 4, 4, 4]⟩ := rfl
    rw [hs] at h
    rw [encode, hs, encodePayload_counted_length bo _ _ _ _ R h]
    have hsz : countedPayloadSize s7kr_attitude (R.count 0) =
        1 + (R.count 0 * 2 + (R.count 0 * 4 + (R.count 0 * 4 + (R.count 0 * 4 +
          (R.count 0 * 4 + 0))))) := rfl
    rw [hsz]
    simp only [List.sum_cons, List.sum_nil]
    omega

/-! ### Concrete round trips -/

/-- A nested record with two sub-records round-trips in big-endian order. -/
theorem nested_round_trip_example :
    decodePayload .big sampleNestedSchema
        (encodePayload .big sampleNestedSchema sampleNestedRecord) =
      .ok ⟨sampleNestedRecord, none⟩ := by
  rfl

/-- A Heading record round-trips through the schema of `s7kr_heading`. -/
theorem heading_round_trip_example :
    decode .little headerSchemaTable R7KRECID_Heading
        (encode .little headerSchemaTable R7KRECID_Heading ⟨[1078530011], .empty⟩) =
      .ok ⟨⟨[1078530011], .empty⟩, none⟩ := by
  rfl

/-- An identifier absent from the table decodes as an opaque buffer. -/
theorem unknown_round_trip_example :
    decode .little headerSchemaTable 4242
        (encode .little headerSchemaTable 4242 ⟨[], .blob [1, 2, 3, 4, 5]⟩) =
      .ok ⟨⟨[], .blob [1, 2, 3, 4, 5]⟩, none⟩ := by
  rfl

/-- A sound velocity profile held in arrays of capacity three, with count two,
decodes from its encoding with the arrays cut to the two counted entries. -/
theorem svp_slot_round_trip_example :
    decode .little headerSchemaTable R7KRECID_SoundVelocityProfile
        (encode .little headerSchemaTable R7KRECID_SoundVelocityProfile sampleSvpSlot) =
      .ok ⟨sampleSvpRecord, none⟩ ∧
    sampleSvpSlot.upToCount (lookup headerSchemaTable R7KRECID_SoundVelocityProfile) =
      sampleSvpRecord := by
  exact ⟨rfl, rfl⟩

/-! ## Round trip -/

/-- C2: round trip.  For every record-type identifier, whatever the schema
table resolves it to, and every syntactically valid instance R of that schema,
decoding the bytes produced by encoding R succeeds without advisory and yields
R with its arrays cut at their counts: the scalar fields and counts are those
of R, the array contents up to the count are those of R, and when the arrays of
R hold exactly count entries the result is R itself. -/
theorem decode_encode_round_trip (bo : ByteOrder) (table : List (Nat × Schema))
    (record_type_id : Nat) (R : Record) (h : R.valid (lookup table record_type_id) = true) :
    decode bo table record_type_id (encode bo table record_type_id R) =
        .ok ⟨R.upToCount (lookup table record_type_id), none⟩ ∧
      (R.upToCount (lookup table record_type_id)).fixed = R.fixed ∧
      (R.exact (lookup table record_type_id) = true →
        decode bo table record_type_id (encode bo table record_type_id R) = .ok ⟨R, none⟩) := by
  have hrt := decodePayload_encodePayload bo (lookup table record_type_id) R h
  refine ⟨hrt, upToCount_fixed _ R, ?_⟩
  intro hexact
  rw [decode, encode, hrt, upToCount_of_exact _ R hexact]

/-- Witness for C2: the sound velocity profile record with two samples is a
valid instance of the schema of `s7kr_svp` whose arrays hold exactly two
entries, and decoding its little-endian encoding yields the record itself. -/
theorem decode_encode_round_trip_witness :
    sampleSvpRecord.valid (lookup headerSchemaTable R7KRECID_SoundVelocityProfile) = true ∧
      sampleSvpRecord.exact (lookup headerSchemaTable R7KRECID_SoundVelocityProfile) = true ∧
      decode .little headerSchemaTable R7KRECID_SoundVelocityProfile
          (encode .little headerSchemaTable R7KRECID_SoundVelocityProfile sampleSvpRecord) =
        .ok ⟨sampleSvpRecord.upToCount (lookup headerSchemaTable R7KRECID_SoundVelocityProfile),
          none⟩ ∧
      (sampleSvpRecord.upToCount (lookup headerSchemaTable R7KRECID_SoundVelocityProfile)).fixed =
        sampleSvpRecord.fixed ∧
      decode .little headerSchemaTable R7KRECID_SoundVelocityProfile
          (encode .little headerSchemaTable R7KRECID_SoundVelocityProfile sampleSvpRecord) =
        .ok ⟨sampleSvpRecord, none⟩ :=
  have H := decode_encode_round_trip .little headerSchemaTable R7KRECID_SoundVelocityProfile
    sampleSvpRecord (by decide)
  ⟨by decide, by decide, H.1, H.2.1, H.2.2 (by decide)⟩

/-! ## Lemmas -/

theorem foldl_wrapping_sum (m : Nat) (data : List Byte) (acc : Nat) :
    data.foldl (fun a b => (a + b.val) % m) acc % m = (acc + byteSum data) % m := by
  induction data generalizing acc with
  | nil => simp [byteSum]
  | cons b bs ih =>
    rw [List.foldl_cons, ih]
    simp only [byteSum, List.map_cons, List.sum_cons]
    rw [Nat.add_mod, Nat.mod_mod, ← Nat.add_mod]
    congr 1
    omega

theorem foldl_wrapping_lt (m : Nat) (hm : 0 < m) (data : List Byte) (acc : Nat) (hacc : acc < m) :
    data.foldl (fun a b => (a + b.val) % m) acc < m := by
  induction data generalizing acc with
  | nil => simpa using hacc
  | cons b bs ih =>
    rw [List.foldl_cons]
    exact ih _ (Nat.mod_lt _ hm)

theorem byteSum_le (data : List Byte) : byteSum data ≤ 255 * data.length := by
  induction data with
  | nil => simp [byteSum]
  | cons b bs ih =>
    have hb : b.val ≤ 255 := by omega
    simp only [byteSum, List.map_cons, List.sum_cons, List.length_cons] at ih ⊢
    omega

theorem checksumAccumulate_mod (data : List Byte) :
    checksumAccumulate data = byteSum data % 2 ^ 64 := by
  have h := foldl_wrapping_sum (2 ^ 64) data 0
  have hlt := foldl_wrapping_lt (2 ^ 64) (by norm_num) data 0 (by norm_num)
  rw [Nat.mod_eq_of_lt hlt] at h
  simpa [checksumAccumulate] using h

theorem wrappingSum32_mod (data : List Byte) :
    wrappingSum32 data = byteSum data % 2 ^ 32 := by
  have h := foldl_wrapping_sum (2 ^ 32) data 0
  have hlt := foldl_wrapping_lt (2 ^ 32) (by norm_num) data 0 (by norm_num)
  rw [Nat.mod_eq_of_lt hlt] at h
  simpa [wrappingSum32] using h

/-! ## The frame header and the time structure -/

/-- C1: the frame header is a fixed 64-byte structure.  The fields of
`s7k_header`, in declaration order, are the eighteen the format lists, their
wire widths are 2, 2, 4, 4, 4, 4, 10, 2, 4, 4, 2, 2, 4, 2, 2, 4, 4, 4, and
these sum to `MBSYS_RESON7K_RECORDHEADER_SIZE`, which is 64. -/
theorem header_width_eq_recordheader_size :
    fieldNames s7k_header.fields =
        ["Version", "Offset", "SyncPattern", "Size", "OptionalDataOffset",
         "OptionalDataIdentifier", "s7kTime", "RecordVersion", "RecordType", "DeviceId",
         "Reserved", "SystemEnumerator", "Reserved2", "Flags", "Reserved3", "Reserved4",
         "FragmentedTotal", "FragmentNumber"] ∧
      fieldWidths s7k_header.fields = [2, 2, 4, 4, 4, 4, 10, 2, 4, 4, 2, 2, 4, 2, 2, 4, 4, 4] ∧
      (fieldWidths s7k_header.fields).sum = MBSYS_RESON7K_RECORDHEADER_SIZE ∧
      s7k_header.wireWidth = MBSYS_RESON7K_RECORDHEADER_SIZE ∧
      MBSYS_RESON7K_RECORDHEADER_SIZE = 64 := by
  decide

/-- C3: for every data section of fewer than 2^56 bytes, the frame checksum
(the byte sum accumulated in a 64-bit unsigned integer, of which the low 32
bits are kept) equals the sum of the byte values modulo 2^32, equals what a
32-bit wrapping accumulator computes, and the 64-bit accumulator itself holds
the exact sum: it never wraps. -/
theorem checksum_eq_sum_mod (data : List Byte) (hlen : data.length < 2 ^ 56) :
    checksum data = byteSum data % 2 ^ 32 ∧
      checksum data = wrappingSum32 data ∧
      checksumAccumulate data = byteSum data := by
  have hsum : byteSum data < 2 ^ 64 := by
    have := byteSum_le data
    omega
  have hacc : checksumAccumulate data = byteSum data := by
    rw [checksumAccumulate_mod, Nat.mod_eq_of_lt hsum]
  refine ⟨?_, ?_, hacc⟩
  · rw [checksum, hacc]
  · rw [checksum, hacc, wrappingSum32_mod]

/-- Witness for C3 on a three-byte data section whose sum is 511. -/
theorem checksum_eq_sum_mod_witness :
    ([255, 255, 1] : List Byte).length < 2 ^ 56 ∧
      (checksum [255, 255, 1] = byteSum [255, 255, 1] % 2 ^ 32 ∧
        checksum [255, 255, 1] = wrappingSum32 [255, 255, 1] ∧
        checksumAccumulate [255, 255, 1] = byteSum [255, 255, 1]) :=
  ⟨by decide, checksum_eq_sum_mod [255, 255, 1] (by decide)⟩

/-- C4: a Heading record (type 1013) is fixed-only with a payload of exactly
one 4-byte float.  The payload fields of `s7kr_heading` are the single float
`heading`, `R7KHDRSIZE_Heading` is 4 and equals the payload width, and the
frame size with checksum, header plus payload plus tail, is 64 + 4 + 4 = 72. -/
theorem heading_record_layout :
    R7KRECID_Heading = 1013 ∧
      payloadFields s7kr_heading = [("heading", .float)] ∧
      fieldWidths (payloadFields s7kr_heading) = [4] ∧
      fieldNames (sampleFields s7kr_heading) = [] ∧
      widthFields (payloadFields s7kr_heading) = R7KHDRSIZE_Heading ∧
      R7KHDRSIZE_Heading = 4 ∧
      MBSYS_RESON7K_RECORDHEADER_SIZE + R7KHDRSIZE_Heading + MBSYS_RESON7K_RECORDTAIL_SIZE = 72 ∧
      s7kr_heading.wireWidth + MBSYS_RESON7K_RECORDTAIL_SIZE = 72 :=
  ⟨by decide, rfl, by decide, by decide, by decide, by decide, by decide, by decide⟩

/-- C5: every record-type identifier of the Record ID table lies in the
published range of the section it is listed under: the generic-sensor
identifiers (ReferencePoint to SonarInstallationIDs) in 1000..1999, the
user-defined identifier (SonarPipeEnvironment) in 2000..2999, the extra
identifier (ContactOutput) in 3000..6999, every SeaBat 7k identifier
(7kSonarSettings to 7kSpreadingLoss) in 7000..7999, and the file-header,
time-message and remote-control identifiers at or above 7200. -/
theorem record_ids_in_published_ranges :
    (∀ d ∈ recordIdGenericSensor, d.valueIn 1000 1999) ∧
      (recordIdGenericSensor.head?.map (fun d => d.name) = some "ReferencePoint" ∧
        recordIdGenericSensor.getLast?.map (fun d => d.name) = some "SonarInstallationIDs") ∧
      (defineNames recordIdUserDefined = ["SonarPipeEnvironment"] ∧
        ∀ d ∈ recordIdUserDefined, d.valueIn 2000 2999) ∧
      (defineNames recordIdExtra = ["ContactOutput"] ∧
        ∀ d ∈ recordIdExtra, d.valueIn 3000 6999) ∧
      (∀ d ∈ recordIdSeaBat7k ++ recordIdSeaBat7kHigh, d.valueIn 7000 7999) ∧
      (recordIdSeaBat7k.head?.map (fun d => d.name) = some "7kSonarSettings" ∧
        recordIdSeaBat7kHigh.getLast?.map (fun d => d.name) = some "7kSpreadingLoss") ∧
      (∀ d ∈ recordIdTable, d.name ∈ fileTimeRemoteNames → d.valueIn 7200 7999) ∧
      (∀ s ∈ fileTimeRemoteNames, s ∈ defineNames recordIdTable) := by
  decide

/-- C6 (the code departs from it): the size table does not give every
identifier of the Record ID table a numeric fixed header size.  Looking each
record type up under its own name, exactly two have none: `7kAdaptiveGate`,
whose `R7KHDRSIZE_7kAdaptiveGate` is defined with an empty replacement list
(line 218), and `7kTVG`, whose size is defined under the different name
`R7KHDRSIZE_7kTVGData` (line 215). -/
theorem size_table_gaps :
    (defineNames (recordIdTable.filter (fun d => (fixedHeaderSize d.name).isNone)) =
        ["7kTVG", "7kAdaptiveGate"]) ∧
      hdrSizeDefine "7kAdaptiveGate" = some (Define.mk "R7KHDRSIZE" "7kAdaptiveGate" none) ∧
      fixedHeaderSize "7kAdaptiveGate" = none ∧
      hdrSizeDefine "7kTVG" = none ∧
      fixedHeaderSize "7kTVGData" = some 50 ∧
      recordIdTable.length = 71 ∧
      (recordIdTable.filter (fun d => (fixedHeaderSize d.name).isSome)).length = 69 := by
  decide

/-- C7: a 7k time value consists of exactly the five components year, day,
seconds (a 32-bit float), hours and minutes, of widths 2, 2, 4, 1 and 1, and
occupies 10 bytes on the wire, which is the width the frame header comment
gives for its `s7kTime` field. -/
theorem time_is_ten_bytes :
    s7k_time.fields =
        [("Year", .unsigned_short), ("Day", .unsigned_short), ("Seconds", .float),
         ("Hours", .mb_u_char), ("Minutes", .mb_u_char)] ∧
      fieldWidths s7k_time.fields = [2, 2, 4, 1, 1] ∧
      (fieldWidths s7k_time.fields).sum = 10 ∧
      s7k_time.wireWidth = s7kTime_commentWidth ∧
      (s7k_header.fields.lookup "s7kTime").map CType.wireWidth = some s7kTime_commentWidth :=
  ⟨rfl, by decide, by decide, by decide, by decide⟩

/-- C8: for each of the fixed-only record types ReferencePoint,
UncalibratedSensorOffset, CalibratedSensorOffset, Tide, Altitude, Depth,
RollPitchHeave, Heading, Navigation, PanTilt, SonarInstallationIDs,
7kSoundVelocity, 7kAbsorptionLoss and 7kSpreadingLoss, the constant
`R7KHDRSIZE` of the type equals the sum of the wire widths of the payload
fields of its structure (every field after `header`), and none of these
structures has a pointer field. -/
theorem fixed_only_sizes_match_structs :
    (R7KHDRSIZE_ReferencePoint = widthFields (payloadFields s7kr_reference) ∧
      R7KHDRSIZE_UncalibratedSensorOffset = widthFields (payloadFields s7kr_sensoruncal) ∧
      R7KHDRSIZE_CalibratedSensorOffset = widthFields (payloadFields s7kr_sensorcal) ∧
      R7KHDRSIZE_Tide = widthFields (payloadFields s7kr_tide) ∧
      R7KHDRSIZE_Altitude = widthFields (payloadFields s7kr_altitude) ∧
      R7KHDRSIZE_Depth = widthFields (payloadFields s7kr_depth) ∧
      R7KHDRSIZE_RollPitchHeave = widthFields (payloadFields s7kr_rollpitchheave) ∧
      R7KHDRSIZE_Heading = widthFields (payloadFields s7kr_heading) ∧
      R7KHDRSIZE_Navigation = widthFields (payloadFields s7kr_navigation) ∧
      R7KHDRSIZE_PanTilt = widthFields (payloadFields s7kr_pantilt) ∧
      R7KHDRSIZE_SonarInstallationIDs = widthFields (payloadFields s7kr_sonarinstallationids) ∧
      R7KHDRSIZE_7kSoundVelocity = widthFields (payloadFields s7kr_soundvelocity) ∧
      R7KHDRSIZE_7kAbsorptionLoss = widthFields (payloadFields s7kr_absorptionloss) ∧
      R7KHDRSIZE_7kSpreadingLoss = widthFields (payloadFields s7kr_spreadingloss)) ∧
      (∀ t ∈ [s7kr_reference, s7kr_sensoruncal, s7kr_sensorcal, s7kr_tide, s7kr_altitude,
          s7kr_depth, s7kr_rollpitchheave, s7kr_heading, s7kr_navigation, s7kr_pantilt,
          s7kr_sonarinstallationids, s7kr_soundvelocity, s7kr_absorptionloss,
          s7kr_spreadingloss],
        fieldNames (sampleFields t) = [] ∧ fieldNames (fixedFields t) = fieldNames (payloadFields t) ∧
          fieldNames t.fields = "header" :: fieldNames (payloadFields t)) := by
  decide

/-- C9 as stated fails: `R7KHDRSIZE_Position` is not the sum of the wire
widths of the payload fields declared in `s7kr_position`. -/
theorem position_size_ne_declared_fields :
    ¬ (R7KHDRSIZE_Position = widthFields (payloadFields s7kr_position)) := by
  decide

/-- C9 amended: the payload fields declared in `s7kr_position` (datum, latency,
latitude, longitude, height, type, utm_zone, quality, method) have summed wire
width 36, and `R7KHDRSIZE_Position`, which is 37, equals that sum plus the one
byte of the optional `nsat` field, which the structure carries only as a
comment. -/
theorem position_size_counts_optional_nsat :
    fieldNames (payloadFields s7kr_position) =
        ["datum", "latency", "latitude", "longitude", "height", "type", "utm_zone",
         "quality", "method"] ∧
      fieldWidths (payloadFields s7kr_position) = [4, 4, 8, 8, 8, 1, 1, 1, 1] ∧
      widthFields (payloadFields s7kr_position) = 36 ∧
      R7KHDRSIZE_Position = 37 ∧
      R7KHDRSIZE_Position =
        widthFields (payloadFields s7kr_position) + widthFields s7kr_position_commentedOut := by
  decide

/-- C10: for the counted-array records SoundVelocityProfile and Attitude the
payload size is the fixed header size plus the count times the element size,
and both constants match the structure.  For `s7kr_svp` the fixed fields
(position_flag to n) have summed width 24 and one depth plus one
sound_velocity float is 8, so a record with n samples has 24 + 8n payload
bytes; for `s7kr_attitude` the fixed field is the one-byte count and one
dataset (delta_time, roll, pitch, heave, heading) is 18 bytes, so a record
with n datasets has 1 + 18n payload bytes. -/
theorem counted_array_payload_sizes (n : Nat) :
    (fieldNames (fixedFields s7kr_svp) =
        ["position_flag", "reserved1", "reserved2", "latitude", "longitude", "n"] ∧
      R7KHDRSIZE_SoundVelocityProfile = widthFields (fixedFields s7kr_svp) ∧
      fieldNames (sampleFields s7kr_svp) = ["depth", "sound_velocity"] ∧
      R7KRDTSIZE_SoundVelocityProfile = widthFields (sampleFields s7kr_svp) ∧
      countedPayloadSize s7kr_svp n =
        R7KHDRSIZE_SoundVelocityProfile + n * R7KRDTSIZE_SoundVelocityProfile ∧
      countedPayloadSize s7kr_svp n = 24 + 8 * n) ∧
    (fieldNames (fixedFields s7kr_attitude) = ["n"] ∧
      R7KHDRSIZE_Attitude = widthFields (fixedFields s7kr_attitude) ∧
      fieldNames (sampleFields s7kr_attitude) =
        ["delta_time", "roll", "pitch", "heave", "heading"] ∧
      R7KRDTSIZE_Attitude = widthFields (sampleFields s7kr_attitude) ∧
      countedPayloadSize s7kr_attitude n = R7KHDRSIZE_Attitude + n * R7KRDTSIZE_Attitude ∧
      countedPayloadSize s7kr_attitude n = 1 + 18 * n) := by
  have hsvp : countedPayloadSize s7kr_svp n = 24 + (n * 4 + (n * 4 + 0)) := rfl
  have hatt : countedPayloadSize s7kr_attitude n =
      1 + (n * 2 + (n * 4 + (n * 4 + (n * 4 + (n * 4 + 0))))) := rfl
  have e1 : R7KHDRSIZE_SoundVelocityProfile = 24 := rfl
  have e2 : R7KRDTSIZE_SoundVelocityProfile = 8 := rfl
  have e3 : R7KHDRSIZE_Attitude = 1 := rfl
  have e4 : R7KRDTSIZE_Attitude = 18 := rfl
  refine ⟨⟨by decide, by decide, by decide, by decide, ?_, ?_⟩,
    ⟨by decide, by decide, by decide, by decide, ?_, ?_⟩⟩
  · rw [hsvp, e1, e2]; omega
  · rw [hsvp]; omega
  · rw [hatt, e3, e4]; omega
  · rw [hatt]; omega

/-! ## Counted-array, per-beam and file header records -/

/-- C11: for the counted-array records CTD, SurveyLine and SonarPipeEnvironment
the constant `R7KHDRSIZE` of the type equals the summed wire width of the fixed
payload fields of the structure (all wire fields before `nalloc`), and
`R7KRDTSIZE` equals the summed width of one element of each of its parallel
sample arrays (5 floats for CTD, 2 doubles for SurveyLine, 5 floats for
SonarPipeEnvironment), so a record with count n has payload size
`R7KHDRSIZE + n * R7KRDTSIZE`. -/
theorem counted_array_sizes_ctd_surveyline_pipe (n : Nat) :
    (R7KHDRSIZE_CTD = widthFields (fixedFields s7kr_ctd) ∧
      fieldWidths (sampleFields s7kr_ctd) = [4, 4, 4, 4, 4] ∧
      R7KRDTSIZE_CTD = widthFields (sampleFields s7kr_ctd) ∧
      countedPayloadSize s7kr_ctd n = R7KHDRSIZE_CTD + n * R7KRDTSIZE_CTD) ∧
    (R7KHDRSIZE_SurveyLine = widthFields (fixedFields s7kr_surveyline) ∧
      fieldWidths (sampleFields s7kr_surveyline) = [8, 8] ∧
      R7KRDTSIZE_SurveyLine = widthFields (sampleFields s7kr_surveyline) ∧
      countedPayloadSize s7kr_surveyline n =
        R7KHDRSIZE_SurveyLine + n * R7KRDTSIZE_SurveyLine) ∧
    (R7KHDRSIZE_SonarPipeEnvironment = widthFields (fixedFields s7kr_sonarpipeenvironment) ∧
      fieldWidths (sampleFields s7kr_sonarpipeenvironment) = [4, 4, 4, 4, 4] ∧
      R7KRDTSIZE_SonarPipeEnvironment = widthFields (sampleFields s7kr_sonarpipeenvironment) ∧
      countedPayloadSize s7kr_sonarpipeenvironment n =
        R7KHDRSIZE_SonarPipeEnvironment + n * R7KRDTSIZE_SonarPipeEnvironment) ∧
    (fieldNames (fixedFields s7kr_ctd) =
        ["frequency", "velocity_source_flag", "velocity_algorithm", "conductivity_flag",
         "pressure_flag", "position_flag", "validity", "reserved", "latitude", "longitude",
         "sample_rate", "n"] ∧
      fieldNames (fixedFields s7kr_surveyline) = ["n", "type", "turnradius", "name"] ∧
      fieldNames (fixedFields s7kr_sonarpipeenvironment) =
        ["pipe_number", "s7kTime", "ping_number", "multiping_number", "pipe_diameter",
         "sound_velocity", "sample_rate", "finished", "points_number", "n", "reserved"]) := by
  have hctd : countedPayloadSize s7kr_ctd n =
      36 + (n * 4 + (n * 4 + (n * 4 + (n * 4 + (n * 4 + 0))))) := rfl
  have hsl : countedPayloadSize s7kr_surveyline n = 72 + (n * 8 + (n * 8 + 0)) := rfl
  have hpe : countedPayloadSize s7kr_sonarpipeenvironment n =
      83 + (n * 4 + (n * 4 + (n * 4 + (n * 4 + (n * 4 + 0))))) := rfl
  have e1 : R7KHDRSIZE_CTD = 36 := rfl
  have e2 : R7KRDTSIZE_CTD = 20 := rfl
  have e3 : R7KHDRSIZE_SurveyLine = 72 := rfl
  have e4 : R7KRDTSIZE_SurveyLine = 16 := rfl
  have e5 : R7KHDRSIZE_SonarPipeEnvironment = 83 := rfl
  have e6 : R7KRDTSIZE_SonarPipeEnvironment = 20 := rfl
  refine ⟨⟨by decide, by decide, by decide, ?_⟩, ⟨by decide, by decide, by decide, ?_⟩,
    ⟨by decide, by decide, by decide, ?_⟩, by decide⟩
  · rw [hctd, e1, e2]; omega
  · rw [hsl, e3, e4]; omega
  · rw [hpe, e5, e6]; omega

/-- C12: for the per-beam nested records, `R7KHDRSIZE_7kSnippetData` equals the
summed wire width of the fixed fields of `s7kr_v2snippet` (serial_number,
ping_number, multi_ping, number_beams, error_flag, control_flags,
reserved[28]); `R7KRDTSIZE_7kSnippetDataseries` equals the summed width of one
per-beam sub-record header of `s7kr_v2snippettimeseries` (beam_number,
begin_sample, detect_sample, end_sample); and `R7KHDRSIZE_7kBeamformedData`
equals the summed width of the fixed fields of `s7kr_beamformeddata`
(serial_number to reserved[8]). -/
theorem per_beam_sizes_match_structs :
    (fieldNames (fieldsBefore s7kr_v2snippet "snippettimeseries") =
        ["serial_number", "ping_number", "multi_ping", "number_beams", "error_flag",
         "control_flags", "reserved"] ∧
      fieldWidths (fieldsBefore s7kr_v2snippet "snippettimeseries") = [8, 4, 2, 2, 1, 1, 28] ∧
      R7KHDRSIZE_7kSnippetData = widthFields (fieldsBefore s7kr_v2snippet "snippettimeseries") ∧
      fieldNames (payloadFields s7kr_v2snippet) =
        fieldNames (fieldsBefore s7kr_v2snippet "snippettimeseries") ++ ["snippettimeseries"]) ∧
    (fieldNames (fixedFields s7kr_v2snippettimeseries) =
        ["beam_number", "begin_sample", "detect_sample", "end_sample"] ∧
      fieldWidths (fixedFields s7kr_v2snippettimeseries) = [2, 4, 4, 4] ∧
      R7KRDTSIZE_7kSnippetDataseries = widthFields (fixedFields s7kr_v2snippettimeseries)) ∧
    (fieldNames (fieldsBefore s7kr_beamformeddata "amplitudephase") =
        ["serial_number", "ping_number", "multi_ping", "number_beams", "number_samples",
         "reserved"] ∧
      fieldWidths (fieldsBefore s7kr_beamformeddata "amplitudephase") = [8, 4, 2, 2, 4, 32] ∧
      R7KHDRSIZE_7kBeamformedData =
        widthFields (fieldsBefore s7kr_beamformeddata "amplitudephase") ∧
      fieldNames (payloadFields s7kr_beamformeddata) =
        fieldNames (fieldsBefore s7kr_beamformeddata "amplitudephase") ++ ["amplitudephase"]) := by
  decide

/-- C13: the 7kFileHeader record (type 7200) carries the file identifier, the
format version, the session identifier and the subsystem list, and its size
constants match its structure: `R7KHDRSIZE_7kFileHeader` (44) is the summed
width of file_identifier[16], version, reserved, session_identifier[16],
record_data_size and number_subsystems; `R7KRDTSIZE_7kFileHeader` (272) is the
summed width of recording_name[64], recording_version[16],
user_defined_name[64] and notes[128]; together they are the summed width of
all fixed fields before the subsystem list. -/
theorem fileheader_sizes_match_struct :
    R7KRECID_7kFileHeader = 7200 ∧
      fieldNames (payloadFields s7kr_fileheader) =
        ["file_identifier", "version", "reserved", "session_identifier", "record_data_size",
         "number_subsystems", "recording_name", "recording_version", "user_defined_name",
         "notes", "subsystem"] ∧
      (fieldNames (fieldsBefore s7kr_fileheader "recording_name") =
          ["file_identifier", "version", "reserved", "session_identifier", "record_data_size",
           "number_subsystems"] ∧
        R7KHDRSIZE_7kFileHeader = 44 ∧
        R7KHDRSIZE_7kFileHeader = widthFields (fieldsBefore s7kr_fileheader "recording_name")) ∧
      (fieldNames ((fieldsBefore s7kr_fileheader "subsystem").drop
            (fieldsBefore s7kr_fileheader "recording_name").length) =
          ["recording_name", "recording_version", "user_defined_name", "notes"] ∧
        fieldWidths ((fieldsBefore s7kr_fileheader "subsystem").drop
            (fieldsBefore s7kr_fileheader "recording_name").length) = [64, 16, 64, 128] ∧
        R7KRDTSIZE_7kFileHeader = 272 ∧
        R7KRDTSIZE_7kFileHeader =
          widthFields ((fieldsBefore s7kr_fileheader "subsystem").drop
            (fieldsBefore s7kr_fileheader "recording_name").length)) ∧
      R7KHDRSIZE_7kFileHeader + R7KRDTSIZE_7kFileHeader =
        widthFields (fieldsBefore s7kr_fileheader "subsystem") ∧
      fieldNames s7kr_subsystem.fields = ["device_identifier", "system_enumerator"] := by
  decide

/-- C20 (the code departs from it): `R7KHDRSIZE_Geodesy` is 320, but the wire
widths of the payload fields of `s7kr_geodesy` (spheroid[32], semimajoraxis,
flattening, reserved1[16], datum[32], calculation_method, number_parameters,
dx, dy, dz, rx, ry, rz, scale, reserved2[35], grid_name[32], distance_units,
angular_units, latitude_origin, central_meriidan, false_easting,
false_northing, central_scale_factor, custom_identifier, reserved3[50]) sum to
323. -/
theorem geodesy_size_differs_from_struct :
    R7KRECID_Geodesy = 1011 ∧
      fieldNames (payloadFields s7kr_geodesy) =
        ["spheroid", "semimajoraxis", "flattening", "reserved1", "datum", "calculation_method",
         "number_parameters", "dx", "dy", "dz", "rx", "ry", "rz", "scale", "reserved2",
         "grid_name", "distance_units", "angular_units", "latitude_origin", "central_meriidan",
         "false_easting", "false_northing", "central_scale_factor", "custom_identifier",
         "reserved3"] ∧
      fieldWidths (payloadFields s7kr_geodesy) =
        [32, 8, 8, 16, 32, 4, 4, 8, 8, 8, 8, 8, 8, 8, 35, 32, 1, 1, 8, 8, 8, 8, 8, 4, 50] ∧
      widthFields (payloadFields s7kr_geodesy) = 323 ∧
      R7KHDRSIZE_Geodesy = 320 ∧
      R7KHDRSIZE_Geodesy ≠ widthFields (payloadFields s7kr_geodesy) := by
  decide

/-! ## The record store -/

/-- C14 as stated fails: `R7KDEVID_PanTilt` (1017) is an identifier of the
Record ID table other than `R7KRECID_None`, the header defines the structure
`s7kr_pantilt` for record 1017, and the store holds no slot for it: no slot is
commented with record 1017 and no slot has type `s7kr_pantilt`. -/
theorem store_has_no_pantilt_slot :
    Define.mk "R7KDEVID" "PanTilt" (some R7KDEVID_PanTilt) ∈ recordIdsButNone ∧
      Typedef.mk "s7kr_pantilt" (some R7KDEVID_PanTilt) ∈ headerTypedefs ∧
      slotsByNumber R7KDEVID_PanTilt = [] ∧
      slotsByType R7KDEVID_PanTilt = [] ∧
      storeSlots.filter (fun s => s.type == "s7kr_pantilt" || s.name == "pantilt") = [] ∧
      ¬ (∀ d ∈ recordIdsButNone, hasOneSlot d = true) := by
  decide!

/-- C14 amended: the store has a slot for part of the record types only.  For
35 of the 70 identifiers other than `R7KRECID_None` (ReferencePoint to
Attitude, and eighteen SeaBat 7k records) `struct mbsys_reson7k_struct` holds
exactly one record slot for that record type, a slot of the structure the
header defines for the record and commented with its record number; for 25
identifiers (PanTilt, SonarInstallationIDs, SonarPipeEnvironment and 22 SeaBat
7k records) it holds none; and for no identifier does it hold two slots of
the structure of that record. -/
theorem store_slots_cover_part_of_ids :
    recordIdsButNone.length = 70 ∧
      storeSlots.length = 55 ∧
      defineNames (recordIdsButNone.filter hasOneSlot) =
        ["ReferencePoint", "UncalibratedSensorOffset", "CalibratedSensorOffset", "Position",
         "CustomAttitude", "Tide", "Altitude", "MotionOverGround", "Depth",
         "SoundVelocityProfile", "CTD", "Geodesy", "RollPitchHeave", "Heading", "SurveyLine",
         "Navigation", "Attitude", "7kSonarSettings", "7kConfiguration", "7kMatchFilter",
         "7kBeamGeometry", "7kBITEData", "7kSonarSourceVersion", "7k8kWetEndVersion",
         "7kRawDetectionData", "7kSnippetData", "7kInstallationParameters",
         "7kSystemEventMessage", "7kSnippetBackscatteringStrength", "7kFileHeader",
         "7kRemoteControlSonarSettings", "7kCommonSystemSettings", "7kSoundVelocity",
         "7kAbsorptionLoss", "7kSpreadingLoss"] ∧
      defineNames (recordIdsButNone.filter hasNoSlot) =
        ["PanTilt", "SonarInstallationIDs", "SonarPipeEnvironment", "7kAdaptiveGate",
         "7kVernierProcessingDataRaw", "7kVernierProcessingDataFiltered", "7kBITESummary",
         "7kCompressedBeamformedMagnitude", "7kCompressedWaterColumn",
         "7kSegmentedRawDetection", "7kCalibratedBeamData", "7kSystemEvents",
         "7kRDRRecordingStatus", "7kSubscriptions", "7kRDRStorageRecording",
         "7kCalibrationStatus", "7kCalibratedSideScan", "7kMB2Status", "7kFileCatalogRecord",
         "7kTimeMessage", "7kRemoteControl", "7kRemoteControlAcknowledge",
         "7kRemoteControlNotAcknowledge", "7kSVFiltering", "7kSystemLockStatus"] ∧
      (∀ d ∈ recordIdsButNone, ∀ v, d.body = some v → (slotsByType v).length ≤ 1) := by
  have h1 : recordIdsButNone.length = 70 := by decide!
  have h2 : storeSlots.length = 55 := by decide!
  have hall : recordIdsButNone.all
      (fun d => decide ((slotsByType (d.body.getD 0)).length ≤ 1)) = true := by decide!
  have h : ∀ d ∈ recordIdsButNone, (slotsByType (d.body.getD 0)).length ≤ 1 := by
    intro d hd
    have := List.all_eq_true.mp hall d hd
    exact of_decide_eq_true this
  refine ⟨h1, h2, by decide!, by decide!, ?_⟩
  intro d hd v hv
  have := h d hd
  rw [hv] at this
  exact this

/-- Witness for C14 amended: `R7KRECID_Position` is an identifier of the table
with value 1003, and the store holds at most one slot of the structure of
record 1003. -/
theorem store_slots_cover_part_of_ids_witness :
    Define.mk "R7KRECID" "Position" (some R7KRECID_Position) ∈ recordIdsButNone ∧
      (Define.mk "R7KRECID" "Position" (some R7KRECID_Position)).body =
        some R7KRECID_Position ∧
      (slotsByType R7KRECID_Position).length ≤ 1 :=
  ⟨by decide, rfl,
    store_slots_cover_part_of_ids.2.2.2.2
      (Define.mk "R7KRECID" "Position" (some R7KRECID_Position)) (by decide)
      R7KRECID_Position rfl⟩

theorem Buffer.store_data {α : Type} (b : Buffer α) (xs : List α) :
    (b.store xs).data.take (b.store xs).n = xs := by
  unfold Buffer.store
  split
  · simp
  · simp

theorem reassembleAll_pending (p : Partial) (f : Frame) (fs : List Frame)
    (hord : fragmentsInOrder p.recordType p.total p.received (f :: fs) = true)
    (hlen : p.received + (fs.length + 1) = p.total) :
    reassembleAll (acceptFragment p f).1 fs =
        (none, (List.replicate fs.length Reassembled.AwaitFragment).tail ++
          (if fs = [] then [] else
            [Reassembled.Complete p.header (p.payload ++ concatPayloads (f :: fs)) p.recordType])) ∧
      (acceptFragment p f).2 =
        (if fs = [] then
          Reassembled.Complete p.header (p.payload ++ concatPayloads (f :: fs)) p.recordType
        else Reassembled.AwaitFragment) := by
  induction fs generalizing p f with
  | nil =>
    have h1 : p.received + 1 = p.total := by simpa using hlen
    simp [acceptFragment, h1, reassembleAll, concatPayloads]
  | cons g gs ih =>
    have hne : ¬ (p.received + 1 = p.total) := by
      simp only [List.length_cons] at hlen
      omega
    simp only [fragmentsInOrder, Bool.and_eq_true, beq_iff_eq] at hord
    obtain ⟨_, ⟨⟨⟨hfrag, hty⟩, htot⟩, hnum⟩, hrest⟩ := hord
    have hacc : acceptFragment p f =
        (some { p with received := p.received + 1, payload := p.payload ++ f.payload },
          Reassembled.AwaitFragment) := by
      simp [acceptFragment, hne]
    have hstep : reassemble
        (some { p with received := p.received + 1, payload := p.payload ++ f.payload }) g =
        acceptFragment { p with received := p.received + 1, payload := p.payload ++ f.payload }
          g := by
      simp [reassemble, hfrag, hty, htot, hnum]
    have hord2 : fragmentsInOrder p.recordType p.total (p.received + 1) (g :: gs) = true := by
      simp [fragmentsInOrder, hfrag, hty, htot, hnum, hrest]
    have := ih { p with received := p.received + 1, payload := p.payload ++ f.payload } g hord2
      (by simp only [List.length_cons] at hlen ⊢; omega)
    rw [hacc]
    simp only [reassembleAll, hstep, this.1, this.2]
    constructor
    · by_cases hgs : gs = []
      · subst hgs
        simp [concatPayloads]
      · simp only [hgs, if_false, List.length_cons, List.replicate_succ, List.tail_cons,
          concatPayloads, List.append_assoc, reduceCtorEq, Prod.mk.injEq, true_and]
        cases gs with
        | nil => exact absurd rfl hgs
        | cons x xs => simp [List.replicate_succ]
    · simp

/-- C18 (fragment reassembly): frames with the fragmentation flag set, the same
record type and fragment numbers 0, 1, .., FragmentedTotal - 1, presented in
that order, reassemble into one record: the reader awaits after every frame but
the last, and at the last reports a complete record under the header of the
first fragment, whose payload is the concatenation of the fragment payloads in
index order, and holds no partial record afterwards.  A fragment whose number
is not the one expected (any number but 0 when no record is under reassembly)
yields `FragmentSequenceError` and leaves no partial record; presenting three
fragments in the order 1, 0, 2 yields the error at the first frame and again at
the third, where the partial record begun by fragment 0 is discarded. -/
theorem fragment_reassembly (recordType : Nat) (f : Frame) (fs : List Frame)
    (hord : fragmentsInOrder recordType (fs.length + 1) 0 (f :: fs) = true) :
    reassembleAll none (f :: fs) =
        (none, List.replicate fs.length Reassembled.AwaitFragment ++
          [Reassembled.Complete f.header (concatPayloads (f :: fs)) recordType]) ∧
      (∀ (p : Partial) (g : Frame), g.fragmented = true → g.fragmentNumber ≠ p.received →
        reassemble (some p) g = (none, Reassembled.Failed DecodeError.FragmentSequenceError)) ∧
      (∀ g : Frame, g.fragmented = true → g.fragmentNumber ≠ 0 →
        reassemble none g = (none, Reassembled.Failed DecodeError.FragmentSequenceError)) ∧
      (∀ f1 f2 : Frame, fs = [f1, f2] →
        reassembleAll none [f1, f, f2] =
          (none, [Reassembled.Failed DecodeError.FragmentSequenceError,
            Reassembled.AwaitFragment,
            Reassembled.Failed DecodeError.FragmentSequenceError])) := by
  have hord0 := hord
  simp only [fragmentsInOrder, Bool.and_eq_true, beq_iff_eq] at hord0
  obtain ⟨⟨⟨⟨hfrag, hty⟩, htot⟩, hnum⟩, hrest⟩ := hord0
  subst hty
  have hfirst : reassemble none f =
      acceptFragment ⟨f.header, f.recordType, f.fragmentedTotal, 0, []⟩ f := by
    simp [reassemble, hfrag, hnum, htot]
  refine ⟨?_, ?_, ?_, ?_⟩
  · have hp := reassembleAll_pending ⟨f.header, f.recordType, f.fragmentedTotal, 0, []⟩ f fs
      (by simpa [htot] using hord) (by simp [htot])
    simp only [reassembleAll, hfirst, hp.1, hp.2]
    cases fs with
    | nil => simp
    | cons g gs => simp [List.replicate_succ]
  · intro p g hg hne
    simp [reassemble, hg, hne]
  · intro g hg hne
    simp [reassemble, hg, hne]
  · intro f1 f2 hfs
    subst hfs
    simp only [fragmentsInOrder, Bool.and_eq_true, beq_iff_eq] at hrest
    obtain ⟨⟨⟨⟨hfrag1, _⟩, _⟩, hnum1⟩, ⟨⟨⟨hfrag2, _⟩, _⟩, hnum2⟩, _⟩ := hrest
    have h1 : reassemble none f1 = (none, Reassembled.Failed DecodeError.FragmentSequenceError) := by
      simp [reassemble, hfrag1, hnum1]
    have h0 : reassemble none f =
        (some ⟨f.header, f.recordType, f.fragmentedTotal, 1, f.payload⟩,
          Reassembled.AwaitFragment) := by
      rw [hfirst]
      simp [acceptFragment, htot]
    have h2 : reassemble (some ⟨f.header, f.recordType, f.fragmentedTotal, 1, f.payload⟩) f2 =
        (none, Reassembled.Failed DecodeError.FragmentSequenceError) := by
      simp [reassemble, hfrag2, hnum2]
    simp [reassembleAll, h1, h0, h2]

/-- Witness for C18: three fragments of a 7kBeamformedData record with payloads
of two, one and three bytes. -/
theorem fragment_reassembly_witness :
    fragmentsInOrder R7KRECID_7kBeamformedData 3 0
        [⟨sampleHeader 66 R7KRECID_7kBeamformedData 4 3 0, [1, 2]⟩,
          ⟨sampleHeader 65 R7KRECID_7kBeamformedData 4 3 1, [3]⟩,
          ⟨sampleHeader 67 R7KRECID_7kBeamformedData 4 3 2, [4, 5, 6]⟩] = true ∧
      reassembleAll none
        [⟨sampleHeader 66 R7KRECID_7kBeamformedData 4 3 0, [1, 2]⟩,
          ⟨sampleHeader 65 R7KRECID_7kBeamformedData 4 3 1, [3]⟩,
          ⟨sampleHeader 67 R7KRECID_7kBeamformedData 4 3 2, [4, 5, 6]⟩] =
        (none, [Reassembled.AwaitFragment, Reassembled.AwaitFragment,
          Reassembled.Complete (sampleHeader 66 R7KRECID_7kBeamformedData 4 3 0)
            [1, 2, 3, 4, 5, 6] R7KRECID_7kBeamformedData]) ∧
      reassemble (some ⟨sampleHeader 66 R7KRECID_7kBeamformedData 4 3 0,
          R7KRECID_7kBeamformedData, 3, 1, [1, 2]⟩)
          ⟨sampleHeader 65 R7KRECID_7kBeamformedData 4 3 0, [1, 2]⟩ =
        (none, Reassembled.Failed DecodeError.FragmentSequenceError) ∧
      reassemble none ⟨sampleHeader 65 R7KRECID_7kBeamformedData 4 3 1, [3]⟩ =
        (none, Reassembled.Failed DecodeError.FragmentSequenceError) ∧
      reassembleAll none
        [⟨sampleHeader 65 R7KRECID_7kBeamformedData 4 3 1, [3]⟩,
          ⟨sampleHeader 66 R7KRECID_7kBeamformedData 4 3 0, [1, 2]⟩,
          ⟨sampleHeader 67 R7KRECID_7kBeamformedData 4 3 2, [4, 5, 6]⟩] =
        (none, [Reassembled.Failed DecodeError.FragmentSequenceError,
          Reassembled.AwaitFragment,
          Reassembled.Failed DecodeError.FragmentSequenceError]) :=
  ⟨by decide,
    (fragment_reassembly R7KRECID_7kBeamformedData
      ⟨sampleHeader 66 R7KRECID_7kBeamformedData 4 3 0, [1, 2]⟩
      [⟨sampleHeader 65 R7KRECID_7kBeamformedData 4 3 1, [3]⟩,
        ⟨sampleHeader 67 R7KRECID_7kBeamformedData 4 3 2, [4, 5, 6]⟩] (by decide)).1,
    (fragment_reassembly R7KRECID_7kBeamformedData
      ⟨sampleHeader 66 R7KRECID_7kBeamformedData 4 3 0, [1, 2]⟩
      [⟨sampleHeader 65 R7KRECID_7kBeamformedData 4 3 1, [3]⟩,
        ⟨sampleHeader 67 R7KRECID_7kBeamformedData 4 3 2, [4, 5, 6]⟩] (by decide)).2.1
      ⟨sampleHeader 66 R7KRECID_7kBeamformedData 4 3 0, R7KRECID_7kBeamformedData, 3, 1, [1, 2]⟩
      ⟨sampleHeader 65 R7KRECID_7kBeamformedData 4 3 0, [1, 2]⟩ (by decide) (by decide),
    (fragment_reassembly R7KRECID_7kBeamformedData
      ⟨sampleHeader 66 R7KRECID_7kBeamformedData 4 3 0, [1, 2]⟩
      [⟨sampleHeader 65 R7KRECID_7kBeamformedData 4 3 1, [3]⟩,
        ⟨sampleHeader 67 R7KRECID_7kBeamformedData 4 3 2, [4, 5, 6]⟩] (by decide)).2.2.1
      ⟨sampleHeader 65 R7KRECID_7kBeamformedData 4 3 1, [3]⟩ (by decide) (by decide),
    (fragment_reassembly R7KRECID_7kBeamformedData
      ⟨sampleHeader 66 R7KRECID_7kBeamformedData 4 3 0, [1, 2]⟩
      [⟨sampleHeader 65 R7KRECID_7kBeamformedData 4 3 1, [3]⟩,
        ⟨sampleHeader 67 R7KRECID_7kBeamformedData 4 3 2, [4, 5, 6]⟩] (by decide)).2.2.2
      ⟨sampleHeader 65 R7KRECID_7kBeamformedData 4 3 1, [3]⟩
      ⟨sampleHeader 67 R7KRECID_7kBeamformedData 4 3 2, [4, 5, 6]⟩ rfl⟩

/-! ## The frame reader -/

theorem nextFrame_of_readFrameAt (bo : ByteOrder) (maxSize : Nat) (stream : List Byte)
    (r : FrameRead) (h : readFrameAt bo maxSize stream = some r) :
    nextFrame bo maxSize stream = r := by
  cases stream with
  | nil =>
    have hs : syncAt bo [] = false := rfl
    have : readFrameAt bo maxSize [] = none := by
      simp [readFrameAt, hs]
    rw [this] at h
    cases h
  | cons b bs => simp [nextFrame, h]

theorem headerLeaves_eq :
    headerLeaves = [2, 2, 4, 4, 4, 4, 2, 2, 4, 1, 1, 2, 4, 4, 2, 2, 4, 2, 2, 4, 4, 4] := by
  decide

theorem syncAt_header (bo : ByteOrder) (header : List Nat) (tail : List Byte)
    (hfit : fieldsFit headerLeaves header = true) :
    syncAt bo (writeFields bo headerLeaves header ++ tail) =
      (headerField header "SyncPattern" == syncPattern) := by
  have hidx : leafIndex s7k_header.fields "SyncPattern" = 2 := by decide
  rw [headerLeaves_eq] at hfit
  unfold syncAt headerField
  rw [hidx, headerLeaves_eq]
  rcases header with _ | ⟨v0, _ | ⟨v1, _ | ⟨v2, vs⟩⟩⟩
  · simp [fieldsFit] at hfit
  · simp [fieldsFit] at hfit
  · simp [fieldsFit] at hfit
  · simp only [fieldsFit, Bool.and_eq_true, decide_eq_true_eq] at hfit
    obtain ⟨h0, h1, h2, _⟩ := hfit
    have hdrop : List.drop ([2, 2].sum)
        (writeFields bo [2, 2, 4, 4, 4, 4, 2, 2, 4, 1, 1, 2, 4, 4, 2, 2, 4, 2, 2, 4, 4, 4]
          (v0 :: v1 :: v2 :: vs) ++ tail) =
        writeScalar bo 4 v2 ++
          (writeFields bo [4, 4, 4, 2, 2, 4, 1, 1, 2, 4, 4, 2, 2, 4, 2, 2, 4, 4, 4] vs ++ tail) := by
      simp only [writeFields, List.append_assoc]
      rw [← List.append_assoc (writeScalar bo 2 v0)]
      apply List.drop_left'
      simp [writeScalar_length]
    show (match readScalar bo 4 (List.drop ([2, 2].sum) _) with
      | .ok (v, _) => v == syncPattern
      | .error _ => false) = _
    rw [hdrop, readScalar_writeScalar bo 4 v2 h2]
    rfl

theorem readFrameAt_frame (bo : ByteOrder) (maxSize : Nat) (header : List Nat)
    (payload trailer next : List Byte)
    (hfit : fieldsFit headerLeaves header = true)
    (hsync : headerField header "SyncPattern" = syncPattern)
    (hsize : headerField header "Size" =
      MBSYS_RESON7K_RECORDHEADER_SIZE + payload.length + trailer.length)
    (hmax : headerField header "Size" ≤ maxSize)
    (htrailer : trailer.length = trailerSize header) :
    readFrameAt bo maxSize (writeFields bo headerLeaves header ++ payload ++ trailer ++ next) =
      some (.frame ⟨header, payload⟩ (checksumAdvisory bo header payload trailer) next) := by
  unfold readFrameAt
  rw [List.append_assoc, List.append_assoc, syncAt_header bo header _ hfit,
    readFields_writeFields bo headerLeaves header hfit]
  have h1 : headerField header "Size" - MBSYS_RESON7K_RECORDHEADER_SIZE - trailerSize header =
      payload.length := by omega
  have h2 : headerField header "Size" - MBSYS_RESON7K_RECORDHEADER_SIZE =
      (payload ++ trailer).length := by
    rw [List.length_append]
    omega
  have hplaus : MBSYS_RESON7K_RECORDHEADER_SIZE + trailerSize header ≤ headerField header "Size" ∧
      headerField header "Size" ≤ maxSize := ⟨by omega, hmax⟩
  have hlen : ¬ ((payload ++ (trailer ++ next)).length <
      headerField header "Size" - MBSYS_RESON7K_RECORDHEADER_SIZE) := by
    simp only [List.length_append]
    omega
  simp only [hsync, beq_self_eq_true, if_true, hplaus, and_self, hlen, if_false, h1]
  rw [List.take_left, List.drop_left, ← htrailer, List.take_left, h2, ← List.append_assoc,
    List.drop_left]

/-- C16 (array bound respected): take any frame that is well formed on the wire
(header fields in range, sync pattern, a `Size` within the bound that counts
the header, the payload and the trailer, not fragmented) and whose record type
has a counted-array schema, and suppose that after the fixed prefix of the
payload the declared count times the element size exceeds the bytes that remain
inside the frame.  Then, whatever bytes `next` follow the frame in the stream,
the reader consumes exactly `Size` bytes and the decode of the record returns
`ArraySizeMismatch`: the result does not depend on `next` and the stream handed
back is `next` untouched, so no byte beyond the declared `Size` is read. -/
theorem array_bound_respected (bo : ByteOrder) (maxSize : Nat) (table : List (Nat × Schema))
    (header : List Nat) (payload trailer : List Byte)
    (ws : List Nat) (c : Nat) (layout : ArrayLayout) (elem : List Nat)
    (fixed : List Nat) (rest : List Byte)
    (hfit : fieldsFit headerLeaves header = true)
    (hsync : headerField header "SyncPattern" = syncPattern)
    (hsize : headerField header "Size" =
      MBSYS_RESON7K_RECORDHEADER_SIZE + payload.length + trailer.length)
    (hmax : headerField header "Size" ≤ maxSize)
    (htrailer : trailer.length = trailerSize header)
    (hfrag : Frame.fragmented ⟨header, payload⟩ = false)
    (hschema : lookup table (headerField header "RecordType") =
      ⟨ws, .CountedArray c layout elem⟩)
    (hfixed : readFields bo ws payload = .ok (fixed, rest))
    (hcount : fixed.getD c 0 * elem.sum > rest.length) :
    (writeFields bo headerLeaves header ++ payload ++ trailer).length =
        headerField header "Size" ∧
      decode bo table (headerField header "RecordType") payload = .error .ArraySizeMismatch ∧
      ∀ next : List Byte,
        readRecord bo maxSize table none
            (writeFields bo headerLeaves header ++ payload ++ trailer ++ next) =
          (none, .record header (.error .ArraySizeMismatch)
            (checksumAdvisory bo header payload trailer) next) := by
  have hdec : decode bo table (headerField header "RecordType") payload =
      .error .ArraySizeMismatch := by
    simp only [decode, hschema, decodePayload, hfixed, decodeBody, hcount, if_true]
  refine ⟨?_, hdec, ?_⟩
  · rw [List.length_append, List.length_append, writeFields_length bo _ _ hfit, hsize]
    have : headerLeaves.sum = MBSYS_RESON7K_RECORDHEADER_SIZE := by decide
    omega
  · intro next
    have hframe := nextFrame_of_readFrameAt bo maxSize _ _
      (readFrameAt_frame bo maxSize header payload trailer next hfit hsync hsize hmax htrailer)
    have hre : reassemble none (⟨header, payload⟩ : Frame) =
        (none, .Complete header payload (headerField header "RecordType")) := by
      simp [reassemble, hfrag, Frame.recordType]
    simp only [readRecord, hframe, hre, hdec]

/-- Witness for C16: a frame of a sound velocity profile record whose count
declares three samples while the 40 bytes of payload inside the declared size
of 104 hold the fixed prefix and two samples; the eight bytes that follow in
the stream, which would complete a third sample, are left unread. -/
theorem array_bound_respected_witness :
    (fieldsFit headerLeaves (sampleHeader 104 R7KRECID_SoundVelocityProfile 0 0 0) = true ∧
      headerField (sampleHeader 104 R7KRECID_SoundVelocityProfile 0 0 0) "SyncPattern" =
        syncPattern ∧
      headerField (sampleHeader 104 R7KRECID_SoundVelocityProfile 0 0 0) "Size" =
        MBSYS_RESON7K_RECORDHEADER_SIZE + shortSvpPayload.length + ([] : List Byte).length ∧
      headerField (sampleHeader 104 R7KRECID_SoundVelocityProfile 0 0 0) "Size" ≤ 65536 ∧
      ([] : List Byte).length =
        trailerSize (sampleHeader 104 R7KRECID_SoundVelocityProfile 0 0 0) ∧
      Frame.fragmented ⟨sampleHeader 104 R7KRECID_SoundVelocityProfile 0 0 0, shortSvpPayload⟩ =
        false ∧
      lookup headerSchemaTable
          (headerField (sampleHeader 104 R7KRECID_SoundVelocityProfile 0 0 0) "RecordType") =
        ⟨[1, 1, 2, 8, 8, 4], .CountedArray 5 .arrayOfStruct [4, 4]⟩ ∧
      readFields .little [1, 1, 2, 8, 8, 4] shortSvpPayload =
        .ok ([1, 0, 0, 4607182418800017408, 4611686018427387904, 3],
          writeRows .little [4, 4] [[10, 1500], [20, 1490]]) ∧
      ([1, 0, 0, 4607182418800017408, 4611686018427387904, 3] : List Nat).getD 5 0 *
          ([4, 4] : List Nat).sum >
        (writeRows .little [4, 4] [[10, 1500], [20, 1490]]).length) ∧
      (writeFields .little headerLeaves (sampleHeader 104 R7KRECID_SoundVelocityProfile 0 0 0) ++
            shortSvpPayload ++ []).length =
          headerField (sampleHeader 104 R7KRECID_SoundVelocityProfile 0 0 0) "Size" ∧
      decode .little headerSchemaTable
          (headerField (sampleHeader 104 R7KRECID_SoundVelocityProfile 0 0 0) "RecordType")
          shortSvpPayload = .error .ArraySizeMismatch ∧
      readRecord .little 65536 headerSchemaTable none
          (writeFields .little headerLeaves
              (sampleHeader 104 R7KRECID_SoundVelocityProfile 0 0 0) ++
            shortSvpPayload ++ [] ++ writeRows .little [4, 4] [[30, 1480]]) =
        (none, .record (sampleHeader 104 R7KRECID_SoundVelocityProfile 0 0 0)
          (.error .ArraySizeMismatch)
          (checksumAdvisory .little (sampleHeader 104 R7KRECID_SoundVelocityProfile 0 0 0)
            shortSvpPayload [])
          (writeRows .little [4, 4] [[30, 1480]])) :=
  have H := array_bound_respected .little 65536 headerSchemaTable
    (sampleHeader 104 R7KRECID_SoundVelocityProfile 0 0 0) shortSvpPayload []
    [1, 1, 2, 8, 8, 4] 5 .arrayOfStruct [4, 4]
    [1, 0, 0, 4607182418800017408, 4611686018427387904, 3]
    (writeRows .little [4, 4] [[10, 1500], [20, 1490]])
    (by decide) (by decide) (by decide) (by decide) (by decide) (by decide) rfl rfl (by decide)
  ⟨⟨by decide, by decide, by decide, by decide, by decide, by decide, rfl, rfl, by decide⟩,
    H.1, H.2.1, H.2.2 (writeRows .little [4, 4] [[30, 1480]])⟩

/-! ## Vendor, settings and per-beam records -/

/-- C21 (the code departs from it): `R7KHDRSIZE_ContactOutput` is 450, but the
wire widths of the payload fields of `s7kr_contactoutput` (target_id,
ping_number, s7kTime, operator[128], contact_state, range, bearing,
info_flags, latitude, longitude, azimuth, contact_length, contact_width,
classification[128], description[128]) sum to 446. -/
theorem contactoutput_size_differs_from_struct :
    R7KRECID_ContactOutput = 3001 ∧
      fieldNames (payloadFields s7kr_contactoutput) =
        ["target_id", "ping_number", "s7kTime", "operator", "contact_state", "range", "bearing",
         "info_flags", "latitude", "longitude", "azimuth", "contact_length", "contact_width",
         "classification", "description"] ∧
      fieldWidths (payloadFields s7kr_contactoutput) =
        [4, 4, 10, 128, 4, 4, 4, 4, 8, 8, 4, 4, 4, 128, 128] ∧
      widthFields (payloadFields s7kr_contactoutput) = 446 ∧
      R7KHDRSIZE_ContactOutput = 450 ∧
      R7KHDRSIZE_ContactOutput ≠ widthFields (payloadFields s7kr_contactoutput) := by
  decide

/-- C22: for each of the settings records 7kSonarSettings (7000,
`s7kr_volatilesettings`), 7kMatchFilter (7002, `s7kr_matchfilter`),
7kInstallationParameters (7030, `s7kr_installation`) and
7kRemoteControlSonarSettings (7503, `s7kr_remotecontrolsettings`) the constant
`R7KHDRSIZE` of the type equals the sum of the wire widths of the payload
fields of the structure, the serial number counted as 8 bytes and arrays as
element width times length; none of these structures has a variable-length
array. -/
theorem settings_sizes_match_structs :
    (R7KRECID_7kSonarSettings = 7000 ∧
      Typedef.mk "s7kr_volatilesettings" (some 7000) ∈ headerTypedefs ∧
      fieldWidth s7kr_volatilesettings "serial_number" = 8 ∧
      R7KHDRSIZE_7kSonarSettings = 156 ∧
      R7KHDRSIZE_7kSonarSettings = widthFields (payloadFields s7kr_volatilesettings)) ∧
    (R7KRECID_7kMatchFilter = 7002 ∧
      Typedef.mk "s7kr_matchfilter" (some 7002) ∈ headerTypedefs ∧
      fieldWidths (payloadFields s7kr_matchfilter) = [8, 4, 4, 4, 4, 4, 4, 4, 52] ∧
      R7KHDRSIZE_7kMatchFilter = 88 ∧
      R7KHDRSIZE_7kMatchFilter = widthFields (payloadFields s7kr_matchfilter)) ∧
    (R7KRECID_7kInstallationParameters = 7030 ∧
      Typedef.mk "s7kr_installation" (some 7030) ∈ headerTypedefs ∧
      R7KHDRSIZE_7kInstallationParameters = 616 ∧
      R7KHDRSIZE_7kInstallationParameters = widthFields (payloadFields s7kr_installation)) ∧
    (R7KRECID_7kRemoteControlSonarSettings = 7503 ∧
      Typedef.mk "s7kr_remotecontrolsettings" (some 7503) ∈ headerTypedefs ∧
      fieldWidth s7kr_remotecontrolsettings "serial_number" = 8 ∧
      fieldWidth s7kr_remotecontrolsettings "reserved2" = 70 ∧
      R7KHDRSIZE_7kRemoteControlSonarSettings = 260 ∧
      R7KHDRSIZE_7kRemoteControlSonarSettings =
        widthFields (payloadFields s7kr_remotecontrolsettings)) ∧
    ([s7kr_volatilesettings, s7kr_matchfilter, s7kr_installation,
        s7kr_remotecontrolsettings].all
      (fun t => (payloadFields t).all
        (fun f => !(isVariableLength f.2 || isPerBeamArray f.2 ||
          bookkeepingFields.contains f.1)))) = true := by
  decide

/-- C23 (the code departs from it): for the 7kRawDetectionData record (type
7027) `R7KHDRSIZE_7kRawDetectionData` (99) equals the summed wire width of the
fixed fields of `s7kr_v2rawdetection` (serial_number to reserved[64]), but
`R7KRDTSIZE_7kRawDetectionData` is 34 while one detection's entry across the
per-beam arrays of the structure (beam_descriptor, detection_point, rx_angle,
flags, quality, uncertainty) is 22 bytes wide; already for one detection the
payload size by the constants, 133, differs from the 121 bytes of the fields. -/
theorem rawdetection_entry_size_differs_from_struct :
    R7KRECID_7kRawDetectionData = 7027 ∧
      (fieldNames (fixedPrefix s7kr_v2rawdetection) =
          ["serial_number", "ping_number", "multi_ping", "number_beams", "data_field_size",
           "detection_algorithm", "detection_flags", "sampling_rate", "tx_angle", "reserved"] ∧
        R7KHDRSIZE_7kRawDetectionData = 99 ∧
        R7KHDRSIZE_7kRawDetectionData = widthFields (fixedPrefix s7kr_v2rawdetection)) ∧
      (fieldNames (perBeamEntry s7kr_v2rawdetection) =
          ["beam_descriptor", "detection_point", "rx_angle", "flags", "quality", "uncertainty"] ∧
        fieldWidths (perBeamEntry s7kr_v2rawdetection) = [2, 4, 4, 4, 4, 4] ∧
        widthFields (perBeamEntry s7kr_v2rawdetection) = 22 ∧
        R7KRDTSIZE_7kRawDetectionData = 34 ∧
        R7KRDTSIZE_7kRawDetectionData ≠ widthFields (perBeamEntry s7kr_v2rawdetection)) ∧
      (R7KHDRSIZE_7kRawDetectionData + 1 * R7KRDTSIZE_7kRawDetectionData = 133 ∧
        widthFields (fixedPrefix s7kr_v2rawdetection) +
          1 * widthFields (perBeamEntry s7kr_v2rawdetection) = 121) := by
  decide

/-- C24 (the code departs from it): for the 7kDetectionDataSetup record (type
7017) `R7KHDRSIZE_7kDetectionDataSetup` (116) equals the summed wire width of
the fixed fields of `s7kr_detectiondatasetup` (serial_number to reserved[13]),
but `R7KRDTSIZE_7kDetectionDataSetup` is 30 while one beam's entry across the
per-beam arrays of the structure (beam_descriptor, detection_point, flags, the
four limits, quality, uncertainty) is 34 bytes wide; the entry without
`uncertainty` is 30 bytes wide. -/
theorem detectionsetup_entry_size_differs_from_struct :
    R7KRECID_7kDetectionDataSetup = 7017 ∧
      (fieldNames (fixedPrefix s7kr_detectiondatasetup) =
          ["serial_number", "ping_number", "multi_ping", "number_beams", "data_block_size",
           "detection_algorithm", "detection_flags", "minimum_depth", "maximum_depth",
           "minimum_range", "maximum_range", "minimum_nadir_search", "maximum_nadir_search",
           "automatic_filter_window", "applied_roll", "depth_gate_tilt", "nadir_depth",
           "reserved"] ∧
        R7KHDRSIZE_7kDetectionDataSetup = 116 ∧
        R7KHDRSIZE_7kDetectionDataSetup = widthFields (fixedPrefix s7kr_detectiondatasetup)) ∧
      (fieldNames (perBeamEntry s7kr_detectiondatasetup) =
          ["beam_descriptor", "detection_point", "flags", "auto_limits_min_sample",
           "auto_limits_max_sample", "user_limits_min_sample", "user_limits_max_sample",
           "quality", "uncertainty"] ∧
        fieldWidths (perBeamEntry s7kr_detectiondatasetup) = [2, 4, 4, 4, 4, 4, 4, 4, 4] ∧
        widthFields (perBeamEntry s7kr_detectiondatasetup) = 34 ∧
        R7KRDTSIZE_7kDetectionDataSetup = 30 ∧
        R7KRDTSIZE_7kDetectionDataSetup ≠ widthFields (perBeamEntry s7kr_detectiondatasetup) ∧
        R7KRDTSIZE_7kDetectionDataSetup =
          widthFields ((perBeamEntry s7kr_detectiondatasetup).filter
            (fun f => f.1 != "uncertainty"))) := by
  decide

/-- C25 (the code departs from it): `R7KHDRSIZE_7kSideScanData` is 64, but the
fixed wire fields of `s7kr_sidescandata`, serial_number to data_type before
`nalloc`, sum to 68; without the four bytes of `nadir_depth` they sum to 64. -/
theorem sidescan_size_differs_from_struct :
    R7KRECID_7kSideScanData = 7007 ∧
      fieldNames (fixedFields s7kr_sidescandata) =
        ["serial_number", "ping_number", "multi_ping", "beam_position", "control_flags",
         "number_samples", "nadir_depth", "port_beamwidth_x", "port_beamwidth_y",
         "stbd_beamwidth_x", "stbd_beamwidth_y", "port_steering_x", "port_steering_y",
         "stbd_steering_x", "stbd_steering_y", "number_beams", "current_beam", "sample_size",
         "data_type"] ∧
      fieldWidths (fixedFields s7kr_sidescandata) =
        [8, 4, 2, 4, 4, 4, 4, 4, 4, 4, 4, 4, 4, 4, 4, 2, 2, 1, 1] ∧
      widthFields (fixedFields s7kr_sidescandata) = 68 ∧
      R7KHDRSIZE_7kSideScanData = 64 ∧
      R7KHDRSIZE_7kSideScanData ≠ widthFields (fixedFields s7kr_sidescandata) ∧
      R7KHDRSIZE_7kSideScanData =
        widthFields ((fixedFields s7kr_sidescandata).filter (fun f => f.1 != "nadir_depth")) := by
  decide

/-- C26 (the code departs from it): `R7KHDRSIZE_7kPingMotionData` is 44, but the
fixed fields of `s7kr_pingmotiondata` that precede `nalloc` (serial_number,
ping_number, multi_ping, n, flags, error_flags, frequency, pitch) sum to 32. -/
theorem pingmotion_size_differs_from_struct :
    R7KRECID_7kPingMotionData = 7012 ∧
      fieldNames (fixedFields s7kr_pingmotiondata) =
        ["serial_number", "ping_number", "multi_ping", "n", "flags", "error_flags", "frequency",
         "pitch"] ∧
      fieldWidths (fixedFields s7kr_pingmotiondata) = [8, 4, 2, 4, 2, 4, 4, 4] ∧
      widthFields (fixedFields s7kr_pingmotiondata) = 32 ∧
      R7KHDRSIZE_7kPingMotionData = 44 ∧
      R7KHDRSIZE_7kPingMotionData ≠ widthFields (fixedFields s7kr_pingmotiondata) := by
  decide

/-- C27: for each of the records 7kFirmwareHardwareConfiguration (7003),
7kBeamGeometry (7004), 7kBathymetricData (7006), 7kTVG (7010, constant
`R7KHDRSIZE_7kTVGData`), 7kImageData (7011), 7kSystemEventMessage (7051) and
7kSnippetBackscatteringStrength (7058, `s7kr_calibratedsnippet`) the fixed
header size constant equals the sum of the wire widths of the fixed prefix of
the structure: the wire fields after `header` and before the first
variable-length or per-beam array, without the bookkeeping fields nalloc,
info_alloc and message_alloc. -/
theorem fixed_prefix_sizes_match_structs :
    (R7KRECID_7kFirmwareHardwareConfiguration = 7003 ∧
      fieldNames (fixedPrefix s7kr_firmwarehardwareconfiguration) =
        ["device_count", "info_length"] ∧
      R7KHDRSIZE_7kFirmwareHardwareConfiguration =
        widthFields (fixedPrefix s7kr_firmwarehardwareconfiguration)) ∧
    (R7KRECID_7kBeamGeometry = 7004 ∧
      fieldNames (fixedPrefix s7kr_beamgeometry) = ["serial_number", "number_beams"] ∧
      R7KHDRSIZE_7kBeamGeometry = widthFields (fixedPrefix s7kr_beamgeometry)) ∧
    (R7KRECID_7kBathymetricData = 7006 ∧
      fieldNames (fixedPrefix s7kr_bathymetrydata) =
        ["serial_number", "ping_number", "multi_ping", "number_beams", "layer_comp_flag",
         "sound_vel_flag", "sound_velocity"] ∧
      R7KHDRSIZE_7kBathymetricData = widthFields (fixedPrefix s7kr_bathymetrydata)) ∧
    (R7KRECID_7kTVG = 7010 ∧
      fieldNames (fixedPrefix s7kr_tvg) =
        ["serial_number", "ping_number", "multi_ping", "n", "reserved"] ∧
      R7KHDRSIZE_7kTVGData = widthFields (fixedPrefix s7kr_tvg)) ∧
    (R7KRECID_7kImageData = 7011 ∧
      fieldNames (fixedPrefix s7kr_imagedata) =
        ["ping_number", "multi_ping", "width", "height", "color_depth", "reserved",
         "compression", "n", "flag", "rx_delay", "reserved"] ∧
      R7KHDRSIZE_7kImageData = widthFields (fixedPrefix s7kr_imagedata)) ∧
    (R7KRECID_7kSystemEventMessage = 7051 ∧
      fieldNames (fixedPrefix s7kr_systemeventmessage) =
        ["serial_number", "event_id", "message_length", "event_identifier"] ∧
      R7KHDRSIZE_7kSystemEventMessage = widthFields (fixedPrefix s7kr_systemeventmessage)) ∧
    (R7KRECID_7kSnippetBackscatteringStrength = 7058 ∧
      Typedef.mk "s7kr_calibratedsnippet" (some 7058) ∈ headerTypedefs ∧
      fieldNames (fixedPrefix s7kr_calibratedsnippet) =
        ["serial_number", "ping_number", "multi_ping", "number_beams", "error_flag",
         "control_flags", "reserved"] ∧
      R7KHDRSIZE_7kSnippetBackscatteringStrength =
        widthFields (fixedPrefix s7kr_calibratedsnippet)) ∧
    [R7KHDRSIZE_7kFirmwareHardwareConfiguration, R7KHDRSIZE_7kBeamGeometry,
        R7KHDRSIZE_7kBathymetricData, R7KHDRSIZE_7kTVGData, R7KHDRSIZE_7kImageData,
        R7KHDRSIZE_7kSystemEventMessage, R7KHDRSIZE_7kSnippetBackscatteringStrength] =
      [8, 12, 24, 50, 56, 14, 49] := by
  decide

/-! ## Identifiers, beam counts and declared types -/

/-- C28: the record-type identifier is an unambiguous tag.  The Record ID table
has 71 macros, all distinct and each with a numeric value, among them
`R7KDEVID_PanTilt`, `R7KDEVID_SonarInstallationIDs` and
`R7KDEVID_7kAdaptiveGate`; their values are strictly increasing in source
order, so no two distinct macros have the same value. -/
theorem record_ids_are_distinct :
    recordIdTable.length = 71 ∧
      recordIdTable.Nodup ∧
      recordIdValues.length = recordIdTable.length ∧
      recordIdValues.Pairwise (fun a b => a < b) ∧
      (recordIdTable.map (fun d => d.body)).Nodup ∧
      (defineNames (recordIdTable.filter (fun d => d.pre == "R7KDEVID")) =
          ["PanTilt", "SonarInstallationIDs", "7kAdaptiveGate"] ∧
        [R7KDEVID_PanTilt, R7KDEVID_SonarInstallationIDs, R7KDEVID_7kAdaptiveGate] =
          [1017, 1020, 7014]) := by
  decide!

theorem perBeamArrays_len (t : CType) (a : String × CType) (h : a ∈ perBeamArrays t) :
    a.2.len = MBSYS_RESON7K_MAX_BEAMS := by
  unfold perBeamArrays at h
  rw [List.mem_filter] at h
  obtain ⟨_, h2⟩ := h
  rcases a with ⟨name, ty⟩
  cases ty <;> simp [isPerBeamArray] at h2
  simpa [CType.len] using h2

theorem validIndex_below_iff (a : CType) (nb : Nat) :
    (∀ i, i < nb → validIndex a i = true) ↔ nb ≤ a.len := by
  simp only [validIndex, decide_eq_true_eq]
  constructor
  · intro h
    by_contra hlt
    have := h a.len (by omega)
    omega
  · intro h i hi
    omega

/-- C29 as stated fails: the field `number_beams` of `s7kr_v2snippet` is an
unsigned short, which holds every value up to 65535; the count 1025 exceeds
`MBSYS_RESON7K_MAX_BEAMS`, and index 1024, which is below that count, is not a
valid index into the per-beam array `snippettimeseries`. -/
theorem beam_count_can_exceed_capacity :
    fieldWidth s7kr_v2snippet "number_beams" = 2 ∧
      fieldMax s7kr_v2snippet "number_beams" = 65535 ∧
      1025 ≤ fieldMax s7kr_v2snippet "number_beams" ∧
      ¬ (1025 ≤ MBSYS_RESON7K_MAX_BEAMS) ∧
      fieldNames (perBeamArrays s7kr_v2snippet) = ["snippettimeseries"] ∧
      (1024 < 1025 ∧ ∀ a ∈ perBeamArrays s7kr_v2snippet, validIndex a.2 1024 = false) ∧
      ¬ (∀ t ∈ perBeamRecords, ∀ v, v ≤ fieldMax t "number_beams" →
          v ≤ MBSYS_RESON7K_MAX_BEAMS) := by
  refine ⟨by decide, by decide, by decide, by decide, by decide, ⟨by decide, by decide⟩, ?_⟩
  intro h
  have h1 := h s7kr_v2snippet (by simp [perBeamRecords]) 1025 (by decide)
  exact absurd h1 (by decide)

/-- C29 amended: in every record whose per-beam arrays have the fixed capacity
`MBSYS_RESON7K_MAX_BEAMS` = 1024 (`s7kr_beamgeometry`, `s7kr_bathymetrydata`,
`s7kr_detectiondatasetup`, `s7kr_beamformeddata`, `s7kr_v2rawdetection`,
`s7kr_v2snippet`, `s7kr_calibratedsnippet`) each per-beam array has exactly
1024 entries, and the `number_beams` field of the record (4 bytes wide in four
of them, 2 bytes wide in three) can hold values above 1024; for a declared
count `nb`, every index below `nb` is a valid index into each per-beam array
exactly when `nb` is at most 1024. -/
theorem beam_index_valid_iff_count_le_capacity (nb : Nat) :
    MBSYS_RESON7K_MAX_BEAMS = 1024 ∧
      perBeamRecords.map (fun t => (perBeamArrays t).length) = [4, 10, 9, 1, 6, 1, 1] ∧
      perBeamRecords.map (fun t => fieldWidth t "number_beams") = [4, 4, 4, 2, 4, 2, 2] ∧
      (∀ t ∈ perBeamRecords, MBSYS_RESON7K_MAX_BEAMS < fieldMax t "number_beams") ∧
      (∀ t ∈ perBeamRecords, ∀ a ∈ perBeamArrays t,
        a.2.len = MBSYS_RESON7K_MAX_BEAMS ∧
          ((∀ i, i < nb → validIndex a.2 i = true) ↔ nb ≤ MBSYS_RESON7K_MAX_BEAMS)) := by
  refine ⟨rfl, by decide, by decide, by decide, ?_⟩
  intro t _ a ha
  have hlen := perBeamArrays_len t a ha
  refine ⟨hlen, ?_⟩
  rw [validIndex_below_iff, hlen]

/-- Witness for C29 amended: for `s7kr_v2snippet`, its per-beam array
`snippettimeseries` and the declared count 512, the array has 1024 entries and
every index below 512 is valid. -/
theorem beam_index_valid_iff_count_le_capacity_witness :
    ((("snippettimeseries", CType.arr s7kr_v2snippettimeseries MBSYS_RESON7K_MAX_BEAMS) :
          String × CType).2.len = MBSYS_RESON7K_MAX_BEAMS) ∧
      ((∀ i, i < 512 →
          validIndex (("snippettimeseries",
            CType.arr s7kr_v2snippettimeseries MBSYS_RESON7K_MAX_BEAMS) :
              String × CType).2 i = true) ↔
        512 ≤ MBSYS_RESON7K_MAX_BEAMS) :=
  (beam_index_valid_iff_count_le_capacity 512).2.2.2.2 s7kr_v2snippet
    (by simp [perBeamRecords])
    ("snippettimeseries", CType.arr s7kr_v2snippettimeseries MBSYS_RESON7K_MAX_BEAMS)
    (List.mem_of_mem_head? (show _ ∈ (perBeamArrays s7kr_v2snippet).head? from rfl))

/-- C30 (the code departs from it): of the 55 record slots of
`struct mbsys_reson7k_struct` fifteen have a type that the header does not
define, and of the 60 `mbsys_reson7k_print_` prototypes seventeen take a type
that the header does not define.  The slot `bathymetry` and the prototype
`mbsys_reson7k_print_bathymetry` use `s7kr_bathymetry`, while the header
defines `s7kr_bathymetrydata` for record 7006. -/
theorem store_and_prototypes_use_undefined_types :
    (headerTypedefs.length = 63 ∧ storeSlots.length = 55 ∧ printPrototypes.length = 60) ∧
      undefinedSlotTypes =
        ["s7kr_rec1022", "s7kr_fsdwss", "s7kr_fsdwss", "s7kr_fsdwsb", "s7kr_bluefin",
         "s7kr_v2firmwarehardwareconfiguration", "s7kr_calibration", "s7kr_bathymetry",
         "s7kr_backscatter", "s7kr_beam", "s7kr_verticaldepth", "s7kr_image",
         "s7kr_v2pingmotion", "s7kr_v2detectionsetup", "s7kr_v2beamformed"] ∧
      undefinedPrototypeTypes =
        ["s7kr_rec1022", "s7k_fsdwchannel", "s7k_fsdwssheader", "s7k_fsdwsegyheader",
         "s7kr_fsdwss", "s7kr_fsdwsb", "s7kr_bluefin", "s7kr_v2firmwarehardwareconfiguration",
         "s7kr_calibration", "s7kr_bathymetry", "s7kr_backscatter", "s7kr_beam",
         "s7kr_verticaldepth", "s7kr_image", "s7kr_v2pingmotion", "s7kr_v2detectionsetup",
         "s7kr_v2beamformed"] ∧
      (StoreSlot.mk "s7kr_bathymetry" "bathymetry" 7006 ∈ storeSlots ∧
        Prototype.mk "bathymetry" "s7kr_bathymetry" ∈ printPrototypes ∧
        "s7kr_bathymetry" ∉ typedefNames ∧
        Typedef.mk "s7kr_bathymetrydata" (some 7006) ∈ headerTypedefs) ∧
      ¬ (∀ s ∈ storeSlots, s.type ∈ typedefNames) ∧
      ¬ (∀ p ∈ printPrototypes, p.type ∈ typedefNames) := by
  decide!

end Reson7k
